import Mathlib

/-!
# libnetconf message layer (`src/messages.c`): a shallow embedding

The C code builds and inspects libxml2 trees.  The embedding keeps the shape of
the C data: a node carries the fields of `struct _xmlNode` that the code reads
(`type`, `name`, `content`, `nsDef`, `properties`, `children`), a sibling chain
`children / next` is a `List`, and a `NULL` pointer is `none` (or `[]` for an
empty sibling chain).  A pointer into a tree under construction (`node_target`,
`einfo`, ...) is the path of child indices leading to that node from the root
of the tree (`content`).

libxml2 itself is not part of the repository.  Its tree primitives are written
out below after their documented behaviour; its text parser and serializer are
fields of `LibXml2`, over which every definition is parametric.

Allocation failure (`malloc`, `xmlNewNode`, ... returning `NULL` for lack of
memory) is not modelled.  Reading through a `NULL` pointer is: such a run ends
in `Exec.segv`.

Behind the message layer stand the argument list and the command `get-config` of
the example client (`examples/client/commands.c`), and the backend interface of
the datastores (`src/datastore/datastore_internal.h`) with the lock gateway that
the specification describes on top of it.
-/

set_option autoImplicit false

namespace Netconf

/-! ## The libxml2 tree -/

/-- The libxml2 node kinds that can occur in the documents handled here. -/
inductive xmlElementType where
  | XML_ELEMENT_NODE
  | XML_TEXT_NODE
  | XML_PI_NODE
  | XML_COMMENT_NODE
  | XML_DTD_NODE
  deriving DecidableEq, Repr

/-- An attribute of an element: name and value. -/
structure xmlAttr where
  name : String
  value : String
  deriving DecidableEq, Repr

/-- A namespace declaration of an element: `href` and optional `prefix`. -/
structure xmlNs where
  href : String
  pfx : Option String
  deriving DecidableEq, Repr

/-- The fields of `struct _xmlNode` read by the code; `children` is the
sibling chain starting at `->children`. -/
inductive xmlNode where
  | mk (type : xmlElementType) (name : String) (content : Option String)
      (nsDef : List xmlNs) (properties : List xmlAttr) (children : List xmlNode)
  deriving Repr

namespace xmlNode

def type : xmlNode → xmlElementType
  | mk t _ _ _ _ _ => t

def name : xmlNode → String
  | mk _ n _ _ _ _ => n

def content : xmlNode → Option String
  | mk _ _ c _ _ _ => c

def nsDef : xmlNode → List xmlNs
  | mk _ _ _ ns _ _ => ns

def properties : xmlNode → List xmlAttr
  | mk _ _ _ _ ps _ => ps

def children : xmlNode → List xmlNode
  | mk _ _ _ _ _ cs => cs

/-- The node with its sibling chain `->children` replaced. -/
def setChildren : xmlNode → List xmlNode → xmlNode
  | mk t n c ns ps _, cs => mk t n c ns ps cs

/-- The node with its `->content` replaced. -/
def setContent : xmlNode → Option String → xmlNode
  | mk t n _ ns ps cs, c => mk t n c ns ps cs

/-- The node reached from `root` by the child indices in `path`. -/
def nodeAt : xmlNode → List Nat → Option xmlNode
  | root, [] => some root
  | root, i :: path =>
    match root.children.get? i with
    | some c => nodeAt c path
    | none => none

/-- Run `f` on the node reached from `root` by `path`, in place. -/
def withNode : xmlNode → List Nat → (xmlNode → xmlNode) → xmlNode
  | root, [], f => f root
  | root, i :: path, f => root.setChildren (root.children.modify (fun c => withNode c path f) i)

end xmlNode

/-- The fields of `struct _xmlDoc` used here; `children` is the chain of
top-level nodes (comments, processing instructions, DTD, the root element). -/
structure xmlDoc where
  version : String
  encoding : Option String
  children : List xmlNode
  deriving Repr

/-- The part of libxml2 that is taken as given: the text parser (text and
option flags to a document, `none` for `NULL`), the serializer (document and
format flag to text), and the node list that `xmlStringGetNodeList` makes of a
value holding entity references. -/
structure LibXml2 where
  xmlReadMemory : String → Nat → Option xmlDoc
  xmlDocDumpFormatMemory : xmlDoc → Int → String
  entityNodeList : String → List xmlNode

/-- Outcome of running C code that may read through a `NULL` pointer. -/
inductive Exec (α : Type) where
  | ret (a : α)
  | segv
  deriving DecidableEq, Repr

namespace Exec

def bind {α β : Type} : Exec α → (α → Exec β) → Exec β
  | ret a, f => f a
  | segv, _ => segv

instance : Monad Exec where
  pure := ret
  bind := bind

end Exec

/-- Dereference of a pointer: `NULL` ends the run. -/
def deref {α : Type} : Option α → Exec α
  | some a => Exec.ret a
  | none => Exec.segv

def XML_PARSE_NOERROR : Nat := 32
def XML_PARSE_NOWARNING : Nat := 64
def XML_PARSE_NOBLANKS : Nat := 256
def XML_PARSE_NSCLEAN : Nat := 8192

/-- Function `xmlStrEqual`: 1 when both strings are equal; a `NULL` string equals only
`NULL`. -/
def xmlStrEqual : Option String → Option String → Bool
  | some a, some b => a == b
  | none, none => true
  | _, _ => false

/-- Call `xmlNewNode(NULL, name)`: a fresh element without content. -/
def xmlNewNode (name : String) : xmlNode :=
  .mk .XML_ELEMENT_NODE name none [] [] []

/-- Function `xmlNewDocText`: a text node. -/
def xmlNewText (content : String) : xmlNode :=
  .mk .XML_TEXT_NODE "text" (some content) [] [] []

/-- Function `xmlStringGetNodeList`: the node list of an attribute or element value.
A value without `&` is one text node holding it. -/
def xmlStringGetNodeList (L : LibXml2) (value : String) : List xmlNode :=
  if value.toList.contains '&' then L.entityNodeList value else [xmlNewText value]

/-- Pointer to a node of a tree under construction: the child indices leading
to it from the root of the tree. -/
abbrev xmlNodePtr := List Nat

/-- Call `xmlNewChild(parent, NULL, name, content)` in the tree `root`: appends a
new element to the children of the node `parent`.  Returns the updated tree
and the pointer to the new child. -/
def xmlNewChild (L : LibXml2) (root : xmlNode) (parent : xmlNodePtr) (name : String)
    (content : Option String) : xmlNode × xmlNodePtr :=
  let kids := match content with
    | some c => xmlStringGetNodeList L c
    | none => []
  let idx := match root.nodeAt parent with
    | some p => p.children.length
    | none => 0
  (root.withNode parent
     (fun p => p.setChildren (p.children ++ [.mk .XML_ELEMENT_NODE name none [] [] kids])),
   parent ++ [idx])

/-- Call `xmlNewProp(node, name, value)`: appends an attribute. -/
def xmlNewProp : xmlNode → String → String → xmlNode
  | .mk t n c ns ps cs, name, value => .mk t n c ns (ps ++ [⟨name, value⟩]) cs

/-- Call `xmlNewNs(node, href, prefix)`: appends a namespace declaration. -/
def xmlNewNs : xmlNode → String → Option String → xmlNode
  | .mk t n c ns ps cs, href, pfx => .mk t n c (ns ++ [⟨href, pfx⟩]) ps cs

/-- Call `xmlCopyNode(node, 1)`: a deep copy; `NULL` for a `NULL` argument and for
node kinds that cannot be copied (a DTD). -/
def xmlCopyNode : Option xmlNode → Option xmlNode
  | none => none
  | some n => if n.type = .XML_DTD_NODE then none else some n

/-- Call `xmlNodeAddContent(cur, content)` on a text node: appends to its content. -/
def xmlNodeAddContent (cur : xmlNode) (content : Option String) : xmlNode :=
  cur.setContent (some (cur.content.getD "" ++ content.getD ""))

/-- The linking done by `xmlAddChild(parent, cur)` for a node `cur`: it becomes the
last child of `parent`, or, being a text node behind a text node, is merged
into that one. -/
def xmlLinkChild (parent cur : xmlNode) : xmlNode :=
  match parent.children.getLast? with
  | some last =>
    if cur.type = .XML_TEXT_NODE ∧ last.type = .XML_TEXT_NODE then
      parent.setChildren (parent.children.dropLast ++ [xmlNodeAddContent last cur.content])
    else parent.setChildren (parent.children ++ [cur])
  | none => parent.setChildren [cur]

/-- Call `xmlAddChild(parent, cur)`: appends `cur` to the children of `parent`; a
text node is merged into a last child that is a text node.  `none` is the
`NULL` result (`cur` is `NULL`), otherwise the updated parent. -/
def xmlAddChild (parent : xmlNode) : Option xmlNode → Option xmlNode
  | none => none
  | some cur => some (xmlLinkChild parent cur)

/-- Call `xmlAddNextSibling(cur, elem)` on the sibling chain whose head is `cur`:
`elem` is linked directly behind `cur`; a text `elem` is merged into a text
`cur`.  (libxml2 merges a text `elem` into a text node following `cur` only
when `cur->name` is the same pointer as the name of that node, the interned
name of text nodes; `cur` is then a text node itself, which is the first case.) -/
def xmlAddNextSibling : List xmlNode → Option xmlNode → List xmlNode
  | [], _ => []
  | chain, none => chain
  | cur :: rest, some elem =>
    if elem.type = .XML_TEXT_NODE ∧ cur.type = .XML_TEXT_NODE then
      xmlNodeAddContent cur elem.content :: rest
    else cur :: elem :: rest

/-- Call `xmlDocGetRootElement(doc)`: the first top-level element node. -/
def xmlDocGetRootElement : Option xmlDoc → Option xmlNode
  | none => none
  | some doc => doc.children.find? (fun n => n.type = .XML_ELEMENT_NODE)

/-- Call `xmlDocSetRootElement(doc, root)`: `root` replaces the first top-level
element, or is appended when there is none; nothing happens for `NULL`. -/
def xmlDocSetRootElement (doc : xmlDoc) : Option xmlNode → xmlDoc
  | none => doc
  | some root =>
    match doc.children.findIdx? (fun n => n.type = .XML_ELEMENT_NODE) with
    | some i => { doc with children := doc.children.set i root }
    | none => { doc with children := doc.children ++ [root] }

/-! ## NETCONF types (`netconf.h`, `messages_internal.h`, `error.h`) -/

/-- Modelled from the spec: the datastore enumeration of `netconf.h`, which is
not among the sources ("enum {Running, Startup, Candidate, None}"). -/
inductive NC_DATASTORE where
  | NC_DATASTORE_NONE
  | NC_DATASTORE_RUNNING
  | NC_DATASTORE_STARTUP
  | NC_DATASTORE_CANDIDATE
  deriving DecidableEq, Repr

/-- Modelled from the spec: the operation codes of `netconf.h`, one for each
of the nine operations and one for an unrecognized name. -/
inductive NC_OP where
  | NC_OP_UNKNOWN
  | NC_OP_GETCONFIG
  | NC_OP_GET
  | NC_OP_EDITCONFIG
  | NC_OP_COPYCONFIG
  | NC_OP_DELETECONFIG
  | NC_OP_LOCK
  | NC_OP_UNLOCK
  | NC_OP_CLOSESESSION
  | NC_OP_KILLSESSION
  deriving DecidableEq, Repr

/-- Modelled from the spec: the rpc classes of `netconf.h` used by the code. -/
inductive NC_RPC_TYPE where
  | NC_RPC_UNKNOWN
  | NC_RPC_DATASTORE_READ
  | NC_RPC_DATASTORE_WRITE
  | NC_RPC_SESSION
  deriving DecidableEq, Repr

/-- Modelled from the spec: the reply classes of `netconf.h` ("Ok, Data,
Error", and unknown). -/
inductive NC_REPLY_TYPE where
  | NC_REPLY_UNKNOWN
  | NC_REPLY_OK
  | NC_REPLY_ERROR
  | NC_REPLY_DATA
  deriving DecidableEq, Repr

/-- Modelled from the spec: the default-operation values of `netconf.h`
("Merge, Replace, None"), the error value the code returns, and the value 0,
which the code treats as "not specified" and which is none of the named ones. -/
inductive NC_EDIT_DEFOP_TYPE where
  | NC_EDIT_DEFOP_ERROR
  | unspecified
  | NC_EDIT_DEFOP_MERGE
  | NC_EDIT_DEFOP_REPLACE
  | NC_EDIT_DEFOP_NONE
  deriving DecidableEq, Repr

/-- Modelled from the spec: the error-option values of `netconf.h` ("Stop,
Continue, Rollback"), the error value the code returns, and the value 0, which
the code treats as "not specified" and which is none of the named ones. -/
inductive NC_EDIT_ERROPT_TYPE where
  | NC_EDIT_ERROPT_ERROR
  | unspecified
  | NC_EDIT_ERROPT_STOP
  | NC_EDIT_ERROPT_CONT
  | NC_EDIT_ERROPT_ROLLBACK
  deriving DecidableEq, Repr

/-- Modelled from the spec: the filter kinds of `netconf.h`; the code knows
the subtree filter and rejects every other value. -/
inductive NC_FILTER_TYPE where
  | NC_FILTER_UNKNOWN
  | NC_FILTER_SUBTREE
  deriving DecidableEq, Repr

/-- Fields of `struct nc_filter` as the code uses them. -/
structure nc_filter where
  type : NC_FILTER_TYPE
  type_string : String
  content : String
  deriving DecidableEq, Repr

/-- Fields of `struct nc_err` read by `nc_reply_error`; each is a `char*`
(`attr` is the field `attribute`). -/
structure nc_err where
  tag : Option String
  type : Option String
  severity : Option String
  apptag : Option String
  path : Option String
  message : Option String
  attr : Option String
  element : Option String
  ns : Option String
  sid : Option String
  deriving DecidableEq, Repr

/-- The union `type` of `struct nc_msg`; `unset` is the state after `malloc`. -/
inductive nc_msg_type where
  | unset
  | rpc (t : NC_RPC_TYPE)
  | reply (t : NC_REPLY_TYPE)
  deriving DecidableEq, Repr

/-- Message identifiers (`nc_msgid`). -/
abbrev nc_msgid := Int

/-- Fields of `struct nc_msg` (also `nc_rpc` and `nc_reply`); `msgid` is `none` as long as
nothing was stored in it. -/
structure nc_msg where
  doc : Option xmlDoc
  msgid : Option nc_msgid
  type : nc_msg_type
  error : Option nc_err
  deriving Repr

/-- Error kinds passed to `nc_err_new` by this file. -/
inductive NC_ERR where
  | NC_ERR_OP_FAILED
  deriving DecidableEq, Repr

/-- Error fields passed to `nc_err_set` by this file. -/
inductive NC_ERR_PARAM where
  | NC_ERR_PARAM_MSG
  deriving DecidableEq, Repr

/-- What the code calls and the sources do not hold: libxml2, and from the
rest of the library `nc_msg_parse_msgid`, `nc_err_new` and `nc_err_set`. -/
structure Env extends LibXml2 where
  nc_msg_parse_msgid : xmlDoc → nc_msgid
  nc_err_new : NC_ERR → nc_err
  nc_err_set : nc_err → NC_ERR_PARAM → String → nc_err

/-- Modelled from the spec: the macro `XML_VERSION` of `netconf_internal.h`. -/
def XML_VERSION : String := "1.0"

/-- Modelled from the spec: the macro `UTF8` of `netconf_internal.h` ("UTF-8
encoded"). -/
def UTF8 : String := "UTF-8"

/-- Modelled from the spec: the macro `NC_HELLO_MSG` of `netconf_internal.h`
("root element `hello|rpc|rpc-reply`"). -/
def NC_HELLO_MSG : String := "hello"

/-- Modelled from the spec: the macro `NC_NS_BASE10` of `netconf_internal.h`,
"the protocol namespace". -/
def NC_NS_BASE10 : String := "urn:ietf:params:xml:ns:netconf:base:1.0"

/-! ## Envelopes -/

/-- Function `nc_msg_create(content, msgtype)`: a document whose root `msgtype`
has the attribute `message-id=""` and a copy of `content` as its child. -/
def nc_msg_create (content : Option xmlNode) (msgtype : String) : Option nc_msg :=
  let xmlmsg : xmlDoc := { version := XML_VERSION, encoding := some UTF8, children := [] }
  let root := xmlNewProp (xmlNewNode msgtype) "message-id" ""
  match xmlAddChild root (xmlCopyNode content) with
  | none => none
  | some root =>
    some { doc := some { xmlmsg with children := [root] }, msgid := none, type := .unset,
           error := none }

def nc_rpc_create (content : Option xmlNode) : Option nc_msg :=
  nc_msg_create content "rpc"

def nc_reply_create (content : Option xmlNode) : Option nc_msg :=
  nc_msg_create content "rpc-reply"

/-- The statements `m->type.rpc = t; return (m);` closing a request builder:
they write through `m` unchecked. -/
def setRpcType (m : Option nc_msg) (t : NC_RPC_TYPE) : Exec (Option nc_msg) := do
  let m ← deref m
  pure (some { m with type := .rpc t })

/-- The statements `m->type.reply = t; return (m);` closing a reply builder. -/
def setReplyType (m : Option nc_msg) (t : NC_REPLY_TYPE) : Exec (Option nc_msg) := do
  let m ← deref m
  pure (some { m with type := .reply t })

/-! ## Hello messages -/

/-- Function `nc_msg_client_hello(cpblts)`; `cpblts` is the `NULL`-terminated
array of capability strings, `none` for a `NULL` array. -/
def nc_msg_client_hello (L : LibXml2) (cpblts : Option (List String)) : Option nc_msg :=
  match cpblts with
  | none => none
  | some [] => none
  | some cpblts =>
    /- create root element -/
    let root := xmlNewNode NC_HELLO_MSG
    /- set namespace -/
    let root := xmlNewNs root NC_NS_BASE10 none
    /- create capabilities node -/
    let (root, node) := xmlNewChild L root [] "capabilities" none
    let root := cpblts.foldl
      (fun root c => (xmlNewChild L root node "capability" (some c)).1) root
    some { doc := some { version := "1.0", encoding := some UTF8, children := [root] },
           msgid := none, type := .unset, error := none }

/-- Function `nc_msg_server_hello(cpblts, session_id)`; the new child is created under
`msg->doc->children`. -/
def nc_msg_server_hello (L : LibXml2) (cpblts : Option (List String))
    (session_id : Option String) : Exec (Option nc_msg) :=
  match nc_msg_client_hello L cpblts with
  | none => pure none
  | some msg =>
    let msg := { msg with error := none }
    match session_id with
    | none => pure none
    | some session_id =>
      if session_id.length = 0 then pure none
      else do
        let doc ← deref msg.doc
        /- create <session-id> node; without a parent `xmlNewChild` does nothing -/
        let children :=
          match doc.children with
          | root :: rest => (xmlNewChild L root [] "session-id" (some session_id)).1 :: rest
          | [] => []
        pure (some { msg with doc := some { doc with children := children } })

/-! ## Request builders -/

/-- Function `nc_filter_new(type, filter)`: the subtree filter holding a copy of
the text `filter`, `NULL` for every other filter type; `strdup(filter)` reads
through `filter`. -/
def nc_filter_new (type : NC_FILTER_TYPE) (filter : Option String) : Exec (Option nc_filter) :=
  match type with
  | .NC_FILTER_SUBTREE => do
    let content ← deref filter
    pure (some { type := type, type_string := "subtree", content := content })
  | _ => pure none

/-- Function `process_filter_param(content, filter)`: `none` is `EXIT_FAILURE`,
otherwise the operation element with the filter linked into it. -/
def process_filter_param (L : LibXml2) (content : xmlNode) (filter : Option nc_filter) :
    Option xmlNode :=
  match filter with
  | none => some content
  | some filter =>
    if filter.type = .NC_FILTER_SUBTREE then
      let aux_string :=
        "<filter type=\"" ++ filter.type_string ++ "\">" ++ filter.content ++ "</filter>"
      match L.xmlReadMemory aux_string 0 with
      | none => none
      | some doc_filter => xmlAddChild content (xmlCopyNode doc_filter.children.head?)
    else some content

def nc_rpc_closesession : Exec (Option nc_msg) :=
  let content := xmlNewNode "close-session"
  setRpcType (nc_rpc_create (some content)) .NC_RPC_SESSION

def nc_rpc_getconfig (L : LibXml2) (source : NC_DATASTORE) (filter : Option nc_filter) :
    Exec (Option nc_msg) :=
  let datastore : Option String :=
    match source with
    | .NC_DATASTORE_RUNNING => some "running"
    | .NC_DATASTORE_STARTUP => some "startup"
    | .NC_DATASTORE_CANDIDATE => some "candidate"
    | _ => none
  match datastore with
  | none => pure none
  | some datastore =>
    let content := xmlNewNode "get-config"
    let (content, node_source) := xmlNewChild L content [] "source" none
    let (content, _) := xmlNewChild L content node_source datastore none
    match process_filter_param L content filter with
    | none => pure none
    | some content => setRpcType (nc_rpc_create (some content)) .NC_RPC_DATASTORE_READ

def nc_rpc_get (L : LibXml2) (filter : Option nc_filter) : Exec (Option nc_msg) :=
  let content := xmlNewNode "get"
  match process_filter_param L content filter with
  | none => pure none
  | some content => setRpcType (nc_rpc_create (some content)) .NC_RPC_DATASTORE_READ

def nc_rpc_deleteconfig (L : LibXml2) (target : NC_DATASTORE) : Exec (Option nc_msg) :=
  let datastore : Option String :=
    match target with
    | .NC_DATASTORE_RUNNING => none
    | .NC_DATASTORE_STARTUP => some "startup"
    | .NC_DATASTORE_CANDIDATE => some "candidate"
    | _ => none
  match datastore with
  | none => pure none
  | some datastore =>
    let content := xmlNewNode "delete-config"
    let (content, node_target) := xmlNewChild L content [] "target" none
    let (content, _) := xmlNewChild L content node_target datastore none
    setRpcType (nc_rpc_create (some content)) .NC_RPC_DATASTORE_WRITE

def nc_rpc_lock (L : LibXml2) (target : NC_DATASTORE) : Exec (Option nc_msg) :=
  let datastore : Option String :=
    match target with
    | .NC_DATASTORE_RUNNING => some "running"
    | .NC_DATASTORE_STARTUP => some "startup"
    | .NC_DATASTORE_CANDIDATE => some "candidate"
    | _ => none
  match datastore with
  | none => pure none
  | some datastore =>
    let content := xmlNewNode "lock"
    let (content, node_target) := xmlNewChild L content [] "target" none
    let (content, _) := xmlNewChild L content node_target datastore none
    setRpcType (nc_rpc_create (some content)) .NC_RPC_DATASTORE_WRITE

def nc_rpc_unlock (L : LibXml2) (target : NC_DATASTORE) : Exec (Option nc_msg) :=
  let datastore : Option String :=
    match target with
    | .NC_DATASTORE_RUNNING => some "running"
    | .NC_DATASTORE_STARTUP => some "startup"
    | .NC_DATASTORE_CANDIDATE => some "candidate"
    | _ => none
  match datastore with
  | none => pure none
  | some datastore =>
    let content := xmlNewNode "unlock"
    let (content, node_target) := xmlNewChild L content [] "target" none
    let (content, _) := xmlNewChild L content node_target datastore none
    setRpcType (nc_rpc_create (some content)) .NC_RPC_DATASTORE_WRITE

/-- One round of the loop of `nc_rpc_copyconfig` over `params[i]`: `none` is
`return (NULL)`, otherwise the value stored in `datastores[i]`. -/
def copyconfig_datastore (i : Nat) (param : NC_DATASTORE) (data : Option String) :
    Option (Option String) :=
  match param with
  | .NC_DATASTORE_RUNNING => some (some "running")
  | .NC_DATASTORE_STARTUP => some (some "startup")
  | .NC_DATASTORE_CANDIDATE => some (some "candidate")
  | .NC_DATASTORE_NONE =>
    if i = 0 then
      if data ≠ none then some none else none
    else none

def nc_rpc_copyconfig (L : LibXml2) (source target : NC_DATASTORE) (data : Option String) :
    Exec (Option nc_msg) :=
  if target = source then pure none
  else
    match copyconfig_datastore 0 source data with
    | none => pure none
    | some datastores0 =>
    match copyconfig_datastore 1 target data with
    | none => pure none
    | some datastores1 => do
      let content := xmlNewNode "copy-config"
      /- <source> -/
      let (content, node_source) := xmlNewChild L content [] "source" none
      let filled : Option xmlNode ←
        match datastores0 with
        | none => do
          /- source configuration is given as data parameter -/
          let (content, config) := xmlNewChild L content node_source "config" none
          let data ← deref data
          match L.xmlReadMemory data (XML_PARSE_NOERROR ||| XML_PARSE_NOWARNING) with
          | none => pure none
          | some doc_data =>
            match xmlCopyNode doc_data.children.head? with
            | none => pure none
            | some cur => pure (some (content.withNode config (fun c => xmlLinkChild c cur)))
        | some ds =>
          /- source is one of the standard datastores -/
          pure (some (xmlNewChild L content node_source ds none).1)
      match filled, datastores1 with
      | some content, some ds =>
        /- <target> -/
        let (content, node_target) := xmlNewChild L content [] "target" none
        let (content, _) := xmlNewChild L content node_target ds none
        setRpcType (nc_rpc_create (some content)) .NC_RPC_DATASTORE_WRITE
      | _, _ => pure none

def nc_rpc_editconfig (L : LibXml2) (target : NC_DATASTORE)
    (default_operation : NC_EDIT_DEFOP_TYPE) (error_option : NC_EDIT_ERROPT_TYPE)
    (data : Option String) : Exec (Option nc_msg) :=
  match data with
  | none => pure none
  | some data =>
  if data.length = 0 then pure none
  else
    /- detect target datastore -/
    let datastore : Option String :=
      match target with
      | .NC_DATASTORE_RUNNING => some "running"
      | .NC_DATASTORE_STARTUP => some "startup"
      | .NC_DATASTORE_CANDIDATE => some "candidate"
      | _ => none
    match datastore with
    | none => pure none
    | some datastore =>
    /- detect default-operation parameter; the outer `none` is `return (NULL)` -/
    let defop : Option (Option String) :=
      if default_operation ≠ .unspecified then
        match default_operation with
        | .NC_EDIT_DEFOP_MERGE => some (some "merge")
        | .NC_EDIT_DEFOP_NONE => some (some "none")
        | .NC_EDIT_DEFOP_REPLACE => some (some "replace")
        | _ => none
      else some none
    match defop with
    | none => pure none
    | some defop =>
    /- detect error-option parameter -/
    let erropt : Option (Option String) :=
      if error_option ≠ .unspecified then
        match error_option with
        | .NC_EDIT_ERROPT_STOP => some (some "stop-on-error")
        | .NC_EDIT_ERROPT_CONT => some (some "continue-on-error")
        | .NC_EDIT_ERROPT_ROLLBACK => some (some "rollback-on-error")
        | _ => none
      else some none
    match erropt with
    | none => pure none
    | some erropt =>
      /- create edit-config envelope -/
      let content := xmlNewNode "edit-config"
      /- set <target> element -/
      let (content, node_target) := xmlNewChild L content [] "target" none
      let (content, _) := xmlNewChild L content node_target datastore none
      /- set <default-operation> element -/
      let content :=
        if default_operation ≠ .unspecified then
          (xmlNewChild L content [] "default-operation" defop).1
        else content
      /- set <error-option> element -/
      let content :=
        if error_option ≠ .unspecified then
          (xmlNewChild L content [] "error-option" erropt).1
        else content
      /- set <config> element -/
      let (content, node_config) := xmlNewChild L content [] "config" none
      match L.xmlReadMemory data (XML_PARSE_NOERROR ||| XML_PARSE_NOWARNING) with
      | none => pure none
      | some doc_data =>
        match xmlCopyNode doc_data.children.head? with
        | none => pure none
        | some cur =>
          let content := content.withNode node_config (fun c => xmlLinkChild c cur)
          setRpcType (nc_rpc_create (some content)) .NC_RPC_DATASTORE_WRITE

def nc_rpc_killsession (L : LibXml2) (kill_sid : Option String) : Exec (Option nc_msg) :=
  match kill_sid with
  | none => pure none
  | some kill_sid =>
    if kill_sid.length = 0 then pure none
    else
      let content := xmlNewNode "kill-session"
      let (content, _) := xmlNewChild L content [] "session-id" (some kill_sid)
      setRpcType (nc_rpc_create (some content)) .NC_RPC_SESSION

/-! ## Reply builders -/

def nc_reply_ok : Exec (Option nc_msg) :=
  let content := xmlNewNode "ok"
  setReplyType (nc_reply_create (some content)) .NC_REPLY_OK

/-- The statements `if (error->f != NULL) xmlNewChild(parent, NULL, name, error->f)`
of `nc_reply_error`; `parent` is read only when the field is set. -/
def addErrorChild (L : LibXml2) (content : xmlNode) (parent : Option xmlNodePtr)
    (name : String) (field : Option String) : Exec xmlNode :=
  match field with
  | some v => do
    let parent ← deref parent
    pure (xmlNewChild L content parent name (some v)).1
  | none => pure content

def nc_reply_error (L : LibXml2) (error : Option nc_err) : Exec (Option nc_msg) :=
  match error with
  | none => pure none
  | some error => do
    let content := xmlNewNode "rpc-error"
    /- prepare error-info if needed; `einfo` stays unassigned otherwise -/
    let (content, einfo) : xmlNode × Option xmlNodePtr :=
      if error.sid ≠ none ∨ error.attr ≠ none ∨ error.element ≠ none ∨ error.ns ≠ none then
        let r := xmlNewChild L content [] "error-info" none
        (r.1, some r.2)
      else (content, none)
    let content ← addErrorChild L content (some []) "error-tag" error.tag
    let content ← addErrorChild L content (some []) "error-type" error.type
    let content ← addErrorChild L content (some []) "error-severity" error.severity
    let content ← addErrorChild L content (some []) "error-app-tag" error.apptag
    let content ← addErrorChild L content (some []) "error-path" error.path
    let content ← addErrorChild L content (some []) "error-message" error.message
    /- error-info items -/
    let content ← addErrorChild L content einfo "attribute" error.attr
    let content ← addErrorChild L content einfo "element" error.element
    let content ← addErrorChild L content einfo "ns" error.ns
    let content ← addErrorChild L content einfo "session-id" error.sid
    let reply ← deref (nc_reply_create (some content))
    pure (some { reply with error := some error, type := .reply .NC_REPLY_ERROR })

def nc_reply_data (E : Env) (data : Option String) : Exec (Option nc_msg) :=
  let data_env : String :=
    match data with
    | some data => "<data>" ++ data ++ "</data>"
    | none => "<data/>"
  match E.xmlReadMemory data_env (XML_PARSE_NOERROR ||| XML_PARSE_NOWARNING) with
  | none =>
    let e := E.nc_err_new .NC_ERR_OP_FAILED
    let e := E.nc_err_set e .NC_ERR_PARAM_MSG "Configuration data seems to be corrupted."
    nc_reply_error E.toLibXml2 (some e)
  | some doc_data => setReplyType (nc_reply_create doc_data.children.head?) .NC_REPLY_DATA

/-! ## Parsing and classification -/

/-- Function `nc_rpc_get_op(rpc)`; `xmlStrcmp(a, b) == 0` on two strings is their
equality. -/
def nc_rpc_get_op (rpc : Option nc_msg) : Exec NC_OP :=
  match rpc with
  | none => pure .NC_OP_UNKNOWN
  | some rpc =>
    match rpc.doc with
    | none => pure .NC_OP_UNKNOWN
    | some doc => do
      let top ← deref doc.children.head?
      if top.name = "rpc" then
        let op ← deref top.children.head?
        if op.name = "copy-config" then pure .NC_OP_COPYCONFIG
        else if op.name = "delete-config" then pure .NC_OP_DELETECONFIG
        else if op.name = "edit-config" then pure .NC_OP_EDITCONFIG
        else if op.name = "get" then pure .NC_OP_GET
        else if op.name = "get-config" then pure .NC_OP_GETCONFIG
        else if op.name = "lock" then pure .NC_OP_LOCK
        else if op.name = "unlock" then pure .NC_OP_UNLOCK
        else if op.name = "kill-session" then pure .NC_OP_KILLSESSION
        else if op.name = "close-session" then pure .NC_OP_CLOSESESSION
        else pure .NC_OP_UNKNOWN
      else pure .NC_OP_UNKNOWN

def nc_msg_build (E : Env) (msg_dump : String) : Option nc_msg :=
  match E.xmlReadMemory msg_dump (XML_PARSE_NOBLANKS ||| XML_PARSE_NSCLEAN) with
  | none => none
  | some doc =>
    some { doc := some doc, msgid := some (E.nc_msg_parse_msgid doc), type := .unset,
           error := none }

def nc_rpc_build (E : Env) (rpc_dump : String) : Exec (Option nc_msg) :=
  match nc_msg_build E rpc_dump with
  | none => pure none
  | some rpc => do
    let op ← nc_rpc_get_op (some rpc)
    let t : NC_RPC_TYPE :=
      match op with
      | .NC_OP_GETCONFIG | .NC_OP_GET => .NC_RPC_DATASTORE_READ
      | .NC_OP_EDITCONFIG | .NC_OP_COPYCONFIG | .NC_OP_DELETECONFIG | .NC_OP_LOCK
      | .NC_OP_UNLOCK => .NC_RPC_DATASTORE_WRITE
      | .NC_OP_CLOSESESSION | .NC_OP_KILLSESSION => .NC_RPC_SESSION
      | _ => .NC_RPC_UNKNOWN
    pure (some { rpc with type := .rpc t })

def nc_reply_build (E : Env) (reply_dump : String) : Exec (Option nc_msg) :=
  match nc_msg_build E reply_dump with
  | none => pure none
  | some reply => do
    let root ← deref (xmlDocGetRootElement reply.doc)
    let first ← deref root.children.head?
    let t : NC_REPLY_TYPE :=
      if xmlStrEqual (some first.name) (some "ok") then .NC_REPLY_OK
      else if xmlStrEqual (some first.name) (some "data") then .NC_REPLY_DATA
      else if xmlStrEqual (some first.name) (some "error") then .NC_REPLY_ERROR
      else .NC_REPLY_UNKNOWN
    pure (some { reply with type := .reply t })

/-- The loop `while (n != NULL && !xmlStrEqual(n->name, name)) n = n->next`:
the first node of the chain with the given name. -/
def findByName (chain : List xmlNode) (name : String) : Option xmlNode :=
  chain.find? (fun n => xmlStrEqual (some n.name) (some name))

/-- Function `nc_rpc_get_ds(rpc, ds_type)`. -/
def nc_rpc_get_ds (rpc : Option nc_msg) (ds_type : String) : NC_DATASTORE :=
  match rpc with
  | none => .NC_DATASTORE_NONE
  | some rpc =>
    match rpc.doc with
    | none => .NC_DATASTORE_NONE
    | some doc =>
      match xmlDocGetRootElement (some doc) with
      | none => .NC_DATASTORE_NONE
      | some root =>
        if !xmlStrEqual (some root.name) (some "rpc") then .NC_DATASTORE_NONE
        else
          match root.children.head? with
          | none => .NC_DATASTORE_NONE
          | some op =>
            match findByName op.children ds_type with
            | none => .NC_DATASTORE_NONE
            | some ds_node =>
              match ds_node.children.head? with
              | none => .NC_DATASTORE_NONE
              | some ds =>
                if xmlStrEqual (some ds.name) (some "candidate") then .NC_DATASTORE_CANDIDATE
                else if xmlStrEqual (some ds.name) (some "running") then .NC_DATASTORE_RUNNING
                else if xmlStrEqual (some ds.name) (some "startup") then .NC_DATASTORE_STARTUP
                else .NC_DATASTORE_NONE

def nc_rpc_get_source (rpc : Option nc_msg) : NC_DATASTORE :=
  nc_rpc_get_ds rpc "source"

def nc_rpc_get_target (rpc : Option nc_msg) : NC_DATASTORE :=
  nc_rpc_get_ds rpc "target"

/-- Function `nc_rpc_get_config(rpc)`.  The copy of the first child of `config` is
stored in `config_doc->children`; `xmlDocSetRootElement` is then called with
that very node, which it finds in place and leaves there. -/
def nc_rpc_get_config (L : LibXml2) (rpc : Option nc_msg) : Exec (Option String) := do
  let rpc ← deref rpc
  match xmlDocGetRootElement rpc.doc with
  | none => pure none
  | some rpc_root =>
    if !xmlStrEqual (some rpc_root.name) (some "rpc") then pure none
    else
      match rpc_root.children.head? with
      | none => pure none
      | some op =>
        match findByName op.children "config" with
        | some config =>
          let config_doc : xmlDoc :=
            { version := "1.0", encoding := none,
              children := (xmlCopyNode config.children.head?).toList }
          pure (some (L.xmlDocDumpFormatMemory config_doc 1))
        | none => pure none

def nc_rpc_get_defop (rpc : Option nc_msg) : Exec NC_EDIT_DEFOP_TYPE := do
  /- only applicable on edit-config -/
  if (← nc_rpc_get_op rpc) ≠ .NC_OP_EDITCONFIG then pure .NC_EDIT_DEFOP_ERROR
  else
    let rpc ← deref rpc
    match xmlDocGetRootElement rpc.doc with
    | none => pure .NC_EDIT_DEFOP_ERROR
    | some rpc_root =>
      if !xmlStrEqual (some rpc_root.name) (some "rpc") then pure .NC_EDIT_DEFOP_ERROR
      else
        match rpc_root.children.head? with
        | none => pure .NC_EDIT_DEFOP_ERROR
        | some op =>
          match findByName op.children "default-operation" with
          | some defop => do
            let text ← deref defop.children.head?
            if xmlStrEqual text.content (some "merge") then pure .NC_EDIT_DEFOP_MERGE
            else if xmlStrEqual text.content (some "replace") then pure .NC_EDIT_DEFOP_REPLACE
            else if xmlStrEqual text.content (some "none") then pure .NC_EDIT_DEFOP_NONE
            else pure .NC_EDIT_DEFOP_MERGE
          | none => pure .NC_EDIT_DEFOP_MERGE

def nc_rpc_get_erropt (rpc : Option nc_msg) : Exec NC_EDIT_ERROPT_TYPE := do
  /- only applicable on edit-config -/
  if (← nc_rpc_get_op rpc) ≠ .NC_OP_EDITCONFIG then pure .NC_EDIT_ERROPT_ERROR
  else
    let rpc ← deref rpc
    match xmlDocGetRootElement rpc.doc with
    | none => pure .NC_EDIT_ERROPT_ERROR
    | some rpc_root =>
      if !xmlStrEqual (some rpc_root.name) (some "rpc") then pure .NC_EDIT_ERROPT_ERROR
      else
        match rpc_root.children.head? with
        | none => pure .NC_EDIT_ERROPT_ERROR
        | some op =>
          match findByName op.children "error-option" with
          | some erropt => do
            let text ← deref erropt.children.head?
            if xmlStrEqual text.content (some "stop-on-error") then pure .NC_EDIT_ERROPT_STOP
            else if xmlStrEqual text.content (some "continue-on-error") then
              pure .NC_EDIT_ERROPT_CONT
            else if xmlStrEqual text.content (some "rollback-on-error") then
              pure .NC_EDIT_ERROPT_ROLLBACK
            else pure .NC_EDIT_ERROPT_STOP
          | none => pure .NC_EDIT_ERROPT_STOP

/-- The document that `nc_reply_get_data` serializes for the children
`node :: rest` of `<data>`: the copy of `node` becomes the root, and the copy of
every later child is handed to `xmlAddNextSibling(root, ...)`. -/
def nc_reply_get_data_doc (node : xmlNode) (rest : List xmlNode) : xmlDoc :=
  let doc : xmlDoc := { version := XML_VERSION, encoding := some UTF8, children := [] }
  let doc := xmlDocSetRootElement doc (xmlCopyNode (some node))
  { doc with
    children := rest.foldl (fun chain n => xmlAddNextSibling chain (xmlCopyNode (some n)))
      doc.children }

def nc_reply_get_data (L : LibXml2) (reply : Option nc_msg) : Option String :=
  match reply with
  | none => none
  | some reply =>
    if reply.type ≠ .reply .NC_REPLY_DATA then none
    else
      match reply.doc with
      | none => none
      | some doc =>
        match doc.children.head? with
        | none => none
        | some top =>
          match top.children.head? with
          | none => none
          | some data =>
            match data.children with
            | [] => some ""
            | node :: rest => some (L.xmlDocDumpFormatMemory (nc_reply_get_data_doc node rest) 1)

/-! ## A sample environment

Concrete inputs need a concrete parser and serializer.  The sample parser knows
the few texts used in the examples below; the sample serializer writes a tree
out without any formatting. -/

mutual
/-- Plain serialization of a node. -/
def sampleDumpNode : xmlNode → String
  | .mk .XML_ELEMENT_NODE name _ _ props kids =>
    "<" ++ name ++ String.join (props.map (fun a => " " ++ a.name ++ "=\"" ++ a.value ++ "\""))
      ++ ">" ++ sampleDumpList kids ++ "</" ++ name ++ ">"
  | .mk .XML_TEXT_NODE _ content _ _ _ => content.getD ""
  | .mk .XML_COMMENT_NODE _ content _ _ _ => "<!--" ++ content.getD "" ++ "-->"
  | .mk .XML_PI_NODE name content _ _ _ => "<?" ++ name ++ " " ++ content.getD "" ++ "?>"
  | .mk .XML_DTD_NODE name _ _ _ _ => "<!DOCTYPE " ++ name ++ ">"
/-- Plain serialization of a sibling chain. -/
def sampleDumpList : List xmlNode → String
  | [] => ""
  | n :: rest => sampleDumpNode n ++ sampleDumpList rest
end

/-- The element `<name>kids</name>`. -/
def elem (name : String) (kids : List xmlNode) : xmlNode :=
  .mk .XML_ELEMENT_NODE name none [] [] kids

/-- The document made of the given top-level nodes, as a parser returns it. -/
def parsedDoc (top : List xmlNode) : xmlDoc :=
  { version := "1.0", encoding := none, children := top }

/-- The `rpc-error` element of the sample error of the examples. -/
def sampleErrElem : xmlNode :=
  elem "rpc-error"
    [elem "error-info" [elem "session-id" [xmlNewText "4"]],
     elem "error-tag" [xmlNewText "lock-denied"],
     elem "error-type" [xmlNewText "protocol"],
     elem "error-severity" [xmlNewText "error"],
     elem "error-message" [xmlNewText "Lock failed, lock is already held"]]

/-- The text of the reply carrying the sample error. -/
def sampleErrText : String :=
  "<rpc-reply message-id=\"\"><rpc-error><error-info><session-id>4</session-id></error-info>"
    ++ "<error-tag>lock-denied</error-tag><error-type>protocol</error-type>"
    ++ "<error-severity>error</error-severity>"
    ++ "<error-message>Lock failed, lock is already held</error-message></rpc-error></rpc-reply>"

/-- The sample parser. -/
def sampleRead (text : String) (_options : Nat) : Option xmlDoc :=
  if text = "<data/>" then some (parsedDoc [elem "data" []])
  else if text = "<a/>" then some (parsedDoc [elem "a" []])
  else if text = "<data><a/><b/><c/></data>" then
    some (parsedDoc [elem "data" [elem "a" [], elem "b" [], elem "c" []]])
  else if text = "<filter type=\"subtree\"><a/></filter>" then
    some (parsedDoc [.mk .XML_ELEMENT_NODE "filter" none [] [⟨"type", "subtree"⟩] [elem "a" []]])
  else if text = "<rpc-reply message-id=\"1\"><rpc-error/></rpc-reply>" then
    some (parsedDoc
      [.mk .XML_ELEMENT_NODE "rpc-reply" none [] [⟨"message-id", "1"⟩] [elem "rpc-error" []]])
  else if text = "<rpc-reply message-id=\"1\"/>" then
    some (parsedDoc [.mk .XML_ELEMENT_NODE "rpc-reply" none [] [⟨"message-id", "1"⟩] []])
  else if text = "<rpc-reply message-id=\"1\"><ok/></rpc-reply>" then
    some (parsedDoc
      [.mk .XML_ELEMENT_NODE "rpc-reply" none [] [⟨"message-id", "1"⟩] [elem "ok" []]])
  else if text = "<rpc-reply message-id=\"1\"><data><a/><b/><c/></data></rpc-reply>" then
    some (parsedDoc
      [.mk .XML_ELEMENT_NODE "rpc-reply" none [] [⟨"message-id", "1"⟩]
        [elem "data" [elem "a" [], elem "b" [], elem "c" []]]])
  else if text = "<rpc-reply message-id=\"1\"><error/></rpc-reply>" then
    some (parsedDoc
      [.mk .XML_ELEMENT_NODE "rpc-reply" none [] [⟨"message-id", "1"⟩] [elem "error" []]])
  else if text = "<rpc-reply message-id=\"1\"><foo/></rpc-reply>" then
    some (parsedDoc
      [.mk .XML_ELEMENT_NODE "rpc-reply" none [] [⟨"message-id", "1"⟩] [elem "foo" []]])
  else if text = "<rpc message-id=\"1\"/>" then
    some (parsedDoc [.mk .XML_ELEMENT_NODE "rpc" none [] [⟨"message-id", "1"⟩] []])
  else if text = "<rpc message-id=\"1\"><foo/></rpc>" then
    some (parsedDoc
      [.mk .XML_ELEMENT_NODE "rpc" none [] [⟨"message-id", "1"⟩] [elem "foo" []]])
  else if text = sampleErrText then
    some (parsedDoc
      [.mk .XML_ELEMENT_NODE "rpc-reply" none [] [⟨"message-id", ""⟩] [sampleErrElem]])
  else if text = "<?xml version=\"1.0\" encoding=\"UTF-8\"?><rpc message-id=\"\"><get/></rpc>" then
    some { version := "1.0", encoding := some "UTF-8",
           children := [.mk .XML_ELEMENT_NODE "rpc" none [] [⟨"message-id", ""⟩] [elem "get" []]] }
  else none

/-- The sample node list of a value holding entity references: as libxml2
documents for `xmlNewChild`, the content is raw XML text in which an entity
reference stands for its replacement, so that `1&amp;2` is the text `1&2`.
Only the value used in the examples is known. -/
def sampleEntityNodeList (value : String) : List xmlNode :=
  if value = "1&amp;2" then [xmlNewText "1&2"] else []

/-- The sample environment. -/
def sampleEnv : Env where
  xmlReadMemory := sampleRead
  xmlDocDumpFormatMemory := fun doc _ => sampleDumpList doc.children
  entityNodeList := sampleEntityNodeList
  nc_msg_parse_msgid := fun _ => 0
  nc_err_new := fun _ =>
    { tag := some "operation-failed", type := some "application", severity := some "error",
      apptag := none, path := none, message := none, attr := none, element := none,
      ns := none, sid := none }
  nc_err_set := fun e _ value => { e with message := some value }

/-! ## Shapes of the built documents

Closed forms used to state what the builders produce. -/

/-- The operation code that `nc_rpc_get_op` gives to an operation element name. -/
def opOfName (name : String) : NC_OP :=
  if name = "copy-config" then .NC_OP_COPYCONFIG
  else if name = "delete-config" then .NC_OP_DELETECONFIG
  else if name = "edit-config" then .NC_OP_EDITCONFIG
  else if name = "get" then .NC_OP_GET
  else if name = "get-config" then .NC_OP_GETCONFIG
  else if name = "lock" then .NC_OP_LOCK
  else if name = "unlock" then .NC_OP_UNLOCK
  else if name = "kill-session" then .NC_OP_KILLSESSION
  else if name = "close-session" then .NC_OP_CLOSESESSION
  else .NC_OP_UNKNOWN

/-- The document built by `nc_msg_create` around a copy of `content`. -/
def envelope (msgtype : String) (content : xmlNode) : xmlDoc :=
  { version := XML_VERSION, encoding := some UTF8,
    children := [.mk .XML_ELEMENT_NODE msgtype none [] [⟨"message-id", ""⟩] [content]] }

/-- The request message around the operation element `content`. -/
def rpcMsg (content : xmlNode) (t : NC_RPC_TYPE) : nc_msg :=
  { doc := some (envelope "rpc" content), msgid := none, type := .rpc t, error := none }

/-- The element name of a named datastore. -/
def datastoreName : NC_DATASTORE → Option String
  | .NC_DATASTORE_RUNNING => some "running"
  | .NC_DATASTORE_STARTUP => some "startup"
  | .NC_DATASTORE_CANDIDATE => some "candidate"
  | .NC_DATASTORE_NONE => none

/-- The element `<tag><ds/></tag>` naming a datastore. -/
def datastoreElem (tag ds : String) : xmlNode :=
  elem tag [elem ds []]

/-- The `default-operation` child built for an option value, if any. -/
def defopChild : NC_EDIT_DEFOP_TYPE → List xmlNode
  | .NC_EDIT_DEFOP_MERGE => [elem "default-operation" [xmlNewText "merge"]]
  | .NC_EDIT_DEFOP_REPLACE => [elem "default-operation" [xmlNewText "replace"]]
  | .NC_EDIT_DEFOP_NONE => [elem "default-operation" [xmlNewText "none"]]
  | _ => []

/-- The `error-option` child built for an option value, if any. -/
def erroptChild : NC_EDIT_ERROPT_TYPE → List xmlNode
  | .NC_EDIT_ERROPT_STOP => [elem "error-option" [xmlNewText "stop-on-error"]]
  | .NC_EDIT_ERROPT_CONT => [elem "error-option" [xmlNewText "continue-on-error"]]
  | .NC_EDIT_ERROPT_ROLLBACK => [elem "error-option" [xmlNewText "rollback-on-error"]]
  | _ => []

/-- The parser options of the builders that read caller data. -/
def dataOptions : Nat := XML_PARSE_NOERROR ||| XML_PARSE_NOWARNING

/-- The text handed to the parser for a subtree filter. -/
def filterText (filter : nc_filter) : String :=
  "<filter type=\"" ++ filter.type_string ++ "\">" ++ filter.content ++ "</filter>"

/-- The children that `process_filter_param` adds to an operation element:
`none` when it fails, no child without a filter or for a filter that is not a
subtree filter, otherwise the copy of the first top-level node of the parsed
filter text. -/
def filterChild (L : LibXml2) : Option nc_filter → Option (List xmlNode)
  | none => some []
  | some filter =>
    if filter.type = .NC_FILTER_SUBTREE then
      match L.xmlReadMemory (filterText filter) 0 with
      | none => none
      | some doc_filter => (xmlCopyNode doc_filter.children.head?).map fun c => [c]
    else some []

/-- The node that `nc_rpc_editconfig` and `nc_rpc_copyconfig` link under
`<config>` for the data text: the copy of the first top-level node of the
parsed text, `none` when the text does not parse or that node has no copy. -/
def inlineConfig (L : LibXml2) (text : String) : Option xmlNode :=
  match L.xmlReadMemory text dataOptions with
  | none => none
  | some doc_data => xmlCopyNode doc_data.children.head?

/-- The `edit-config` element for a target name, the options and the
configuration node. -/
def editconfigElem (ds : String) (d : NC_EDIT_DEFOP_TYPE) (e : NC_EDIT_ERROPT_TYPE)
    (cur : xmlNode) : xmlNode :=
  elem "edit-config"
    ([datastoreElem "target" ds] ++ defopChild d ++ erroptChild e ++ [elem "config" [cur]])

/-- The parser options of `nc_msg_build`. -/
def buildOptions : Nat := XML_PARSE_NOBLANKS ||| XML_PARSE_NSCLEAN

/-- The element built for a field of `struct nc_err` that is set. -/
def errorField (L : LibXml2) (name : String) : Option String → List xmlNode
  | some v => [elem name (xmlStringGetNodeList L v)]
  | none => []

/-- The condition under which `nc_reply_error` creates `error-info`. -/
def hasErrorInfo (e : nc_err) : Prop :=
  e.sid ≠ none ∨ e.attr ≠ none ∨ e.element ≠ none ∨ e.ns ≠ none

instance (e : nc_err) : Decidable (hasErrorInfo e) := by
  unfold hasErrorInfo; infer_instance

/-- The `error-info` container built for an error, if any. -/
def errorInfo (L : LibXml2) (e : nc_err) : List xmlNode :=
  if hasErrorInfo e then
    [elem "error-info" (errorField L "attribute" e.attr ++ errorField L "element" e.element
      ++ errorField L "ns" e.ns ++ errorField L "session-id" e.sid)]
  else []

/-- The `rpc-error` element built for an error. -/
def rpcErrorElem (L : LibXml2) (e : nc_err) : xmlNode :=
  elem "rpc-error" (errorInfo L e ++ errorField L "error-tag" e.tag
    ++ errorField L "error-type" e.type ++ errorField L "error-severity" e.severity
    ++ errorField L "error-app-tag" e.apptag ++ errorField L "error-path" e.path
    ++ errorField L "error-message" e.message)

/-- The names of the children of the payload element of a built message (the
first child of the root of its document); empty when there is no such element. -/
def payloadChildNames : Exec (Option nc_msg) → List String
  | .ret (some m) =>
    match m.doc with
    | some doc =>
      match doc.children.head? with
      | some root =>
        match root.children.head? with
        | some payload => payload.children.map xmlNode.name
        | none => []
      | none => []
    | none => []
  | _ => []

/-- The name `name` when the field is set, nothing otherwise. -/
def present (name : String) (field : Option String) : List String :=
  if field ≠ none then [name] else []

/-- The order in which `nc_reply_error` lists the children of `rpc-error`. -/
def builtErrorOrder (e : nc_err) : List String :=
  (if hasErrorInfo e then ["error-info"] else []) ++ present "error-tag" e.tag
    ++ present "error-type" e.type ++ present "error-severity" e.severity
    ++ present "error-app-tag" e.apptag ++ present "error-path" e.path
    ++ present "error-message" e.message

/-- A sample error: lock denied, held by session 4. -/
def sampleErr : nc_err :=
  { tag := some "lock-denied", type := some "protocol", severity := some "error",
    apptag := none, path := none, message := some "Lock failed, lock is already held",
    attr := none, element := none, ns := none, sid := some "4" }

/-- A sample data reply with the three data roots `a`, `b`, `c`. -/
def sampleDataReply : nc_msg :=
  { doc := some (envelope "rpc-reply" (elem "data" [elem "a" [], elem "b" [], elem "c" []])),
    msgid := none, type := .reply .NC_REPLY_DATA, error := none }

/-- The payload element of a built message: the first child of the root of its
document. -/
def payloadOf : Exec (Option nc_msg) → Option xmlNode
  | .ret (some m) =>
    match m.doc with
    | some doc =>
      match doc.children.head? with
      | some root => root.children.head?
      | none => none
    | none => none
  | _ => none

/-- The text contents of the nodes inside the first child of the payload
element of a built message. -/
def firstFieldContents (r : Exec (Option nc_msg)) : List (Option String) :=
  match payloadOf r with
  | some payload =>
    match payload.children.head? with
    | some field => field.children.map xmlNode.content
    | none => []
  | none => []

/-- The names of the children of `edit-config` for the two options: target,
default-operation unless the option is 0, error-option unless the option is 0,
config. -/
def editconfigOrder (d : NC_EDIT_DEFOP_TYPE) (e : NC_EDIT_ERROPT_TYPE) : List String :=
  ["target"] ++ (if d ≠ .unspecified then ["default-operation"] else [])
    ++ (if e ≠ .unspecified then ["error-option"] else []) ++ ["config"]

/-- The element `<filter type="subtree">frags</filter>` as a parser returns it. -/
def filterElem (frags : List xmlNode) : xmlNode :=
  .mk .XML_ELEMENT_NODE "filter" none [] [⟨"type", "subtree"⟩] frags

/-- The reply type that `nc_reply_build` gives to the name of the first child of
the root element. -/
def replyTypeOfName (name : String) : NC_REPLY_TYPE :=
  if name = "ok" then .NC_REPLY_OK
  else if name = "data" then .NC_REPLY_DATA
  else if name = "error" then .NC_REPLY_ERROR
  else .NC_REPLY_UNKNOWN

/-- The datastore that `nc_rpc_get_ds` reads from a `target` or `source` node:
decided by the name of its first child. -/
def datastoreOfNode (ds_node : xmlNode) : NC_DATASTORE :=
  match ds_node.children.head? with
  | none => .NC_DATASTORE_NONE
  | some ds =>
    if ds.name = "candidate" then .NC_DATASTORE_CANDIDATE
    else if ds.name = "running" then .NC_DATASTORE_RUNNING
    else if ds.name = "startup" then .NC_DATASTORE_STARTUP
    else .NC_DATASTORE_NONE

/-- A message as `nc_msg_build` returns it for a parsed document. -/
def parsedMsg (E : Env) (doc : xmlDoc) (t : nc_msg_type) : nc_msg :=
  { doc := some doc, msgid := some (E.nc_msg_parse_msgid doc), type := t, error := none }

/-- The `hello` element built for the capability strings, with the node list
that libxml2 makes of each. -/
def helloElem (L : LibXml2) (cpblts : List String) (more : List xmlNode) : xmlNode :=
  .mk .XML_ELEMENT_NODE NC_HELLO_MSG none [⟨NC_NS_BASE10, none⟩] []
    (elem "capabilities" (cpblts.map fun c => elem "capability" (xmlStringGetNodeList L c))
      :: more)

/-- The hello message around a `hello` element. -/
def helloMsg (root : xmlNode) : nc_msg :=
  { doc := some { version := "1.0", encoding := some UTF8, children := [root] },
    msgid := none, type := .unset, error := none }

/-- The nine operation names that `nc_rpc_get_op` knows. -/
def operationNames : List String :=
  ["copy-config", "delete-config", "edit-config", "get", "get-config", "lock", "unlock",
   "kill-session", "close-session"]

/-- The text that `nc_reply_data` hands to the parser. -/
def dataText : Option String → String
  | some data => "<data>" ++ data ++ "</data>"
  | none => "<data/>"

/-- The reply message around the payload element `content`. -/
def replyMsg (content : xmlNode) (t : NC_REPLY_TYPE) : nc_msg :=
  { doc := some (envelope "rpc-reply" content), msgid := none, type := .reply t,
    error := none }

/-- The root node of the document of a built message. -/
def rootOf : Exec (Option nc_msg) → Option xmlNode
  | .ret (some m) =>
    match m.doc with
    | some doc => doc.children.head?
    | none => none
  | _ => none

/-- The text contents of the nodes inside the `session-id` child of the root of
a built message. -/
def sessionIdContents (r : Exec (Option nc_msg)) : List (Option String) :=
  match rootOf r with
  | some root =>
    match findByName root.children "session-id" with
    | some n => n.children.map xmlNode.content
    | none => []
  | none => []

/-- The text contents of the nodes inside each child of the first child of the
root of a built message (for a hello: inside each `capability`). -/
def capabilityContents (r : Exec (Option nc_msg)) : List (List (Option String)) :=
  match rootOf r with
  | some root =>
    match root.children.head? with
    | some caps => caps.children.map fun c => c.children.map xmlNode.content
    | none => []
  | none => []

/-- The rpc class that the `switch` of `nc_rpc_build` gives to an operation
code. -/
def rpcTypeOfOp : NC_OP → NC_RPC_TYPE
  | .NC_OP_GETCONFIG | .NC_OP_GET => .NC_RPC_DATASTORE_READ
  | .NC_OP_EDITCONFIG | .NC_OP_COPYCONFIG | .NC_OP_DELETECONFIG | .NC_OP_LOCK
  | .NC_OP_UNLOCK => .NC_RPC_DATASTORE_WRITE
  | .NC_OP_CLOSESESSION | .NC_OP_KILLSESSION => .NC_RPC_SESSION
  | _ => .NC_RPC_UNKNOWN

/-! ## The command-line client (`examples/client/commands.c`)

A C string is the list of its characters before the terminating NUL.  The
array `args->list` is the list of its allocated slots; a write to an index
outside of it ends the run, like a read through `NULL` does.  The `int` fields
`count` and `size` are natural numbers: they start at 0 and grow by one word or
by eight slots at a time. -/

/-- A slot of the array `args->list`: what `malloc` or `realloc` left there,
`NULL`, or the copy of a word. -/
inductive arg_slot where
  | uninit
  | null
  | word (s : String)
  deriving DecidableEq, Repr

/-- Fields of `struct arglist`; `list` is `none` for `NULL`. -/
structure arglist where
  list : Option (List arg_slot)
  count : Nat
  size : Nat
  deriving DecidableEq, Repr

def init_arglist (args : Option arglist) : Option arglist :=
  match args with
  | some _ => some { list := none, count := 0, size := 0 }
  | none => none

/-- Function `clear_arglist(args)`: the words and the array are freed, then the
fields are set as by `init_arglist`. -/
def clear_arglist (args : Option arglist) : Option arglist :=
  init_arglist args

/-- The loop `while ((aux1 = strpbrk(aux, "\n\t")) != NULL) *aux1 = ' ';`: every
newline and every tab of the text becomes a space. -/
def blank_out (aux : List Char) : List Char :=
  aux.map fun c => if c = '\n' ∨ c = '\t' then ' ' else c

/-- The calls `strtok(aux, " ")` and `strtok(NULL, " ")` on the text not yet
scanned: the leading spaces are skipped; at the end of the text there is no
token (`none`); otherwise the token runs up to the next space or to the end of
the text, and the scan goes on behind that space. -/
def strtok (text : List Char) : Option (List Char × List Char) :=
  match text.dropWhile (fun c => c = ' ') with
  | [] => none
  | c :: cs =>
    some ((c :: cs).takeWhile (fun c => c ≠ ' '), ((c :: cs).dropWhile (fun c => c ≠ ' ')).tail)

/-- Call `realloc(list, size * sizeof(char *))`: the array with `size` slots, the
old ones kept. -/
def realloc (list : List arg_slot) (size : Nat) : List arg_slot :=
  list.take size ++ List.replicate (size - list.length) .uninit

/-- The assignment `list[i] = v`: outside the allocated array the run ends. -/
def store (list : List arg_slot) (i : Nat) (v : arg_slot) : Exec (List arg_slot) :=
  if i < list.length then pure (list.set i v) else .segv

/-- The allocation at the head of the loop body of `addargs`, lines 132-144:
the first array of 8 slots, or 8 slots more when `count + 2 >= size`. -/
def addargs_room (args : arglist) : arglist :=
  match args.list with
  | none =>
    /- initial memory allocation -/
    { list := some (List.replicate 8 .uninit), size := 8, count := 0 }
  | some list =>
    if args.count + 2 ≥ args.size then
      /- list is too short to add next to word so we have to extend it -/
      { args with size := args.size + 8, list := some (realloc list (args.size + 8)) }
    else args

/-- The body of the loop of `addargs` for the word `aux`, lines 132-149: after
the allocation the copy of the word is written to `list[count]` and `NULL` to
`list[++count]`. -/
def addargs_word (args : arglist) (aux : String) : Exec arglist := do
  let args := addargs_room args
  /- add word in the end of the list -/
  let list ← deref args.list
  let list ← store list args.count (.word aux)
  let list ← store list (args.count + 1) .null
  pure { args with list := some list, count := args.count + 1 }

/-- The loop `for (aux = strtok(aux, " "); aux != NULL; aux = strtok(NULL, " "))`
of `addargs`, for at most `fuel` tokens. -/
def addargs_loop : Nat → arglist → List Char → Exec arglist
  | 0, args, _ => pure args
  | fuel + 1, args, text =>
    match strtok text with
    | none => pure args
    | some (aux, rest) =>
      if aux = [] then addargs_loop fuel args rest
      else do
        let args ← addargs_word args (String.mk aux)
        addargs_loop fuel args rest

/-- Function `addargs(args, format, ...)`; `aux` is the text that `vasprintf` makes of
`format` and the arguments behind it.  A text has fewer tokens than
characters. -/
def addargs (args : Option arglist) (aux : String) : Exec (Option arglist) :=
  match args with
  | none => pure none
  | some args => do
    let text := blank_out aux.toList
    let args ← addargs_loop (text.length + 1) args text
    pure (some args)

/-- A sequence of calls of `addargs` on the same arglist, one for each text. -/
def addargs_calls (args : Option arglist) : List String → Exec (Option arglist)
  | [] => pure args
  | aux :: rest => do
    let args ← addargs args aux
    addargs_calls args rest

/-- Whether a character is a space, a tab or a newline. -/
def is_blank (c : Char) : Bool :=
  c = ' ' ∨ c = '\t' ∨ c = '\n'

/-- The words of a text: its maximal non-empty runs of characters other than
space, tab and newline, in their order of occurrence. -/
def words_of (s : String) : List String :=
  ((s.toList.splitOnP is_blank).filter fun w => w ≠ []).map String.mk

/-- The tokens of a text in which only the space separates. -/
def tokens_of (text : List Char) : List String :=
  ((text.splitOnP fun c => c = ' ').filter fun w => w ≠ []).map String.mk

/-- An arglist that holds the words `ws`: untouched as long as there is no
word; otherwise the array starts with the words, `NULL` follows them at the
index `count`, there is at least one more slot behind it, and `size` is the
length of the array. -/
def stored (args : arglist) (ws : List String) : Prop :=
  (ws = [] ∧ args = { list := none, count := 0, size := 0 }) ∨
  (ws ≠ [] ∧ ∃ tail : List arg_slot, tail ≠ [] ∧
    args = { list := some (ws.map .word ++ .null :: tail), count := ws.length,
             size := ws.length + 1 + tail.length })

/-- Modelled from the spec: the session, which is not among the sources, as far
as the client and the gateway look at it: its identity and its CapabilitySet,
"an unordered set of Capability, owned by the session layer". -/
structure nc_session where
  session_id : String
  capabilities : List String
  deriving DecidableEq, Repr

/-- Modelled from the spec: `nc_cpblts_enabled(session, capability)` of the session
layer, the query of the CapabilitySet. -/
def nc_cpblts_enabled (session : nc_session) (capability : String) : Bool :=
  session.capabilities.contains capability

def NC_CAP_CANDIDATE_ID : String := "urn:ietf:params:netconf:capability:candidate:1.0"
def NC_CAP_STARTUP_ID : String := "urn:ietf:params:netconf:capability:startup:1.0"

/-- What the option loop of `cmd_getconfig` (lines 438-458) leaves behind: one of
its three early returns, or the filter, the argument vector as `getopt_long` has
permuted it, and `optind`. -/
inductive option_scan where
  | filter_failed
  | help
  | unknown
  | done (filter : Option nc_filter) (list : List String) (optind : Nat)
  deriving DecidableEq, Repr

/-- What the client calls and the sources do not hold: the option loop built on
`getopt_long` of the C library and on `set_filter`, which reads a file. -/
structure Terminal where
  scan_options : List String → option_scan

/-- How a run of `cmd_getconfig` goes on: it returns `EXIT_FAILURE` or
`EXIT_SUCCESS` before any request is built, it calls
`nc_rpc_getconfig(target, filter)`, or it keeps asking for a datastore because the
input has come to its end. -/
inductive getconfig_run where
  | failure
  | success
  | request (target : NC_DATASTORE) (filter : Option nc_filter)
  | asking
  deriving DecidableEq, Repr

/-- The statements under "validate argument" of `cmd_getconfig` (lines 486-499 and
509-522) for `valid = 0` before them: `some target` stands for `valid = 1` with
the value assigned to `target`, `none` for `valid = 0`. -/
def validate_argument (session : nc_session) (datastore : String) : Option NC_DATASTORE :=
  let target : Option NC_DATASTORE := none
  let target := if datastore = "running" then some .NC_DATASTORE_RUNNING else target
  let target :=
    if nc_cpblts_enabled session NC_CAP_STARTUP_ID ∧ datastore = "startup" then
      some .NC_DATASTORE_STARTUP
    else target
  let target :=
    if nc_cpblts_enabled session NC_CAP_CANDIDATE_ID ∧ datastore = "candidate" then
      some .NC_DATASTORE_CANDIDATE
    else target
  target

/-- The loop `while (!valid)` behind the label `userinput` of `cmd_getconfig`;
`input` holds the words that `scanf("%1023s", datastore)` reads one after the
other.  The loop is left with the first valid word; it is not left when the
input ends before (`none`). -/
def userinput (session : nc_session) : List String → Option NC_DATASTORE
  | [] => none
  | datastore :: input =>
    match validate_argument session datastore with
    | some target => some target
    | none => userinput session input

/-- The run of `cmd_getconfig` from the label `userinput` on: the request for the
datastore that the user selects. -/
def userinput_run (session : nc_session) (input : List String) (filter : Option nc_filter) :
    getconfig_run :=
  match userinput session input with
  | some target => .request target filter
  | none => .asking

/-- The words at the indices below `count` of the array of an arglist, the
argument vector handed to `getopt_long`. -/
def argv (cmd : arglist) : List String :=
  ((cmd.list.getD []).take cmd.count).filterMap fun slot =>
    match slot with
    | .word s => some s
    | _ => none

/-- Function `cmd_getconfig(arg)` up to its call of `nc_rpc_getconfig`; the exchange
with the server that follows is outside of the embedding.  `session` is the
global variable of that name, `input` what the user types when asked. -/
def cmd_getconfig (T : Terminal) (session : Option nc_session) (arg : String)
    (input : List String) : Exec getconfig_run :=
  match session with
  | none => pure .failure
  | some session => do
    let cmd ← deref (← addargs (init_arglist (some { list := none, count := 0, size := 0 })) arg)
    match T.scan_options (argv cmd) with
    | .filter_failed => pure .failure
    | .help => pure .success
    | .unknown => pure .failure
    | .done filter list optind =>
      if optind = cmd.count then pure (userinput_run session input filter)
      else if optind + 1 = cmd.count then do
        let datastore ← deref (list.get? optind)
        match validate_argument session datastore with
        | some target => pure (.request target filter)
        | none =>
          /- goto userinput -/
          pure (userinput_run session input filter)
      else pure .failure

/-! ## The datastore gateway (`src/datastore/datastore_internal.h`)

The header declares the backend interface; the gateway that calls it is not
among the sources. -/

/-- Datastore identifiers (`ncds_id`): 0 for an uninitiated datastore, a positive
value for a valid one. -/
abbrev ncds_id := Nat

/-- The entries `lock`, `unlock` and `getconfig` of `struct ncds_funcs`, each bound to
its datastore `ds`; the `int` result together with the error written through
`error` is a value of `Except`.  The entries `init` and `free` set up and release
the storage and have no part in the calls below. -/
structure ncds_funcs where
  lock : nc_session → NC_DATASTORE → Except nc_err Unit
  unlock : nc_session → NC_DATASTORE → Except nc_err Unit
  getconfig : nc_session → NC_DATASTORE → Option nc_filter → Except nc_err String

/-- Fields of `struct ncds_ds`; the implementation type `NCDS_TYPE` is declared
outside of the sources and left out. -/
structure ncds_ds where
  id : ncds_id
  model_path : String
  model : Option xmlDoc
  func : ncds_funcs

/-- Modelled from the spec: a Lock Record of the gateway, which is not among
the sources; the table of these records maps "(backend id, DatastoreTarget) to
the identity of the holding session, or absent if unlocked". -/
structure lock_record where
  backend_id : ncds_id
  target : NC_DATASTORE
  holder : String
  deriving DecidableEq, Repr

/-- Modelled from the spec: the failures of the gateway, `AlreadyLocked`
"carrying the holding session's identity", `NotLocked`, `LockOwnedByOther`, and
the failure of the backend. -/
inductive gateway_error where
  | AlreadyLocked (holder : String)
  | NotLocked
  | LockOwnedByOther (holder : String)
  | BackendError (error : nc_err)
  deriving DecidableEq, Repr

/-- Modelled from the spec: the holder recorded for (backend id, target), if
any. -/
def lock_holder (table : List lock_record) (backend_id : ncds_id) (target : NC_DATASTORE) :
    Option String :=
  (table.find? fun r => r.backend_id = backend_id ∧ r.target = target).map fun r => r.holder

/-- Modelled from the spec: `lock(backend_id, session_id, target)` of the gateway,
with the backend already resolved from its id; it "fails with `AlreadyLocked`
... if a Lock Record exists for (backend_id, target) held by a different
session; idempotent (no-op success) if already held by the same session;
otherwise delegates to the backend and records ownership only on backend
success".  The result comes with the table after the call. -/
def gateway_lock (table : List lock_record) (ds : ncds_ds) (session : nc_session)
    (target : NC_DATASTORE) : Except gateway_error Unit × List lock_record :=
  match lock_holder table ds.id target with
  | some holder =>
    if holder ≠ session.session_id then (.error (.AlreadyLocked holder), table)
    else (.ok (), table)
  | none =>
    match ds.func.lock session target with
    | .ok _ => (.ok (), table ++ [{ backend_id := ds.id, target := target,
                                    holder := session.session_id }])
    | .error e => (.error (.BackendError e), table)

/-- Modelled from the spec: `unlock` of the gateway; it "fails with `NotLocked` if
no record exists, `LockOwnedByOther` if held by a different session; otherwise
delegates and clears the record only on backend success". -/
def gateway_unlock (table : List lock_record) (ds : ncds_ds) (session : nc_session)
    (target : NC_DATASTORE) : Except gateway_error Unit × List lock_record :=
  match lock_holder table ds.id target with
  | none => (.error .NotLocked, table)
  | some holder =>
    if holder ≠ session.session_id then (.error (.LockOwnedByOther holder), table)
    else
      match ds.func.unlock session target with
      | .ok _ =>
        (.ok (), table.filter fun r => ¬ (r.backend_id = ds.id ∧ r.target = target))
      | .error e => (.error (.BackendError e), table)

/-- Modelled from the spec: the cleanup at the end of a session, which "must
release every Lock Record owned by that session". -/
def gateway_session_end (table : List lock_record) (session : nc_session) :
    List lock_record :=
  table.filter fun r => r.holder ≠ session.session_id

/-- A call that changes the Lock Record table. -/
inductive gateway_call where
  | lock (ds : ncds_ds) (session : nc_session) (target : NC_DATASTORE)
  | unlock (ds : ncds_ds) (session : nc_session) (target : NC_DATASTORE)
  | session_end (session : nc_session)

/-- The table after a call. -/
def gateway_step (table : List lock_record) : gateway_call → List lock_record
  | .lock ds session target => (gateway_lock table ds session target).2
  | .unlock ds session target => (gateway_unlock table ds session target).2
  | .session_end session => gateway_session_end table session

/-- The table reached from the empty one by a sequence of calls. -/
def gateway_run (calls : List gateway_call) : List lock_record :=
  calls.foldl gateway_step []

/-- The records of a table for (backend id, target). -/
def lock_records (table : List lock_record) (backend_id : ncds_id) (target : NC_DATASTORE) :
    List lock_record :=
  table.filter fun r => r.backend_id = backend_id ∧ r.target = target

/-- A sample backend that grants every request. -/
def sampleDatastore : ncds_ds where
  id := 1
  model_path := "model.yin"
  model := none
  func :=
    { lock := fun _ _ => .ok ()
      unlock := fun _ _ => .ok ()
      getconfig := fun _ _ _ => .ok "" }

/-- The sample session with the given identity and capability list. -/
def sampleSession (session_id : String) (capabilities : List String) : nc_session :=
  { session_id := session_id, capabilities := capabilities }

/-- A sample terminal: no option is given, the first word is the name of the
command, the arguments follow it. -/
def sampleTerminal : Terminal where
  scan_options := fun list => .done none list 1

/-! ## Lemmas on the primitives -/

@[simp] theorem Exec.pure_eq {α : Type} (a : α) : (pure a : Exec α) = Exec.ret a := rfl

@[simp] theorem Exec.ret_bind {α β : Type} (a : α) (f : α → Exec β) :
    (Exec.ret a >>= f) = f a := rfl

@[simp] theorem Exec.segv_bind {α β : Type} (f : α → Exec β) :
    (Exec.segv >>= f) = Exec.segv := rfl

theorem xmlLinkChild_elem (name : String) (kids : List xmlNode) (cur : xmlNode)
    (h : ∀ last, kids.getLast? = some last → last.type ≠ .XML_TEXT_NODE) :
    xmlLinkChild (elem name kids) cur = elem name (kids ++ [cur]) := by
  unfold xmlLinkChild
  simp only [elem, xmlNode.children, xmlNode.setChildren]
  cases hl : kids.getLast? with
  | none =>
    have : kids = [] := by simpa using hl
    simp [this]
  | some last =>
    have := h last hl
    simp [this]

theorem xmlCopyNode_eq_some (c : Option xmlNode) (cur : xmlNode) (h : xmlCopyNode c = some cur) :
    c = some cur ∧ cur.type ≠ .XML_DTD_NODE := by
  cases c with
  | none => simp [xmlCopyNode] at h
  | some n =>
    simp only [xmlCopyNode] at h
    split_ifs at h with hn
    cases h
    exact ⟨rfl, hn⟩

/-! ## Closed forms of the request builders -/

theorem nc_rpc_lock_eq (L : LibXml2) (t : NC_DATASTORE) :
    nc_rpc_lock L t =
      .ret ((datastoreName t).map fun ds =>
        rpcMsg (elem "lock" [datastoreElem "target" ds]) .NC_RPC_DATASTORE_WRITE) := by
  cases t <;> rfl

theorem nc_rpc_unlock_eq (L : LibXml2) (t : NC_DATASTORE) :
    nc_rpc_unlock L t =
      .ret ((datastoreName t).map fun ds =>
        rpcMsg (elem "unlock" [datastoreElem "target" ds]) .NC_RPC_DATASTORE_WRITE) := by
  cases t <;> rfl

theorem nc_rpc_deleteconfig_eq (L : LibXml2) (t : NC_DATASTORE) :
    nc_rpc_deleteconfig L t =
      .ret (if t = .NC_DATASTORE_RUNNING then none else
        (datastoreName t).map fun ds =>
          rpcMsg (elem "delete-config" [datastoreElem "target" ds]) .NC_RPC_DATASTORE_WRITE) := by
  cases t <;> rfl

theorem nc_rpc_closesession_eq :
    nc_rpc_closesession = .ret (some (rpcMsg (elem "close-session" []) .NC_RPC_SESSION)) := rfl

theorem nc_rpc_killsession_eq (L : LibXml2) (sid : Option String) :
    nc_rpc_killsession L sid =
      .ret (match sid with
        | none => none
        | some sid =>
          if sid.length = 0 then none
          else some (rpcMsg (elem "kill-session" [elem "session-id" (xmlStringGetNodeList L sid)])
            .NC_RPC_SESSION)) := by
  cases sid with
  | none => rfl
  | some sid =>
    by_cases h : sid.length = 0
    · simp [nc_rpc_killsession, h]
    · simp only [nc_rpc_killsession, h, if_false]
      rfl

theorem nc_rpc_get_eq (L : LibXml2) (filter : Option nc_filter) :
    nc_rpc_get L filter =
      .ret ((filterChild L filter).map fun kids =>
        rpcMsg (elem "get" kids) .NC_RPC_DATASTORE_READ) := by
  unfold nc_rpc_get process_filter_param filterChild filterText
  cases filter with
  | none => rfl
  | some f =>
    by_cases hf : f.type = .NC_FILTER_SUBTREE
    · simp only [hf, if_true]
      generalize L.xmlReadMemory _ 0 = r
      cases r with
      | none => rfl
      | some doc =>
        simp only []
        generalize xmlCopyNode doc.children.head? = c
        cases c with
        | none => rfl
        | some c => rfl
    · simp only [hf, if_false]
      rfl

theorem nc_rpc_getconfig_eq (L : LibXml2) (source : NC_DATASTORE) (filter : Option nc_filter) :
    nc_rpc_getconfig L source filter =
      .ret ((datastoreName source).bind fun ds => (filterChild L filter).map fun kids =>
        rpcMsg (elem "get-config" (datastoreElem "source" ds :: kids)) .NC_RPC_DATASTORE_READ) := by
  unfold nc_rpc_getconfig process_filter_param filterChild filterText
  cases filter with
  | none => cases source <;> rfl
  | some f =>
    by_cases hf : f.type = .NC_FILTER_SUBTREE
    · simp only [hf, if_true]
      generalize L.xmlReadMemory _ 0 = r
      cases r with
      | none => cases source <;> rfl
      | some doc =>
        simp only []
        generalize xmlCopyNode doc.children.head? = c
        cases c with
        | none => cases source <;> rfl
        | some c =>
          have key : ∀ ds : String,
              xmlLinkChild (elem "get-config" [datastoreElem "source" ds]) c =
                elem "get-config" [datastoreElem "source" ds, c] := fun ds =>
            xmlLinkChild_elem _ _ _ (by simp [datastoreElem, elem, xmlNode.type])
          cases source
          · rfl
          · exact congrArg (fun n => setRpcType (nc_rpc_create (some n)) _) (key "running")
          · exact congrArg (fun n => setRpcType (nc_rpc_create (some n)) _) (key "startup")
          · exact congrArg (fun n => setRpcType (nc_rpc_create (some n)) _) (key "candidate")
    · simp only [hf, if_false]
      cases source <;> rfl

theorem nc_rpc_copyconfig_named (L : LibXml2) (s t : NC_DATASTORE) (data : Option String)
    (ds : String) (hs : datastoreName s = some ds) :
    nc_rpc_copyconfig L s t data =
      .ret (if t = s then none else
        (datastoreName t).map fun dt =>
          rpcMsg (elem "copy-config" [datastoreElem "source" ds, datastoreElem "target" dt])
            .NC_RPC_DATASTORE_WRITE) := by
  cases s <;> cases t <;> simp [datastoreName] at hs <;> subst hs <;> rfl

theorem nc_rpc_copyconfig_inline (L : LibXml2) (t : NC_DATASTORE) (data : Option String) :
    nc_rpc_copyconfig L .NC_DATASTORE_NONE t data =
      .ret ((datastoreName t).bind fun dt => data.bind fun text =>
        (inlineConfig L text).map fun cur =>
          rpcMsg (elem "copy-config" [elem "source" [elem "config" [cur]],
            datastoreElem "target" dt]) .NC_RPC_DATASTORE_WRITE) := by
  cases data with
  | none => cases t <;> rfl
  | some text =>
    unfold nc_rpc_copyconfig inlineConfig dataOptions
    cases hr : L.xmlReadMemory text (XML_PARSE_NOERROR ||| XML_PARSE_NOWARNING) with
    | none => cases t <;> simp [copyconfig_datastore, deref, hr, datastoreName]
    | some doc =>
      cases hc : xmlCopyNode doc.children.head? with
      | none => cases t <;> simp [copyconfig_datastore, deref, hr, hc, datastoreName]
      | some c =>
        cases t <;> simp [copyconfig_datastore, deref, hr, hc, datastoreName] <;> rfl

theorem nc_rpc_editconfig_eq (L : LibXml2) (t : NC_DATASTORE) (d : NC_EDIT_DEFOP_TYPE)
    (e : NC_EDIT_ERROPT_TYPE) (data : Option String) :
    nc_rpc_editconfig L t d e data =
      .ret (data.bind fun text =>
        if text.length = 0 then none
        else (datastoreName t).bind fun ds =>
          if d = .NC_EDIT_DEFOP_ERROR ∨ e = .NC_EDIT_ERROPT_ERROR then none
          else (inlineConfig L text).map fun cur =>
            rpcMsg (editconfigElem ds d e cur) .NC_RPC_DATASTORE_WRITE) := by
  cases data with
  | none => rfl
  | some text =>
    unfold nc_rpc_editconfig inlineConfig dataOptions
    by_cases hlen : text.length = 0
    · simp [hlen]
    · cases hr : L.xmlReadMemory text (XML_PARSE_NOERROR ||| XML_PARSE_NOWARNING) with
      | none => cases t <;> cases d <;> cases e <;> simp [hlen, hr, datastoreName]
      | some doc =>
        cases hc : xmlCopyNode doc.children.head? with
        | none => cases t <;> cases d <;> cases e <;> simp [hlen, hr, hc, datastoreName]
        | some c =>
          cases t <;> cases d <;> cases e <;> simp [hlen, hr, hc, datastoreName] <;> rfl

theorem nc_rpc_editconfig_inv (L : LibXml2) (t : NC_DATASTORE) (d : NC_EDIT_DEFOP_TYPE)
    (e : NC_EDIT_ERROPT_TYPE) (data : Option String) (m : nc_msg)
    (h : nc_rpc_editconfig L t d e data = .ret (some m)) :
    ∃ text ds cur, data = some text ∧ text.length ≠ 0 ∧ datastoreName t = some ds ∧
      d ≠ .NC_EDIT_DEFOP_ERROR ∧ e ≠ .NC_EDIT_ERROPT_ERROR ∧ inlineConfig L text = some cur ∧
      m = rpcMsg (editconfigElem ds d e cur) .NC_RPC_DATASTORE_WRITE := by
  rw [nc_rpc_editconfig_eq] at h
  simp only [Exec.ret.injEq, Option.bind_eq_some] at h
  obtain ⟨text, rfl, h⟩ := h
  by_cases hlen : text.length = 0
  · simp [hlen] at h
  · simp only [hlen, if_false, Option.bind_eq_some] at h
    obtain ⟨ds, hds, h⟩ := h
    by_cases hde : d = .NC_EDIT_DEFOP_ERROR ∨ e = .NC_EDIT_ERROPT_ERROR
    · simp [hde] at h
    · simp only [hde, if_false, Option.map_eq_some'] at h
      obtain ⟨cur, hcur, rfl⟩ := h
      push_neg at hde
      exact ⟨text, ds, cur, rfl, hlen, hds, hde.1, hde.2, hcur, rfl⟩


/-! ## Reading back what the builders wrote -/

theorem nc_rpc_get_op_rpcMsg (content : xmlNode) (t : NC_RPC_TYPE) :
    nc_rpc_get_op (some (rpcMsg content t)) = .ret (opOfName content.name) := by
  simp [nc_rpc_get_op, rpcMsg, envelope, deref, xmlNode.name, xmlNode.children, opOfName]
  split_ifs <;> rfl

/-- C1: for each of the nine request builders and every argument tuple on which
the builder returns a message, `nc_rpc_get_op` of that message is the operation
code of the builder. -/
theorem nc_rpc_get_op_of_built (L : LibXml2) (m : nc_msg) :
    (∀ filter, nc_rpc_get L filter = .ret (some m) →
      nc_rpc_get_op (some m) = .ret .NC_OP_GET) ∧
    (∀ source filter, nc_rpc_getconfig L source filter = .ret (some m) →
      nc_rpc_get_op (some m) = .ret .NC_OP_GETCONFIG) ∧
    (∀ target d e data, nc_rpc_editconfig L target d e data = .ret (some m) →
      nc_rpc_get_op (some m) = .ret .NC_OP_EDITCONFIG) ∧
    (∀ source target data, nc_rpc_copyconfig L source target data = .ret (some m) →
      nc_rpc_get_op (some m) = .ret .NC_OP_COPYCONFIG) ∧
    (∀ target, nc_rpc_deleteconfig L target = .ret (some m) →
      nc_rpc_get_op (some m) = .ret .NC_OP_DELETECONFIG) ∧
    (∀ target, nc_rpc_lock L target = .ret (some m) →
      nc_rpc_get_op (some m) = .ret .NC_OP_LOCK) ∧
    (∀ target, nc_rpc_unlock L target = .ret (some m) →
      nc_rpc_get_op (some m) = .ret .NC_OP_UNLOCK) ∧
    (∀ kill_sid, nc_rpc_killsession L kill_sid = .ret (some m) →
      nc_rpc_get_op (some m) = .ret .NC_OP_KILLSESSION) ∧
    (nc_rpc_closesession = .ret (some m) →
      nc_rpc_get_op (some m) = .ret .NC_OP_CLOSESESSION) := by
  refine ⟨?_, ?_, ?_, ?_, ?_, ?_, ?_, ?_, ?_⟩
  · intro filter h
    rw [nc_rpc_get_eq] at h
    simp only [Exec.ret.injEq, Option.map_eq_some'] at h
    obtain ⟨kids, -, rfl⟩ := h
    exact nc_rpc_get_op_rpcMsg _ _
  · intro source filter h
    rw [nc_rpc_getconfig_eq] at h
    simp only [Exec.ret.injEq, Option.bind_eq_some, Option.map_eq_some'] at h
    obtain ⟨ds, -, kids, -, rfl⟩ := h
    exact nc_rpc_get_op_rpcMsg _ _
  · intro target d e data h
    obtain ⟨text, ds, cur, -, -, -, -, -, -, rfl⟩ := nc_rpc_editconfig_inv L target d e data m h
    exact nc_rpc_get_op_rpcMsg _ _
  · intro source target data h
    cases hs : datastoreName source with
    | none =>
      have : source = .NC_DATASTORE_NONE := by cases source <;> simp_all [datastoreName]
      subst this
      rw [nc_rpc_copyconfig_inline] at h
      simp only [Exec.ret.injEq, Option.bind_eq_some, Option.map_eq_some'] at h
      obtain ⟨dt, -, text, -, cur, -, rfl⟩ := h
      exact nc_rpc_get_op_rpcMsg _ _
    | some ds =>
      rw [nc_rpc_copyconfig_named L source target data ds hs] at h
      simp only [Exec.ret.injEq] at h
      split_ifs at h
      simp only [Option.map_eq_some'] at h
      obtain ⟨dt, -, rfl⟩ := h
      exact nc_rpc_get_op_rpcMsg _ _
  · intro target h
    rw [nc_rpc_deleteconfig_eq] at h
    simp only [Exec.ret.injEq] at h
    split_ifs at h
    simp only [Option.map_eq_some'] at h
    obtain ⟨dt, -, rfl⟩ := h
    exact nc_rpc_get_op_rpcMsg _ _
  · intro target h
    rw [nc_rpc_lock_eq] at h
    simp only [Exec.ret.injEq, Option.map_eq_some'] at h
    obtain ⟨dt, -, rfl⟩ := h
    exact nc_rpc_get_op_rpcMsg _ _
  · intro target h
    rw [nc_rpc_unlock_eq] at h
    simp only [Exec.ret.injEq, Option.map_eq_some'] at h
    obtain ⟨dt, -, rfl⟩ := h
    exact nc_rpc_get_op_rpcMsg _ _
  · intro kill_sid h
    rw [nc_rpc_killsession_eq] at h
    cases kill_sid with
    | none => simp at h
    | some sid =>
      simp only [Exec.ret.injEq] at h
      split_ifs at h
      cases h
      exact nc_rpc_get_op_rpcMsg _ _
  · intro h
    rw [nc_rpc_closesession_eq] at h
    cases h
    exact nc_rpc_get_op_rpcMsg _ _

/-- Witness of C1: the nine builders on sample arguments, each returning a
message that `nc_rpc_get_op` classifies as the operation of the builder. -/
theorem nc_rpc_get_op_of_built_witness :
    (nc_rpc_get sampleEnv.toLibXml2 (some ⟨.NC_FILTER_SUBTREE, "subtree", "<a/>"⟩) =
        .ret (some (rpcMsg (elem "get"
          [.mk .XML_ELEMENT_NODE "filter" none [] [⟨"type", "subtree"⟩] [elem "a" []]])
          .NC_RPC_DATASTORE_READ)) ∧
      nc_rpc_get_op (some (rpcMsg (elem "get"
          [.mk .XML_ELEMENT_NODE "filter" none [] [⟨"type", "subtree"⟩] [elem "a" []]])
          .NC_RPC_DATASTORE_READ)) = .ret .NC_OP_GET) ∧
    (nc_rpc_getconfig sampleEnv.toLibXml2 .NC_DATASTORE_RUNNING none =
        .ret (some (rpcMsg (elem "get-config" [datastoreElem "source" "running"])
          .NC_RPC_DATASTORE_READ)) ∧
      nc_rpc_get_op (some (rpcMsg (elem "get-config" [datastoreElem "source" "running"])
          .NC_RPC_DATASTORE_READ)) = .ret .NC_OP_GETCONFIG) ∧
    (nc_rpc_editconfig sampleEnv.toLibXml2 .NC_DATASTORE_CANDIDATE .NC_EDIT_DEFOP_REPLACE
        .unspecified (some "<a/>") =
        .ret (some (rpcMsg (editconfigElem "candidate" .NC_EDIT_DEFOP_REPLACE .unspecified
          (elem "a" [])) .NC_RPC_DATASTORE_WRITE)) ∧
      nc_rpc_get_op (some (rpcMsg (editconfigElem "candidate" .NC_EDIT_DEFOP_REPLACE
          .unspecified (elem "a" [])) .NC_RPC_DATASTORE_WRITE)) = .ret .NC_OP_EDITCONFIG) ∧
    (nc_rpc_copyconfig sampleEnv.toLibXml2 .NC_DATASTORE_RUNNING .NC_DATASTORE_STARTUP none =
        .ret (some (rpcMsg (elem "copy-config"
          [datastoreElem "source" "running", datastoreElem "target" "startup"])
          .NC_RPC_DATASTORE_WRITE)) ∧
      nc_rpc_get_op (some (rpcMsg (elem "copy-config"
          [datastoreElem "source" "running", datastoreElem "target" "startup"])
          .NC_RPC_DATASTORE_WRITE)) = .ret .NC_OP_COPYCONFIG) ∧
    (nc_rpc_deleteconfig sampleEnv.toLibXml2 .NC_DATASTORE_STARTUP =
        .ret (some (rpcMsg (elem "delete-config" [datastoreElem "target" "startup"])
          .NC_RPC_DATASTORE_WRITE)) ∧
      nc_rpc_get_op (some (rpcMsg (elem "delete-config" [datastoreElem "target" "startup"])
          .NC_RPC_DATASTORE_WRITE)) = .ret .NC_OP_DELETECONFIG) ∧
    (nc_rpc_lock sampleEnv.toLibXml2 .NC_DATASTORE_RUNNING =
        .ret (some (rpcMsg (elem "lock" [datastoreElem "target" "running"])
          .NC_RPC_DATASTORE_WRITE)) ∧
      nc_rpc_get_op (some (rpcMsg (elem "lock" [datastoreElem "target" "running"])
          .NC_RPC_DATASTORE_WRITE)) = .ret .NC_OP_LOCK) ∧
    (nc_rpc_unlock sampleEnv.toLibXml2 .NC_DATASTORE_RUNNING =
        .ret (some (rpcMsg (elem "unlock" [datastoreElem "target" "running"])
          .NC_RPC_DATASTORE_WRITE)) ∧
      nc_rpc_get_op (some (rpcMsg (elem "unlock" [datastoreElem "target" "running"])
          .NC_RPC_DATASTORE_WRITE)) = .ret .NC_OP_UNLOCK) ∧
    (nc_rpc_killsession sampleEnv.toLibXml2 (some "4") =
        .ret (some (rpcMsg (elem "kill-session" [elem "session-id" [xmlNewText "4"]])
          .NC_RPC_SESSION)) ∧
      nc_rpc_get_op (some (rpcMsg (elem "kill-session" [elem "session-id" [xmlNewText "4"]])
          .NC_RPC_SESSION)) = .ret .NC_OP_KILLSESSION) ∧
    (nc_rpc_closesession = .ret (some (rpcMsg (elem "close-session" []) .NC_RPC_SESSION)) ∧
      nc_rpc_get_op (some (rpcMsg (elem "close-session" []) .NC_RPC_SESSION)) =
        .ret .NC_OP_CLOSESESSION) :=
  ⟨⟨rfl, (nc_rpc_get_op_of_built sampleEnv.toLibXml2 _).1
      (some ⟨.NC_FILTER_SUBTREE, "subtree", "<a/>"⟩) rfl⟩,
   ⟨rfl, (nc_rpc_get_op_of_built sampleEnv.toLibXml2 _).2.1 .NC_DATASTORE_RUNNING none rfl⟩,
   ⟨rfl, (nc_rpc_get_op_of_built sampleEnv.toLibXml2 _).2.2.1 .NC_DATASTORE_CANDIDATE
      .NC_EDIT_DEFOP_REPLACE .unspecified (some "<a/>") rfl⟩,
   ⟨rfl, (nc_rpc_get_op_of_built sampleEnv.toLibXml2 _).2.2.2.1 .NC_DATASTORE_RUNNING
      .NC_DATASTORE_STARTUP none rfl⟩,
   ⟨rfl, (nc_rpc_get_op_of_built sampleEnv.toLibXml2 _).2.2.2.2.1 .NC_DATASTORE_STARTUP rfl⟩,
   ⟨rfl, (nc_rpc_get_op_of_built sampleEnv.toLibXml2 _).2.2.2.2.2.1 .NC_DATASTORE_RUNNING rfl⟩,
   ⟨rfl, (nc_rpc_get_op_of_built sampleEnv.toLibXml2 _).2.2.2.2.2.2.1 .NC_DATASTORE_RUNNING rfl⟩,
   ⟨rfl, (nc_rpc_get_op_of_built sampleEnv.toLibXml2 _).2.2.2.2.2.2.2.1 (some "4") rfl⟩,
   ⟨rfl, (nc_rpc_get_op_of_built sampleEnv.toLibXml2 _).2.2.2.2.2.2.2.2 rfl⟩⟩


/-- C2: the datastore of the single-datastore operations is read back: the
target of the messages built by `nc_rpc_lock`, `nc_rpc_unlock`,
`nc_rpc_deleteconfig` and `nc_rpc_editconfig`, and the source of the message
built by `nc_rpc_getconfig`, whenever the builder returns a message. -/
theorem nc_rpc_get_ds_of_built (L : LibXml2) (t : NC_DATASTORE) (m : nc_msg) :
    (nc_rpc_lock L t = .ret (some m) → nc_rpc_get_target (some m) = t) ∧
    (nc_rpc_unlock L t = .ret (some m) → nc_rpc_get_target (some m) = t) ∧
    (nc_rpc_deleteconfig L t = .ret (some m) → nc_rpc_get_target (some m) = t) ∧
    (∀ d e data, nc_rpc_editconfig L t d e data = .ret (some m) →
      nc_rpc_get_target (some m) = t) ∧
    (∀ filter, nc_rpc_getconfig L t filter = .ret (some m) →
      nc_rpc_get_source (some m) = t) := by
  refine ⟨?_, ?_, ?_, ?_, ?_⟩
  · intro h
    rw [nc_rpc_lock_eq] at h
    simp only [Exec.ret.injEq, Option.map_eq_some'] at h
    obtain ⟨ds, hds, rfl⟩ := h
    cases t <;> simp [datastoreName] at hds <;> subst hds <;> rfl
  · intro h
    rw [nc_rpc_unlock_eq] at h
    simp only [Exec.ret.injEq, Option.map_eq_some'] at h
    obtain ⟨ds, hds, rfl⟩ := h
    cases t <;> simp [datastoreName] at hds <;> subst hds <;> rfl
  · intro h
    rw [nc_rpc_deleteconfig_eq] at h
    simp only [Exec.ret.injEq] at h
    split_ifs at h
    simp only [Option.map_eq_some'] at h
    obtain ⟨ds, hds, rfl⟩ := h
    cases t <;> simp [datastoreName] at hds <;> subst hds <;> rfl
  · intro d e data h
    obtain ⟨text, ds, cur, -, -, hds, -, -, -, rfl⟩ := nc_rpc_editconfig_inv L t d e data m h
    cases t <;> simp [datastoreName] at hds <;> subst hds <;> rfl
  · intro filter h
    rw [nc_rpc_getconfig_eq] at h
    simp only [Exec.ret.injEq, Option.bind_eq_some, Option.map_eq_some'] at h
    obtain ⟨ds, hds, kids, -, rfl⟩ := h
    cases t <;> simp [datastoreName] at hds <;> subst hds <;> rfl

/-- Witness of C2: the five builders on sample arguments. -/
theorem nc_rpc_get_ds_of_built_witness :
    nc_rpc_get_target (some (rpcMsg (elem "lock" [datastoreElem "target" "candidate"])
      .NC_RPC_DATASTORE_WRITE)) = .NC_DATASTORE_CANDIDATE ∧
    nc_rpc_get_target (some (rpcMsg (elem "unlock" [datastoreElem "target" "candidate"])
      .NC_RPC_DATASTORE_WRITE)) = .NC_DATASTORE_CANDIDATE ∧
    nc_rpc_get_target (some (rpcMsg (elem "delete-config" [datastoreElem "target" "candidate"])
      .NC_RPC_DATASTORE_WRITE)) = .NC_DATASTORE_CANDIDATE ∧
    nc_rpc_get_target (some (rpcMsg (editconfigElem "candidate" .NC_EDIT_DEFOP_MERGE
      .NC_EDIT_ERROPT_STOP (elem "a" [])) .NC_RPC_DATASTORE_WRITE)) = .NC_DATASTORE_CANDIDATE ∧
    nc_rpc_get_source (some (rpcMsg (elem "get-config" [datastoreElem "source" "candidate"])
      .NC_RPC_DATASTORE_READ)) = .NC_DATASTORE_CANDIDATE :=
  ⟨(nc_rpc_get_ds_of_built sampleEnv.toLibXml2 .NC_DATASTORE_CANDIDATE _).1 rfl,
   (nc_rpc_get_ds_of_built sampleEnv.toLibXml2 .NC_DATASTORE_CANDIDATE _).2.1 rfl,
   (nc_rpc_get_ds_of_built sampleEnv.toLibXml2 .NC_DATASTORE_CANDIDATE _).2.2.1 rfl,
   (nc_rpc_get_ds_of_built sampleEnv.toLibXml2 .NC_DATASTORE_CANDIDATE _).2.2.2.1
     .NC_EDIT_DEFOP_MERGE .NC_EDIT_ERROPT_STOP (some "<a/>") rfl,
   (nc_rpc_get_ds_of_built sampleEnv.toLibXml2 .NC_DATASTORE_CANDIDATE _).2.2.2.2 none rfl⟩

/-- C3: for every source, target and data on which `nc_rpc_copyconfig` returns a
message, `nc_rpc_get_source` of the message is the source and
`nc_rpc_get_target` is the target; an inline source is read back as
`NC_DATASTORE_NONE`. -/
theorem nc_rpc_copyconfig_get_ds (L : LibXml2) (s t : NC_DATASTORE) (data : Option String)
    (m : nc_msg) (h : nc_rpc_copyconfig L s t data = .ret (some m)) :
    nc_rpc_get_source (some m) = s ∧ nc_rpc_get_target (some m) = t := by
  cases hs : datastoreName s with
  | none =>
    have : s = .NC_DATASTORE_NONE := by cases s <;> simp_all [datastoreName]
    subst this
    rw [nc_rpc_copyconfig_inline] at h
    simp only [Exec.ret.injEq, Option.bind_eq_some, Option.map_eq_some'] at h
    obtain ⟨dt, hdt, text, -, cur, -, rfl⟩ := h
    cases t <;> simp [datastoreName] at hdt <;> subst hdt <;> exact ⟨rfl, rfl⟩
  | some ds =>
    rw [nc_rpc_copyconfig_named L s t data ds hs] at h
    simp only [Exec.ret.injEq] at h
    split_ifs at h
    simp only [Option.map_eq_some'] at h
    obtain ⟨dt, hdt, rfl⟩ := h
    cases s <;> simp [datastoreName] at hs <;> subst hs <;>
      cases t <;> simp [datastoreName] at hdt <;> subst hdt <;> exact ⟨rfl, rfl⟩

/-- Witness of C3: copy-config of inline data `<a/>` to the running datastore. -/
theorem nc_rpc_copyconfig_get_ds_witness :
    nc_rpc_copyconfig sampleEnv.toLibXml2 .NC_DATASTORE_NONE .NC_DATASTORE_RUNNING (some "<a/>") =
      .ret (some (rpcMsg (elem "copy-config" [elem "source" [elem "config" [elem "a" []]],
        datastoreElem "target" "running"]) .NC_RPC_DATASTORE_WRITE)) ∧
    nc_rpc_get_source (some (rpcMsg (elem "copy-config"
      [elem "source" [elem "config" [elem "a" []]], datastoreElem "target" "running"])
      .NC_RPC_DATASTORE_WRITE)) = .NC_DATASTORE_NONE ∧
    nc_rpc_get_target (some (rpcMsg (elem "copy-config"
      [elem "source" [elem "config" [elem "a" []]], datastoreElem "target" "running"])
      .NC_RPC_DATASTORE_WRITE)) = .NC_DATASTORE_RUNNING :=
  ⟨rfl, nc_rpc_copyconfig_get_ds sampleEnv.toLibXml2 .NC_DATASTORE_NONE .NC_DATASTORE_RUNNING
    (some "<a/>") _ rfl⟩

theorem inlineConfig_eq_some (L : LibXml2) (text : String) (doc : xmlDoc) (r : xmlNode)
    (rest : List xmlNode) (hparse : L.xmlReadMemory text dataOptions = some doc)
    (hdoc : doc.children = r :: rest) (hr : r.type ≠ .XML_DTD_NODE) :
    inlineConfig L text = some r := by
  simp [inlineConfig, hparse, hdoc, xmlCopyNode, hr]

/-- C4: for a default operation among merge, replace, none and an error option
among stop-on-error, continue-on-error, rollback-on-error, every message that
`nc_rpc_editconfig` returns gives these two options back through
`nc_rpc_get_defop` and `nc_rpc_get_erropt`; and it does return a message for a
named target and non-empty data that parses, the first top-level node of the
parsed document being one that `xmlCopyNode` copies (not a DTD). -/
theorem nc_rpc_editconfig_options (L : LibXml2) (t : NC_DATASTORE) (d : NC_EDIT_DEFOP_TYPE)
    (e : NC_EDIT_ERROPT_TYPE) (data : Option String)
    (hd : d = .NC_EDIT_DEFOP_MERGE ∨ d = .NC_EDIT_DEFOP_REPLACE ∨ d = .NC_EDIT_DEFOP_NONE)
    (he : e = .NC_EDIT_ERROPT_STOP ∨ e = .NC_EDIT_ERROPT_CONT ∨
      e = .NC_EDIT_ERROPT_ROLLBACK) :
    (∀ m, nc_rpc_editconfig L t d e data = .ret (some m) →
      nc_rpc_get_defop (some m) = .ret d ∧ nc_rpc_get_erropt (some m) = .ret e) ∧
    (∀ (text : String) (doc : xmlDoc) (r : xmlNode) (rest : List xmlNode),
      data = some text → t ≠ .NC_DATASTORE_NONE → text.length ≠ 0 →
      L.xmlReadMemory text dataOptions = some doc → doc.children = r :: rest →
      r.type ≠ .XML_DTD_NODE →
      ∃ m, nc_rpc_editconfig L t d e data = .ret (some m)) := by
  constructor
  · intro m h
    obtain ⟨text, ds, cur, -, -, -, -, -, -, rfl⟩ := nc_rpc_editconfig_inv L t d e data m h
    rcases hd with rfl | rfl | rfl <;> rcases he with rfl | rfl | rfl <;> exact ⟨rfl, rfl⟩
  · intro text doc r rest hdata ht hlen hparse hdoc hr
    subst hdata
    have hcfg := inlineConfig_eq_some L text doc r rest hparse hdoc hr
    obtain ⟨ds, hds⟩ : ∃ ds, datastoreName t = some ds := by
      cases t <;> first | exact absurd rfl ht | exact ⟨_, rfl⟩
    refine ⟨rpcMsg (editconfigElem ds d e r) .NC_RPC_DATASTORE_WRITE, ?_⟩
    rw [nc_rpc_editconfig_eq]
    rcases hd with rfl | rfl | rfl <;> rcases he with rfl | rfl | rfl <;>
      simp [hlen, hds, hcfg]

/-- Witness of C4: edit-config of the candidate datastore with replace and
rollback-on-error. -/
theorem nc_rpc_editconfig_options_witness :
    (nc_rpc_get_defop (some (rpcMsg (editconfigElem "candidate" .NC_EDIT_DEFOP_REPLACE
        .NC_EDIT_ERROPT_ROLLBACK (elem "a" [])) .NC_RPC_DATASTORE_WRITE)) =
        .ret .NC_EDIT_DEFOP_REPLACE ∧
      nc_rpc_get_erropt (some (rpcMsg (editconfigElem "candidate" .NC_EDIT_DEFOP_REPLACE
        .NC_EDIT_ERROPT_ROLLBACK (elem "a" [])) .NC_RPC_DATASTORE_WRITE)) =
        .ret .NC_EDIT_ERROPT_ROLLBACK) ∧
    ∃ m, nc_rpc_editconfig sampleEnv.toLibXml2 .NC_DATASTORE_CANDIDATE .NC_EDIT_DEFOP_REPLACE
        .NC_EDIT_ERROPT_ROLLBACK (some "<a/>") = .ret (some m) :=
  ⟨(nc_rpc_editconfig_options sampleEnv.toLibXml2 .NC_DATASTORE_CANDIDATE
      .NC_EDIT_DEFOP_REPLACE .NC_EDIT_ERROPT_ROLLBACK (some "<a/>")
      (Or.inr (Or.inl rfl)) (Or.inr (Or.inr rfl))).1 _ rfl,
   (nc_rpc_editconfig_options sampleEnv.toLibXml2 .NC_DATASTORE_CANDIDATE
      .NC_EDIT_DEFOP_REPLACE .NC_EDIT_ERROPT_ROLLBACK (some "<a/>")
      (Or.inr (Or.inl rfl)) (Or.inr (Or.inr rfl))).2 "<a/>" (parsedDoc [elem "a" []])
      (elem "a" []) [] rfl (by decide) (by decide) rfl rfl (by decide)⟩

theorem nc_rpc_get_config_rpcMsg (L : LibXml2) (op : xmlNode) (t : NC_RPC_TYPE) :
    nc_rpc_get_config L (some (rpcMsg op t)) =
      .ret ((findByName op.children "config").map fun config =>
        L.xmlDocDumpFormatMemory
          { version := "1.0", encoding := none,
            children := (xmlCopyNode config.children.head?).toList } 1) := by
  cases op with
  | mk ty name content nsDef props cs =>
    cases h : findByName cs "config" with
    | none =>
      simp [nc_rpc_get_config, rpcMsg, envelope, deref, xmlDocGetRootElement, xmlNode.type,
        xmlNode.name, xmlNode.children, xmlStrEqual, h]
    | some config =>
      simp [nc_rpc_get_config, rpcMsg, envelope, deref, xmlDocGetRootElement, xmlNode.type,
        xmlNode.name, xmlNode.children, xmlStrEqual, h]

theorem findByName_config_editconfigElem (ds : String) (d : NC_EDIT_DEFOP_TYPE)
    (e : NC_EDIT_ERROPT_TYPE) (cur : xmlNode) :
    findByName (editconfigElem ds d e cur).children "config" = some (elem "config" [cur]) := by
  cases d <;> cases e <;> rfl

/-- C5: for a named target, options that are not the error value and non-empty
data text that parses to a document whose first top-level node is its root
element `r`, `nc_rpc_editconfig` returns a message, and `nc_rpc_get_config` of
it is the serialization of a document whose only top-level node, and root
element, is `r`. -/
theorem nc_rpc_get_config_of_editconfig (L : LibXml2) (t : NC_DATASTORE)
    (d : NC_EDIT_DEFOP_TYPE) (e : NC_EDIT_ERROPT_TYPE) (text : String) (doc : xmlDoc)
    (r : xmlNode) (rest : List xmlNode)
    (ht : t ≠ .NC_DATASTORE_NONE) (hd : d ≠ .NC_EDIT_DEFOP_ERROR)
    (he : e ≠ .NC_EDIT_ERROPT_ERROR) (hlen : text.length ≠ 0)
    (hparse : L.xmlReadMemory text dataOptions = some doc) (hdoc : doc.children = r :: rest)
    (hr : r.type = .XML_ELEMENT_NODE) :
    ∃ m, nc_rpc_editconfig L t d e (some text) = .ret (some m) ∧
      nc_rpc_get_config L (some m) = .ret (some (L.xmlDocDumpFormatMemory
        { version := "1.0", encoding := none, children := [r] } 1)) ∧
      xmlDocGetRootElement (some { version := "1.0", encoding := none, children := [r] }) =
        some r := by
  have hr' : r.type ≠ .XML_DTD_NODE := by rw [hr]; decide
  have hdata := inlineConfig_eq_some L text doc r rest hparse hdoc hr'
  obtain ⟨ds, hds⟩ : ∃ ds, datastoreName t = some ds := by
    cases t <;> first | exact absurd rfl ht | exact ⟨_, rfl⟩
  refine ⟨rpcMsg (editconfigElem ds d e r) .NC_RPC_DATASTORE_WRITE, ?_, ?_, ?_⟩
  · rw [nc_rpc_editconfig_eq]
    simp [hlen, hds, hd, he, hdata]
  · rw [nc_rpc_get_config_rpcMsg, findByName_config_editconfigElem]
    simp [elem, xmlNode.children, xmlCopyNode, hr']
  · simp [xmlDocGetRootElement, hr]

/-- Witness of C5: edit-config of the running datastore with the data `<a/>`. -/
theorem nc_rpc_get_config_of_editconfig_witness :
    ∃ m, nc_rpc_editconfig sampleEnv.toLibXml2 .NC_DATASTORE_RUNNING .unspecified .unspecified
        (some "<a/>") = .ret (some m) ∧
      nc_rpc_get_config sampleEnv.toLibXml2 (some m) =
        .ret (some (sampleEnv.xmlDocDumpFormatMemory
          { version := "1.0", encoding := none, children := [elem "a" []] } 1)) ∧
      xmlDocGetRootElement
        (some { version := "1.0", encoding := none, children := [elem "a" []] }) =
          some (elem "a" []) :=
  nc_rpc_get_config_of_editconfig sampleEnv.toLibXml2 .NC_DATASTORE_RUNNING .unspecified
    .unspecified "<a/>" (parsedDoc [elem "a" []]) (elem "a" []) [] (by decide) (by decide)
    (by decide) (by decide) rfl rfl rfl

/-- C6 (what the code does): for every target and data on which
`nc_rpc_copyconfig` with an inline source returns a message, `nc_rpc_get_config`
of that message returns `NULL`: the `config` element lies inside `source`, and
only the children of the operation element are searched. -/
theorem nc_rpc_get_config_of_copyconfig_inline (L : LibXml2) (t : NC_DATASTORE)
    (data : Option String) (m : nc_msg)
    (h : nc_rpc_copyconfig L .NC_DATASTORE_NONE t data = .ret (some m)) :
    nc_rpc_get_config L (some m) = .ret none := by
  rw [nc_rpc_copyconfig_inline] at h
  simp only [Exec.ret.injEq, Option.bind_eq_some, Option.map_eq_some'] at h
  obtain ⟨dt, -, text, -, cur, -, rfl⟩ := h
  rw [nc_rpc_get_config_rpcMsg]
  rfl

/-- Witness of C6: copy-config of the inline data `<a/>` to the running
datastore. -/
theorem nc_rpc_get_config_of_copyconfig_inline_witness :
    nc_rpc_copyconfig sampleEnv.toLibXml2 .NC_DATASTORE_NONE .NC_DATASTORE_RUNNING (some "<a/>") =
      .ret (some (rpcMsg (elem "copy-config" [elem "source" [elem "config" [elem "a" []]],
        datastoreElem "target" "running"]) .NC_RPC_DATASTORE_WRITE)) ∧
    nc_rpc_get_config sampleEnv.toLibXml2 (some (rpcMsg (elem "copy-config"
      [elem "source" [elem "config" [elem "a" []]], datastoreElem "target" "running"])
      .NC_RPC_DATASTORE_WRITE)) = .ret none :=
  ⟨rfl, nc_rpc_get_config_of_copyconfig_inline sampleEnv.toLibXml2 .NC_DATASTORE_RUNNING
    (some "<a/>") _ rfl⟩

theorem addErrorChild_root (L : LibXml2) (name : String) (kids : List xmlNode)
    (fname : String) (v : Option String) :
    addErrorChild L (elem name kids) (some []) fname v =
      .ret (elem name (kids ++ errorField L fname v)) := by
  cases v with
  | none => simp [addErrorChild, errorField]
  | some s => rfl

theorem addErrorChild_root_cons (L : LibXml2) (name : String) (x : xmlNode)
    (rest : List xmlNode) (fname : String) (v : Option String) :
    addErrorChild L (elem name (x :: rest)) (some []) fname v =
      .ret (elem name (x :: (rest ++ errorField L fname v))) :=
  addErrorChild_root L name (x :: rest) fname v

theorem addErrorChild_info (L : LibXml2) (name : String) (ik rest : List xmlNode)
    (fname : String) (v : Option String) :
    addErrorChild L (elem name (elem "error-info" ik :: rest)) (some [0]) fname v =
      .ret (elem name (elem "error-info" (ik ++ errorField L fname v) :: rest)) := by
  cases v with
  | none => simp [addErrorChild, errorField]
  | some s => rfl

theorem nc_reply_error_eq (L : LibXml2) (e : nc_err) :
    nc_reply_error L (some e) =
      .ret (some { doc := some (envelope "rpc-reply" (rpcErrorElem L e)), msgid := none,
                   type := .reply .NC_REPLY_ERROR, error := some e }) := by
  have hnew : xmlNewChild L (xmlNewNode "rpc-error") [] "error-info" none =
      (elem "rpc-error" [elem "error-info" []], [0]) := rfl
  have hnode : xmlNewNode "rpc-error" = elem "rpc-error" [] := rfl
  by_cases hinfo : hasErrorInfo e
  · have hinfo' := hinfo
    unfold hasErrorInfo at hinfo'
    simp only [nc_reply_error, hinfo', if_true, hnew, Exec.pure_eq, Exec.ret_bind]
    iterate 6 rw [addErrorChild_root_cons, Exec.ret_bind]
    iterate 4 rw [addErrorChild_info, Exec.ret_bind]
    have hI : errorInfo L e = [elem "error-info" (errorField L "attribute" e.attr
        ++ errorField L "element" e.element ++ errorField L "ns" e.ns
        ++ errorField L "session-id" e.sid)] := if_pos hinfo
    unfold rpcErrorElem
    rw [hI]
    rfl
  · have hinfo' := hinfo
    unfold hasErrorInfo at hinfo'
    push_neg at hinfo'
    obtain ⟨h1, h2, h3, h4⟩ := hinfo'
    simp only [nc_reply_error, h1, h2, h3, h4, ne_eq, not_true_eq_false, or_self, if_false,
      hnode, Exec.pure_eq, Exec.ret_bind]
    iterate 6 rw [addErrorChild_root, Exec.ret_bind]
    have hI : errorInfo L e = [] := if_neg hinfo
    unfold rpcErrorElem
    rw [hI]
    rfl

theorem map_name_errorField (L : LibXml2) (name : String) (v : Option String) :
    (errorField L name v).map xmlNode.name = present name v := by
  cases v <;> rfl

/-- C8 (as the code has it): for every error structure, `nc_reply_error` returns
a message, and the children of its `rpc-error` element are, in this order, the
`error-info` container when one is emitted, then error-tag, error-type,
error-severity, error-app-tag, error-path, error-message, each of these six
present exactly when the field is set. -/
theorem nc_reply_error_child_order (L : LibXml2) (e : nc_err) :
    (∃ m, nc_reply_error L (some e) = .ret (some m)) ∧
      payloadChildNames (nc_reply_error L (some e)) = builtErrorOrder e := by
  refine ⟨⟨_, nc_reply_error_eq L e⟩, ?_⟩
  rw [nc_reply_error_eq]
  simp only [payloadChildNames, envelope, List.head?, xmlNode.children, rpcErrorElem, elem,
    List.map_append, map_name_errorField, builtErrorOrder, errorInfo]
  by_cases h : hasErrorInfo e <;> simp [h, xmlNode.name]

/-- C8 fails as stated: for the sample error (tag, type, severity, message and
session-id set) the children of `rpc-error` are not in the order error-type,
error-tag, error-severity, error-message, error-info. -/
theorem nc_reply_error_child_order_counterexample :
    payloadChildNames (nc_reply_error sampleEnv.toLibXml2 (some sampleErr)) =
        ["error-info", "error-tag", "error-type", "error-severity", "error-message"] ∧
      payloadChildNames (nc_reply_error sampleEnv.toLibXml2 (some sampleErr)) ≠
        ["error-type", "error-tag", "error-severity", "error-message", "error-info"] := by
  constructor
  · rfl
  · rw [show payloadChildNames (nc_reply_error sampleEnv.toLibXml2 (some sampleErr)) =
      ["error-info", "error-tag", "error-type", "error-severity", "error-message"] from rfl]
    decide

/-- C7 (what the code does): a reply text that parses to a document whose root
element has a first child named `rpc-error` is classified by `nc_reply_build`
as `NC_REPLY_UNKNOWN`, not as `NC_REPLY_ERROR`: the name compared with is
`error`.  In particular the tree built by `nc_reply_error`, to which the builder
gives the type `NC_REPLY_ERROR`, comes back from parsing as `NC_REPLY_UNKNOWN`. -/
theorem nc_reply_build_rpc_error (E : Env) :
    (∀ (text : String) (doc : xmlDoc) (root first : xmlNode) (rest : List xmlNode),
      E.xmlReadMemory text buildOptions = some doc →
      xmlDocGetRootElement (some doc) = some root →
      root.children = first :: rest → first.name = "rpc-error" →
      ∃ m, nc_reply_build E text = .ret (some m) ∧ m.type = .reply .NC_REPLY_UNKNOWN) ∧
    (∀ (e : nc_err) (text : String) (doc : xmlDoc),
      E.xmlReadMemory text buildOptions = some doc →
      doc.children = (envelope "rpc-reply" (rpcErrorElem E.toLibXml2 e)).children →
      ∃ built parsed, nc_reply_error E.toLibXml2 (some e) = .ret (some built) ∧
        built.doc = some (envelope "rpc-reply" (rpcErrorElem E.toLibXml2 e)) ∧
        built.type = .reply .NC_REPLY_ERROR ∧
        nc_reply_build E text = .ret (some parsed) ∧
        parsed.type = .reply .NC_REPLY_UNKNOWN) := by
  have h1 : ∀ (text : String) (doc : xmlDoc) (root first : xmlNode) (rest : List xmlNode),
      E.xmlReadMemory text buildOptions = some doc →
      xmlDocGetRootElement (some doc) = some root →
      root.children = first :: rest → first.name = "rpc-error" →
      ∃ m, nc_reply_build E text = .ret (some m) ∧ m.type = .reply .NC_REPLY_UNKNOWN := by
    intro text doc root first rest hparse hroot hkids hname
    have hparse' : E.xmlReadMemory text (XML_PARSE_NOBLANKS ||| XML_PARSE_NSCLEAN) =
        some doc := hparse
    refine ⟨{ doc := some doc, msgid := some (E.nc_msg_parse_msgid doc),
              type := .reply .NC_REPLY_UNKNOWN, error := none }, ?_, rfl⟩
    simp [nc_reply_build, nc_msg_build, hparse', hroot, hkids, hname, deref, xmlStrEqual]
  refine ⟨h1, ?_⟩
  intro e text doc hparse hdoc
  obtain ⟨parsed, hp, ht⟩ := h1 text doc
    (.mk .XML_ELEMENT_NODE "rpc-reply" none [] [⟨"message-id", ""⟩]
      [rpcErrorElem E.toLibXml2 e])
    (rpcErrorElem E.toLibXml2 e) [] hparse
    (by simp [xmlDocGetRootElement, hdoc, envelope, xmlNode.type]) rfl rfl
  exact ⟨_, parsed, nc_reply_error_eq E.toLibXml2 e, rfl, rfl, hp, ht⟩

set_option maxRecDepth 8192 in
/-- Witness of C7: the reply `<rpc-reply message-id="1"><rpc-error/></rpc-reply>`,
and the reply built for the sample error. -/
theorem nc_reply_build_rpc_error_witness :
    (∃ m, nc_reply_build sampleEnv "<rpc-reply message-id=\"1\"><rpc-error/></rpc-reply>" =
        .ret (some m) ∧ m.type = .reply .NC_REPLY_UNKNOWN) ∧
    (∃ built parsed, nc_reply_error sampleEnv.toLibXml2 (some sampleErr) = .ret (some built) ∧
        built.doc = some (envelope "rpc-reply" (rpcErrorElem sampleEnv.toLibXml2 sampleErr)) ∧
        built.type = .reply .NC_REPLY_ERROR ∧
        nc_reply_build sampleEnv sampleErrText = .ret (some parsed) ∧
        parsed.type = .reply .NC_REPLY_UNKNOWN) :=
  ⟨(nc_reply_build_rpc_error sampleEnv).1
      "<rpc-reply message-id=\"1\"><rpc-error/></rpc-reply>"
      (parsedDoc [.mk .XML_ELEMENT_NODE "rpc-reply" none [] [⟨"message-id", "1"⟩]
        [elem "rpc-error" []]])
      (.mk .XML_ELEMENT_NODE "rpc-reply" none [] [⟨"message-id", "1"⟩] [elem "rpc-error" []])
      (elem "rpc-error" []) [] rfl rfl rfl rfl,
   (nc_reply_build_rpc_error sampleEnv).2 sampleErr sampleErrText
      (parsedDoc [.mk .XML_ELEMENT_NODE "rpc-reply" none [] [⟨"message-id", ""⟩]
        [sampleErrElem]]) rfl rfl⟩

theorem foldl_xmlAddNextSibling (cur : xmlNode) (hcur : cur.type = .XML_ELEMENT_NODE)
    (rest acc : List xmlNode) (hrest : ∀ n ∈ rest, n.type ≠ .XML_DTD_NODE) :
    rest.foldl (fun chain n => xmlAddNextSibling chain (xmlCopyNode (some n))) (cur :: acc) =
      cur :: (rest.reverse ++ acc) := by
  induction rest generalizing acc with
  | nil => rfl
  | cons n rest ih =>
    have hn : n.type ≠ .XML_DTD_NODE := hrest n (List.mem_cons_self _ _)
    have hstep : xmlAddNextSibling (cur :: acc) (xmlCopyNode (some n)) = cur :: n :: acc := by
      simp [xmlCopyNode, hn, xmlAddNextSibling, hcur]
    rw [List.foldl_cons, hstep, ih (n :: acc) (fun x hx => hrest x (List.mem_cons_of_mem _ hx))]
    simp

/-- C9 (what the code does): for a data reply whose `<data>` element has the
children `node :: rest`, the first an element and none a DTD,
`nc_reply_get_data` returns the serialization of a document whose top-level
nodes are `node` followed by `rest` in reverse order: every later child is
linked directly behind the first one. -/
theorem nc_reply_get_data_order (L : LibXml2) (reply : nc_msg) (doc : xmlDoc)
    (top data node : xmlNode) (rest : List xmlNode)
    (htype : reply.type = .reply .NC_REPLY_DATA) (hdoc : reply.doc = some doc)
    (htop : doc.children.head? = some top) (hdata : top.children.head? = some data)
    (hkids : data.children = node :: rest) (hnode : node.type = .XML_ELEMENT_NODE)
    (hrest : ∀ n ∈ rest, n.type ≠ .XML_DTD_NODE) :
    nc_reply_get_data L (some reply) =
      some (L.xmlDocDumpFormatMemory
        { version := XML_VERSION, encoding := some UTF8, children := node :: rest.reverse } 1) := by
  have hnode' : node.type ≠ .XML_DTD_NODE := by rw [hnode]; decide
  have hdocs : nc_reply_get_data_doc node rest =
      { version := XML_VERSION, encoding := some UTF8, children := node :: rest.reverse } := by
    have hset : xmlDocSetRootElement
        { version := XML_VERSION, encoding := some UTF8, children := [] }
        (xmlCopyNode (some node)) =
        { version := XML_VERSION, encoding := some UTF8, children := [node] } := by
      simp [xmlCopyNode, hnode', xmlDocSetRootElement]
    unfold nc_reply_get_data_doc
    simp only [hset]
    rw [foldl_xmlAddNextSibling node hnode rest [] hrest]
    simp
  simp [nc_reply_get_data, htype, hdoc, htop, hdata, hkids, hdocs]

/-- Witness of C9: the data roots `a`, `b`, `c` come back as `a`, `c`, `b`. -/
theorem nc_reply_get_data_order_witness :
    nc_reply_get_data sampleEnv.toLibXml2 (some sampleDataReply) =
      some (sampleEnv.xmlDocDumpFormatMemory
        { version := XML_VERSION, encoding := some UTF8,
          children := elem "a" [] :: [elem "b" [], elem "c" []].reverse } 1) ∧
    sampleEnv.xmlDocDumpFormatMemory
        { version := XML_VERSION, encoding := some UTF8,
          children := elem "a" [] :: [elem "b" [], elem "c" []].reverse } 1 =
      "<a></a><c></c><b></b>" :=
  ⟨nc_reply_get_data_order sampleEnv.toLibXml2 sampleDataReply
    (envelope "rpc-reply" (elem "data" [elem "a" [], elem "b" [], elem "c" []]))
    (.mk .XML_ELEMENT_NODE "rpc-reply" none [] [⟨"message-id", ""⟩]
      [elem "data" [elem "a" [], elem "b" [], elem "c" []]])
    (elem "data" [elem "a" [], elem "b" [], elem "c" []]) (elem "a" [])
    [elem "b" [], elem "c" []] rfl rfl rfl rfl rfl rfl (by decide), rfl⟩

/-- C10: for every reply of type `NC_REPLY_DATA` whose `<data>` element has no
children `nc_reply_get_data` returns the empty string, not `NULL`; and when
`<data/>` parses to a document starting with an element without children,
`nc_reply_data(NULL)` returns such a reply. -/
theorem nc_reply_get_data_empty (E : Env) :
    (∀ (reply : nc_msg) (doc : xmlDoc) (top data : xmlNode),
      reply.type = .reply .NC_REPLY_DATA → reply.doc = some doc →
      doc.children.head? = some top → top.children.head? = some data → data.children = [] →
      nc_reply_get_data E.toLibXml2 (some reply) = some "") ∧
    (∀ (doc : xmlDoc) (data : xmlNode),
      E.xmlReadMemory "<data/>" dataOptions = some doc → doc.children.head? = some data →
      data.type = .XML_ELEMENT_NODE → data.children = [] →
      ∃ m, nc_reply_data E none = .ret (some m) ∧ m.type = .reply .NC_REPLY_DATA ∧
        nc_reply_get_data E.toLibXml2 (some m) = some "") := by
  have h1 : ∀ (reply : nc_msg) (doc : xmlDoc) (top data : xmlNode),
      reply.type = .reply .NC_REPLY_DATA → reply.doc = some doc →
      doc.children.head? = some top → top.children.head? = some data → data.children = [] →
      nc_reply_get_data E.toLibXml2 (some reply) = some "" := by
    intro reply doc top data htype hdoc htop hdata hkids
    simp [nc_reply_get_data, htype, hdoc, htop, hdata, hkids]
  refine ⟨h1, ?_⟩
  intro doc data hparse hfirst hty hkids
  have hparse' : E.xmlReadMemory "<data/>" (XML_PARSE_NOERROR ||| XML_PARSE_NOWARNING) =
      some doc := hparse
  have hcopy : data.type ≠ .XML_DTD_NODE := by rw [hty]; decide
  refine ⟨{ doc := some (envelope "rpc-reply" data), msgid := none,
            type := .reply .NC_REPLY_DATA, error := none }, ?_, rfl, ?_⟩
  · simp [nc_reply_data, hparse', hfirst, setReplyType, nc_reply_create, nc_msg_create,
      xmlCopyNode, hcopy, xmlAddChild, xmlLinkChild, xmlNewProp, xmlNewNode,
      xmlNode.children, xmlNode.setChildren, deref, envelope]
  · exact h1 _ (envelope "rpc-reply" data)
      (.mk .XML_ELEMENT_NODE "rpc-reply" none [] [⟨"message-id", ""⟩] [data]) data
      rfl rfl rfl rfl hkids

/-- Witness of C10: the reply built by `nc_reply_data(NULL)`. -/
theorem nc_reply_get_data_empty_witness :
    nc_reply_get_data sampleEnv.toLibXml2
      (some { doc := some (envelope "rpc-reply" (elem "data" [])), msgid := none,
              type := .reply .NC_REPLY_DATA, error := none }) = some "" ∧
    ∃ m, nc_reply_data sampleEnv none = .ret (some m) ∧ m.type = .reply .NC_REPLY_DATA ∧
      nc_reply_get_data sampleEnv.toLibXml2 (some m) = some "" :=
  ⟨(nc_reply_get_data_empty sampleEnv).1 _ (envelope "rpc-reply" (elem "data" []))
      (.mk .XML_ELEMENT_NODE "rpc-reply" none [] [⟨"message-id", ""⟩] [elem "data" []])
      (elem "data" []) rfl rfl rfl rfl rfl,
   (nc_reply_get_data_empty sampleEnv).2 (parsedDoc [elem "data" []]) (elem "data" [])
      rfl rfl rfl rfl⟩

/-! ## Rejected arguments -/

/-- C11: for every datastore value `d` and every data argument,
`nc_rpc_copyconfig(d, d, data)` returns no message. -/
theorem nc_rpc_copyconfig_same (L : LibXml2) (d : NC_DATASTORE) (data : Option String) :
    nc_rpc_copyconfig L d d data = .ret none := by
  simp [nc_rpc_copyconfig]

/-- C12: `nc_rpc_deleteconfig(t)` returns a message exactly when `t` is Startup or
Candidate, and returns `NULL` exactly for the other values, among them Running
and None. -/
theorem nc_rpc_deleteconfig_iff (L : LibXml2) (t : NC_DATASTORE) :
    ((∃ m, nc_rpc_deleteconfig L t = .ret (some m)) ↔
      (t = .NC_DATASTORE_STARTUP ∨ t = .NC_DATASTORE_CANDIDATE)) ∧
    (nc_rpc_deleteconfig L t = .ret none ↔
      (t = .NC_DATASTORE_RUNNING ∨ t = .NC_DATASTORE_NONE)) ∧
    nc_rpc_deleteconfig L .NC_DATASTORE_RUNNING = .ret none ∧
    nc_rpc_deleteconfig L .NC_DATASTORE_NONE = .ret none := by
  rw [nc_rpc_deleteconfig_eq]
  refine ⟨?_, ?_, rfl, rfl⟩
  · cases t <;> simp [datastoreName]
  · cases t <;> simp [datastoreName]

/-- C13: for every target, default operation and error option,
`nc_rpc_editconfig` returns no message when the data is `NULL` or the empty
string. -/
theorem nc_rpc_editconfig_no_data (L : LibXml2) (t : NC_DATASTORE) (d : NC_EDIT_DEFOP_TYPE)
    (e : NC_EDIT_ERROPT_TYPE) :
    nc_rpc_editconfig L t d e none = .ret none ∧
      nc_rpc_editconfig L t d e (some "") = .ret none := by
  constructor
  · rfl
  · rw [nc_rpc_editconfig_eq]
    rfl

/-- C14: for a datastore that is `NC_DATASTORE_NONE`, or any value other than
Running, Startup and Candidate, `nc_rpc_lock`, `nc_rpc_unlock`,
`nc_rpc_getconfig` (whatever the filter) and `nc_rpc_editconfig` (whatever the
options and data) return no message; for each of the three named datastores
`nc_rpc_lock` and `nc_rpc_unlock` return a message. -/
theorem nc_rpc_datastore_check (L : LibXml2) (t : NC_DATASTORE) :
    ((t = .NC_DATASTORE_NONE ∨ (t ≠ .NC_DATASTORE_RUNNING ∧ t ≠ .NC_DATASTORE_STARTUP ∧
        t ≠ .NC_DATASTORE_CANDIDATE)) →
      nc_rpc_lock L t = .ret none ∧ nc_rpc_unlock L t = .ret none ∧
      (∀ filter, nc_rpc_getconfig L t filter = .ret none) ∧
      (∀ d e data, nc_rpc_editconfig L t d e data = .ret none)) ∧
    ((t = .NC_DATASTORE_RUNNING ∨ t = .NC_DATASTORE_STARTUP ∨ t = .NC_DATASTORE_CANDIDATE) →
      (∃ m, nc_rpc_lock L t = .ret (some m)) ∧ (∃ m, nc_rpc_unlock L t = .ret (some m))) := by
  constructor
  · intro h
    have ht : t = .NC_DATASTORE_NONE := by
      rcases h with h | ⟨h1, h2, h3⟩
      · exact h
      · cases t <;> first | rfl | exact absurd rfl h1 | exact absurd rfl h2 | exact absurd rfl h3
    subst ht
    refine ⟨rfl, rfl, ?_, ?_⟩
    · intro filter
      rw [nc_rpc_getconfig_eq]
      rfl
    · intro d e data
      rw [nc_rpc_editconfig_eq]
      cases data with
      | none => rfl
      | some text => by_cases hlen : text.length = 0 <;> simp [hlen, datastoreName]
  · intro h
    rw [nc_rpc_lock_eq, nc_rpc_unlock_eq]
    rcases h with rfl | rfl | rfl <;> exact ⟨⟨_, rfl⟩, ⟨_, rfl⟩⟩

/-- Witness of C14: the datastore None is refused, the running datastore is
locked and unlocked. -/
theorem nc_rpc_datastore_check_witness :
    (nc_rpc_lock sampleEnv.toLibXml2 .NC_DATASTORE_NONE = .ret none ∧
      nc_rpc_unlock sampleEnv.toLibXml2 .NC_DATASTORE_NONE = .ret none ∧
      (∀ filter, nc_rpc_getconfig sampleEnv.toLibXml2 .NC_DATASTORE_NONE filter = .ret none) ∧
      (∀ d e data,
        nc_rpc_editconfig sampleEnv.toLibXml2 .NC_DATASTORE_NONE d e data = .ret none)) ∧
    ((∃ m, nc_rpc_lock sampleEnv.toLibXml2 .NC_DATASTORE_RUNNING = .ret (some m)) ∧
      (∃ m, nc_rpc_unlock sampleEnv.toLibXml2 .NC_DATASTORE_RUNNING = .ret (some m))) :=
  ⟨(nc_rpc_datastore_check sampleEnv.toLibXml2 .NC_DATASTORE_NONE).1 (Or.inl rfl),
   (nc_rpc_datastore_check sampleEnv.toLibXml2 .NC_DATASTORE_RUNNING).2 (Or.inl rfl)⟩

/-- C15: for every source and every data argument,
`nc_rpc_copyconfig(source, NC_DATASTORE_NONE, data)` returns no message. -/
theorem nc_rpc_copyconfig_target_none (L : LibXml2) (s : NC_DATASTORE)
    (data : Option String) :
    nc_rpc_copyconfig L s .NC_DATASTORE_NONE data = .ret none := by
  cases hs : datastoreName s with
  | none =>
    have : s = .NC_DATASTORE_NONE := by cases s <;> simp_all [datastoreName]
    subst this
    simp [nc_rpc_copyconfig]
  | some ds =>
    rw [nc_rpc_copyconfig_named L s _ data ds hs]
    split_ifs <;> rfl

/-! ## What the builders put into the operation element -/

theorem xmlStringGetNodeList_plain (L : LibXml2) (value : String)
    (h : value.toList.contains '&' = false) :
    xmlStringGetNodeList L value = [xmlNewText value] := by
  unfold xmlStringGetNodeList
  rw [h]
  rfl

/-- C16 (amended): `nc_rpc_killsession(sid)` returns no message when `sid` is
`NULL` or the empty string; for every non-empty `sid` it returns a message whose
`kill-session` element has one child, a `session-id` element, and when `sid`
holds no `&` the content of that element is the text `sid`. -/
theorem nc_rpc_killsession_content (L : LibXml2) :
    nc_rpc_killsession L none = .ret none ∧ nc_rpc_killsession L (some "") = .ret none ∧
    ∀ sid : String, sid.length ≠ 0 →
      ∃ kids, nc_rpc_killsession L (some sid) =
          .ret (some (rpcMsg (elem "kill-session" [elem "session-id" kids]) .NC_RPC_SESSION)) ∧
        (sid.toList.contains '&' = false → kids = [xmlNewText sid]) := by
  refine ⟨rfl, rfl, ?_⟩
  intro sid hlen
  refine ⟨xmlStringGetNodeList L sid, ?_, xmlStringGetNodeList_plain L sid⟩
  rw [nc_rpc_killsession_eq]
  simp [hlen]

/-- Witness of C16 (amended): the session id `4`. -/
theorem nc_rpc_killsession_content_witness :
    ∃ kids, nc_rpc_killsession sampleEnv.toLibXml2 (some "4") =
        .ret (some (rpcMsg (elem "kill-session" [elem "session-id" kids]) .NC_RPC_SESSION)) ∧
      ("4".toList.contains '&' = false → kids = [xmlNewText "4"]) :=
  (nc_rpc_killsession_content sampleEnv.toLibXml2).2.2 "4" (by decide)

/-- C16 fails as stated: for the session id `1&amp;2`, in which libxml2 reads an
entity reference, the text of the `session-id` element is `1&2`, not the
session id. -/
theorem nc_rpc_killsession_content_counterexample :
    firstFieldContents (nc_rpc_killsession sampleEnv.toLibXml2 (some "1&amp;2")) =
        [some "1&2"] ∧
      firstFieldContents (nc_rpc_killsession sampleEnv.toLibXml2 (some "1&amp;2")) ≠
        [some "1&amp;2"] := by
  have h : firstFieldContents (nc_rpc_killsession sampleEnv.toLibXml2 (some "1&amp;2")) =
      [some "1&2"] := rfl
  refine ⟨h, ?_⟩
  rw [h]
  decide

theorem map_name_editconfigElem (ds : String) (d : NC_EDIT_DEFOP_TYPE)
    (e : NC_EDIT_ERROPT_TYPE) (cur : xmlNode) (hd : d ≠ .NC_EDIT_DEFOP_ERROR)
    (he : e ≠ .NC_EDIT_ERROPT_ERROR) :
    (editconfigElem ds d e cur).children.map xmlNode.name = editconfigOrder d e := by
  cases d <;> cases e <;> first | exact absurd rfl hd | exact absurd rfl he | rfl

/-- C17: for every call of `nc_rpc_editconfig` that returns a message, the names
of the children of the `edit-config` element are, in this order, target,
default-operation when `d` is not 0, error-option when `e` is not 0, config,
and nothing else. -/
theorem nc_rpc_editconfig_child_order (L : LibXml2) (t : NC_DATASTORE)
    (d : NC_EDIT_DEFOP_TYPE) (e : NC_EDIT_ERROPT_TYPE) (data : Option String) (m : nc_msg)
    (h : nc_rpc_editconfig L t d e data = .ret (some m)) :
    (∃ op, payloadOf (.ret (some m)) = some op ∧ op.name = "edit-config") ∧
      payloadChildNames (.ret (some m)) = editconfigOrder d e := by
  obtain ⟨text, ds, cur, -, -, -, hd, he, -, rfl⟩ := nc_rpc_editconfig_inv L t d e data m h
  refine ⟨⟨editconfigElem ds d e cur, rfl, rfl⟩, ?_⟩
  exact map_name_editconfigElem ds d e cur hd he

/-- Witness of C17: edit-config with a default operation and no error option. -/
theorem nc_rpc_editconfig_child_order_witness :
    (∃ op, payloadOf (.ret (some (rpcMsg (editconfigElem "candidate" .NC_EDIT_DEFOP_REPLACE
        .unspecified (elem "a" [])) .NC_RPC_DATASTORE_WRITE))) = some op ∧
        op.name = "edit-config") ∧
      payloadChildNames (.ret (some (rpcMsg (editconfigElem "candidate" .NC_EDIT_DEFOP_REPLACE
        .unspecified (elem "a" [])) .NC_RPC_DATASTORE_WRITE))) =
        ["target", "default-operation", "config"] :=
  nc_rpc_editconfig_child_order sampleEnv.toLibXml2 .NC_DATASTORE_CANDIDATE
    .NC_EDIT_DEFOP_REPLACE .unspecified (some "<a/>") _ rfl

/-- C18: for every call of `nc_rpc_copyconfig` that returns a message, the
`copy-config` element has exactly the two children source and target, in this
order; target holds one empty element named after the target datastore; source
holds one empty element named after a named source, and for the source None one
`config` element holding the first top-level node of the parsed data. -/
theorem nc_rpc_copyconfig_children (L : LibXml2) (s t : NC_DATASTORE) (data : Option String)
    (m : nc_msg) (h : nc_rpc_copyconfig L s t data = .ret (some m)) :
    ∃ src dt, datastoreName t = some dt ∧
      payloadOf (.ret (some m)) = some (elem "copy-config" [src, elem "target" [elem dt []]]) ∧
      ((∃ ds, datastoreName s = some ds ∧ src = elem "source" [elem ds []]) ∨
        (s = .NC_DATASTORE_NONE ∧ ∃ text doc cur, data = some text ∧
          L.xmlReadMemory text dataOptions = some doc ∧ doc.children.head? = some cur ∧
          src = elem "source" [elem "config" [cur]])) := by
  cases hs : datastoreName s with
  | none =>
    have : s = .NC_DATASTORE_NONE := by cases s <;> simp_all [datastoreName]
    subst this
    rw [nc_rpc_copyconfig_inline] at h
    simp only [Exec.ret.injEq, Option.bind_eq_some, Option.map_eq_some'] at h
    obtain ⟨dt, hdt, text, rfl, cur, hcur, rfl⟩ := h
    refine ⟨elem "source" [elem "config" [cur]], dt, hdt, rfl, Or.inr ⟨rfl, text, ?_⟩⟩
    unfold inlineConfig at hcur
    cases hr : L.xmlReadMemory text dataOptions with
    | none => simp [hr] at hcur
    | some doc =>
      simp only [hr] at hcur
      exact ⟨doc, cur, rfl, rfl, (xmlCopyNode_eq_some _ _ hcur).1, rfl⟩
  | some ds =>
    rw [nc_rpc_copyconfig_named L s t data ds hs] at h
    simp only [Exec.ret.injEq] at h
    split_ifs at h
    simp only [Option.map_eq_some'] at h
    obtain ⟨dt, hdt, rfl⟩ := h
    exact ⟨elem "source" [elem ds []], dt, hdt, rfl, Or.inl ⟨ds, rfl, rfl⟩⟩

/-- Witness of C18: copy-config of inline data `<a/>` to the running datastore. -/
theorem nc_rpc_copyconfig_children_witness :
    ∃ src dt, datastoreName .NC_DATASTORE_RUNNING = some dt ∧
      payloadOf (.ret (some (rpcMsg (elem "copy-config"
        [elem "source" [elem "config" [elem "a" []]], datastoreElem "target" "running"])
        .NC_RPC_DATASTORE_WRITE))) =
        some (elem "copy-config" [src, elem "target" [elem dt []]]) ∧
      ((∃ ds, datastoreName .NC_DATASTORE_NONE = some ds ∧ src = elem "source" [elem ds []]) ∨
        (NC_DATASTORE.NC_DATASTORE_NONE = .NC_DATASTORE_NONE ∧ ∃ text doc cur,
          some "<a/>" = some text ∧
          sampleEnv.xmlReadMemory text dataOptions = some doc ∧
          doc.children.head? = some cur ∧ src = elem "source" [elem "config" [cur]])) :=
  nc_rpc_copyconfig_children sampleEnv.toLibXml2 .NC_DATASTORE_NONE .NC_DATASTORE_RUNNING
    (some "<a/>") _ rfl

theorem nc_filter_new_subtree (content : String) (filter : nc_filter)
    (h : nc_filter_new .NC_FILTER_SUBTREE (some content) = .ret (some filter)) :
    filter = { type := .NC_FILTER_SUBTREE, type_string := "subtree", content := content } := by
  simp only [nc_filter_new, deref, Exec.ret_bind, Exec.pure_eq, Exec.ret.injEq,
    Option.some.injEq] at h
  exact h.symm

theorem filterText_subtree (content : String) :
    filterText { type := .NC_FILTER_SUBTREE, type_string := "subtree", content := content } =
      "<filter type=\"subtree\">" ++ content ++ "</filter>" := by
  simp only [filterText]
  rfl

/-- C19: for a subtree filter made by `nc_filter_new` whose wrapped text
`<filter type="subtree">content</filter>` parses to the element `filter` with
the attribute `type="subtree"` and the fragments of the content as children,
`nc_rpc_get` returns a message whose `get` element has exactly this element as
child, and `nc_rpc_getconfig` one whose `get-config` element has it as the only
child after `source`; without a filter there is no such child. -/
theorem nc_rpc_filter_child (L : LibXml2) (content : String) (filter : nc_filter)
    (doc : xmlDoc) (frags : List xmlNode)
    (hnew : nc_filter_new .NC_FILTER_SUBTREE (some content) = .ret (some filter))
    (hparse : L.xmlReadMemory ("<filter type=\"subtree\">" ++ content ++ "</filter>") 0 =
      some doc)
    (hdoc : doc.children.head? = some (filterElem frags)) :
    nc_rpc_get L (some filter) =
      .ret (some (rpcMsg (elem "get" [filterElem frags]) .NC_RPC_DATASTORE_READ)) ∧
    (∀ source ds, datastoreName source = some ds →
      nc_rpc_getconfig L source (some filter) =
        .ret (some (rpcMsg (elem "get-config" [elem "source" [elem ds []], filterElem frags])
          .NC_RPC_DATASTORE_READ))) ∧
    nc_rpc_get L none = .ret (some (rpcMsg (elem "get" []) .NC_RPC_DATASTORE_READ)) ∧
    (∀ source ds, datastoreName source = some ds →
      nc_rpc_getconfig L source none =
        .ret (some (rpcMsg (elem "get-config" [elem "source" [elem ds []]])
          .NC_RPC_DATASTORE_READ))) := by
  have hf := nc_filter_new_subtree content filter hnew
  subst hf
  have hkids : filterChild L (some ⟨.NC_FILTER_SUBTREE, "subtree", content⟩) =
      some [filterElem frags] := by
    simp only [filterChild, if_true, filterText_subtree, hparse, hdoc]
    rfl
  refine ⟨?_, ?_, rfl, ?_⟩
  · rw [nc_rpc_get_eq, hkids]
    rfl
  · intro source ds hds
    rw [nc_rpc_getconfig_eq, hkids, hds]
    rfl
  · intro source ds hds
    rw [nc_rpc_getconfig_eq, hds]
    rfl

/-- Witness of C19: the subtree filter `<a/>`. -/
theorem nc_rpc_filter_child_witness :
    nc_rpc_get sampleEnv.toLibXml2 (some ⟨.NC_FILTER_SUBTREE, "subtree", "<a/>"⟩) =
      .ret (some (rpcMsg (elem "get" [filterElem [elem "a" []]]) .NC_RPC_DATASTORE_READ)) ∧
    (∀ source ds, datastoreName source = some ds →
      nc_rpc_getconfig sampleEnv.toLibXml2 source
          (some ⟨.NC_FILTER_SUBTREE, "subtree", "<a/>"⟩) =
        .ret (some (rpcMsg (elem "get-config"
          [elem "source" [elem ds []], filterElem [elem "a" []]]) .NC_RPC_DATASTORE_READ))) ∧
    nc_rpc_get sampleEnv.toLibXml2 none =
      .ret (some (rpcMsg (elem "get" []) .NC_RPC_DATASTORE_READ)) ∧
    (∀ source ds, datastoreName source = some ds →
      nc_rpc_getconfig sampleEnv.toLibXml2 source none =
        .ret (some (rpcMsg (elem "get-config" [elem "source" [elem ds []]])
          .NC_RPC_DATASTORE_READ))) :=
  nc_rpc_filter_child sampleEnv.toLibXml2 "<a/>" ⟨.NC_FILTER_SUBTREE, "subtree", "<a/>"⟩
    (parsedDoc [filterElem [elem "a" []]]) [elem "a" []] rfl rfl rfl

/-- C20: for a subtree filter made by `nc_filter_new` whose wrapped text
`<filter type="subtree">content</filter>` does not parse, `nc_rpc_get` and
`nc_rpc_getconfig`, for every source, return no message. -/
theorem nc_rpc_filter_malformed (L : LibXml2) (content : String) (filter : nc_filter)
    (hnew : nc_filter_new .NC_FILTER_SUBTREE (some content) = .ret (some filter))
    (hparse : L.xmlReadMemory ("<filter type=\"subtree\">" ++ content ++ "</filter>") 0 =
      none) :
    nc_rpc_get L (some filter) = .ret none ∧
      ∀ source, nc_rpc_getconfig L source (some filter) = .ret none := by
  have hf := nc_filter_new_subtree content filter hnew
  subst hf
  have hkids : filterChild L (some ⟨.NC_FILTER_SUBTREE, "subtree", content⟩) = none := by
    simp only [filterChild, if_true, filterText_subtree, hparse]
  constructor
  · rw [nc_rpc_get_eq, hkids]
    rfl
  · intro source
    rw [nc_rpc_getconfig_eq, hkids]
    cases source <;> rfl

/-- Witness of C20: the filter content `<a>`, an element that is not closed. -/
theorem nc_rpc_filter_malformed_witness :
    nc_rpc_get sampleEnv.toLibXml2 (some ⟨.NC_FILTER_SUBTREE, "subtree", "<a>"⟩) = .ret none ∧
      ∀ source, nc_rpc_getconfig sampleEnv.toLibXml2 source
        (some ⟨.NC_FILTER_SUBTREE, "subtree", "<a>"⟩) = .ret none :=
  nc_rpc_filter_malformed sampleEnv.toLibXml2 "<a>" ⟨.NC_FILTER_SUBTREE, "subtree", "<a>"⟩
    rfl rfl

/-! ## Defaults and classification of parsed messages -/

/-- C21: for an edit-config rpc (a document whose first node is the element
`rpc` with `edit-config` as its first child) without a `default-operation` child
`nc_rpc_get_defop` returns merge, and without an `error-option` child
`nc_rpc_get_erropt` returns stop-on-error; so it is for the messages that
`nc_rpc_editconfig` builds with the option left at 0. -/
theorem nc_rpc_get_option_default :
    (∀ (rpc : nc_msg) (doc : xmlDoc) (root op : xmlNode) (rest more : List xmlNode),
      rpc.doc = some doc → doc.children = root :: rest → root.type = .XML_ELEMENT_NODE →
      root.name = "rpc" → root.children = op :: more → op.name = "edit-config" →
      ((∀ n ∈ op.children, n.name ≠ "default-operation") →
        nc_rpc_get_defop (some rpc) = .ret .NC_EDIT_DEFOP_MERGE) ∧
      ((∀ n ∈ op.children, n.name ≠ "error-option") →
        nc_rpc_get_erropt (some rpc) = .ret .NC_EDIT_ERROPT_STOP)) ∧
    (∀ (L : LibXml2) (t : NC_DATASTORE) (e : NC_EDIT_ERROPT_TYPE) (data : Option String)
      (m : nc_msg), nc_rpc_editconfig L t .unspecified e data = .ret (some m) →
      nc_rpc_get_defop (some m) = .ret .NC_EDIT_DEFOP_MERGE) ∧
    (∀ (L : LibXml2) (t : NC_DATASTORE) (d : NC_EDIT_DEFOP_TYPE) (data : Option String)
      (m : nc_msg), nc_rpc_editconfig L t d .unspecified data = .ret (some m) →
      nc_rpc_get_erropt (some m) = .ret .NC_EDIT_ERROPT_STOP) := by
  refine ⟨?_, ?_, ?_⟩
  · intro rpc doc root op rest more hdoc htop hty hname hop hopname
    constructor
    · intro hno
      have hfind : findByName op.children "default-operation" = none := by
        simp only [findByName, List.find?_eq_none, xmlStrEqual]
        intro n hn
        simpa using hno n hn
      simp [nc_rpc_get_defop, nc_rpc_get_op, hdoc, htop, deref, hname, hop, hopname,
        xmlDocGetRootElement, hty, xmlStrEqual, hfind]
    · intro hno
      have hfind : findByName op.children "error-option" = none := by
        simp only [findByName, List.find?_eq_none, xmlStrEqual]
        intro n hn
        simpa using hno n hn
      simp [nc_rpc_get_erropt, nc_rpc_get_op, hdoc, htop, deref, hname, hop, hopname,
        xmlDocGetRootElement, hty, xmlStrEqual, hfind]
  · intro L t e data m h
    obtain ⟨text, ds, cur, -, -, -, -, he, -, rfl⟩ :=
      nc_rpc_editconfig_inv L t .unspecified e data m h
    cases e <;> first | exact absurd rfl he | rfl
  · intro L t d data m h
    obtain ⟨text, ds, cur, -, -, -, hd, -, -, rfl⟩ :=
      nc_rpc_editconfig_inv L t d .unspecified data m h
    cases d <;> first | exact absurd rfl hd | rfl

/-- Witness of C21: an edit-config holding only a target, and the message built
with both options left at 0. -/
theorem nc_rpc_get_option_default_witness :
    (nc_rpc_get_defop (some (rpcMsg (elem "edit-config" [datastoreElem "target" "running"])
        .NC_RPC_DATASTORE_WRITE)) = .ret .NC_EDIT_DEFOP_MERGE ∧
      nc_rpc_get_erropt (some (rpcMsg (elem "edit-config" [datastoreElem "target" "running"])
        .NC_RPC_DATASTORE_WRITE)) = .ret .NC_EDIT_ERROPT_STOP) ∧
    nc_rpc_get_defop (some (rpcMsg (editconfigElem "running" .unspecified .unspecified
      (elem "a" [])) .NC_RPC_DATASTORE_WRITE)) = .ret .NC_EDIT_DEFOP_MERGE ∧
    nc_rpc_get_erropt (some (rpcMsg (editconfigElem "running" .unspecified .unspecified
      (elem "a" [])) .NC_RPC_DATASTORE_WRITE)) = .ret .NC_EDIT_ERROPT_STOP :=
  ⟨⟨(nc_rpc_get_option_default.1 _ (envelope "rpc"
        (elem "edit-config" [datastoreElem "target" "running"]))
        (.mk .XML_ELEMENT_NODE "rpc" none [] [⟨"message-id", ""⟩]
          [elem "edit-config" [datastoreElem "target" "running"]])
        (elem "edit-config" [datastoreElem "target" "running"]) [] [] rfl rfl rfl rfl rfl
        rfl).1 (by decide),
     (nc_rpc_get_option_default.1 _ (envelope "rpc"
        (elem "edit-config" [datastoreElem "target" "running"]))
        (.mk .XML_ELEMENT_NODE "rpc" none [] [⟨"message-id", ""⟩]
          [elem "edit-config" [datastoreElem "target" "running"]])
        (elem "edit-config" [datastoreElem "target" "running"]) [] [] rfl rfl rfl rfl rfl
        rfl).2 (by decide)⟩,
   nc_rpc_get_option_default.2.1 sampleEnv.toLibXml2 .NC_DATASTORE_RUNNING .unspecified
     (some "<a/>") _ rfl,
   nc_rpc_get_option_default.2.2 sampleEnv.toLibXml2 .NC_DATASTORE_RUNNING .unspecified
     (some "<a/>") _ rfl⟩

theorem opOfName_unknown (name : String) (h : name ∉ operationNames) :
    opOfName name = .NC_OP_UNKNOWN := by
  simp only [operationNames, List.mem_cons, List.mem_singleton, not_or, List.mem_nil_iff,
    or_false] at h
  obtain ⟨h1, h2, h3, h4, h5, h6, h7, h8, h9⟩ := h
  simp [opOfName, h1, h2, h3, h4, h5, h6, h7, h8, h9]

theorem nc_rpc_get_op_parsed (E : Env) (doc : xmlDoc) (t : nc_msg_type) (root op : xmlNode)
    (rest more : List xmlNode) (hdoc : doc.children = root :: rest) (hname : root.name = "rpc")
    (hop : root.children = op :: more) :
    nc_rpc_get_op (some (parsedMsg E doc t)) = .ret (opOfName op.name) := by
  simp only [nc_rpc_get_op, parsedMsg, hdoc, List.head?, deref, Exec.ret_bind, hname,
    eq_self_iff_true, if_true, hop, Exec.pure_eq, opOfName, apply_ite (Exec.ret (α := NC_OP))]

/-- C22: for an rpc document whose single operation child has a name outside
the nine operation names, `nc_rpc_get_op` returns `NC_OP_UNKNOWN`, and
`nc_rpc_build` returns the message, with the type `NC_RPC_UNKNOWN`. -/
theorem nc_rpc_build_unknown_op (E : Env) (text : String) (doc : xmlDoc) (root op : xmlNode)
    (rest : List xmlNode) (hparse : E.xmlReadMemory text buildOptions = some doc)
    (hdoc : doc.children = root :: rest) (hname : root.name = "rpc")
    (hop : root.children = [op]) (hunk : op.name ∉ operationNames) :
    nc_rpc_get_op (some (parsedMsg E doc .unset)) = .ret .NC_OP_UNKNOWN ∧
      nc_rpc_build E text = .ret (some (parsedMsg E doc (.rpc .NC_RPC_UNKNOWN))) := by
  have hparse' : E.xmlReadMemory text (XML_PARSE_NOBLANKS ||| XML_PARSE_NSCLEAN) = some doc :=
    hparse
  have hget := nc_rpc_get_op_parsed E doc .unset root op rest [] hdoc hname hop
  rw [opOfName_unknown op.name hunk] at hget
  refine ⟨hget, ?_⟩
  unfold parsedMsg at hget
  simp only [nc_rpc_build, nc_msg_build, hparse', hget, Exec.ret_bind, Exec.pure_eq]
  rfl

/-- Witness of C22: the rpc `<rpc message-id="1"><foo/></rpc>`. -/
theorem nc_rpc_build_unknown_op_witness :
    nc_rpc_get_op (some (parsedMsg sampleEnv
        (parsedDoc [.mk .XML_ELEMENT_NODE "rpc" none [] [⟨"message-id", "1"⟩] [elem "foo" []]])
        .unset)) = .ret .NC_OP_UNKNOWN ∧
      nc_rpc_build sampleEnv "<rpc message-id=\"1\"><foo/></rpc>" =
        .ret (some (parsedMsg sampleEnv
          (parsedDoc [.mk .XML_ELEMENT_NODE "rpc" none [] [⟨"message-id", "1"⟩]
            [elem "foo" []]]) (.rpc .NC_RPC_UNKNOWN))) :=
  nc_rpc_build_unknown_op sampleEnv "<rpc message-id=\"1\"><foo/></rpc>"
    (parsedDoc [.mk .XML_ELEMENT_NODE "rpc" none [] [⟨"message-id", "1"⟩] [elem "foo" []]])
    (.mk .XML_ELEMENT_NODE "rpc" none [] [⟨"message-id", "1"⟩] [elem "foo" []])
    (elem "foo" []) [] rfl rfl rfl rfl (by decide)

theorem findByName_first (pre post : List xmlNode) (first : xmlNode) (tag : String)
    (hpre : ∀ n ∈ pre, n.name ≠ tag) (hfirst : first.name = tag) :
    findByName (pre ++ first :: post) tag = some first := by
  induction pre with
  | nil => simp [findByName, xmlStrEqual, hfirst]
  | cons a pre ih =>
    have ha : a.name ≠ tag := hpre a (List.mem_cons_self _ _)
    have ih' := ih (fun n hn => hpre n (List.mem_cons_of_mem _ hn))
    have hb : (a.name == tag) = false := by simpa using ha
    simp only [findByName, xmlStrEqual] at ih' ⊢
    rw [List.cons_append, List.find?_cons, hb]
    exact ih'

theorem nc_rpc_get_ds_first (rpc : nc_msg) (doc : xmlDoc) (root op first : xmlNode)
    (more pre post : List xmlNode) (tag : String)
    (hdoc : rpc.doc = some doc) (hroot : xmlDocGetRootElement (some doc) = some root)
    (hname : root.name = "rpc") (hop : root.children = op :: more)
    (hkids : op.children = pre ++ first :: post) (hpre : ∀ n ∈ pre, n.name ≠ tag)
    (hfirst : first.name = tag) :
    nc_rpc_get_ds (some rpc) tag = datastoreOfNode first := by
  have hfind := findByName_first pre post first tag hpre hfirst
  simp only [nc_rpc_get_ds, hdoc, hroot, hname, xmlStrEqual, hop, List.head?, hkids, hfind,
    datastoreOfNode]
  cases first.children.head? with
  | none => simp
  | some ds => simp

/-- C23: for an rpc whose operation element has several children named `target`
(`source`), `nc_rpc_get_target` (`nc_rpc_get_source`) returns what the first of
them decides, whatever stands behind it: the datastore named by its first
child, and `NC_DATASTORE_NONE` when it has no child or the child names no
datastore. -/
theorem nc_rpc_get_ds_first_wins (rpc : nc_msg) (doc : xmlDoc) (root op first : xmlNode)
    (more pre post : List xmlNode)
    (hdoc : rpc.doc = some doc) (hroot : xmlDocGetRootElement (some doc) = some root)
    (hname : root.name = "rpc") (hop : root.children = op :: more)
    (hkids : op.children = pre ++ first :: post) :
    (first.name = "target" → (∀ n ∈ pre, n.name ≠ "target") →
      nc_rpc_get_target (some rpc) = datastoreOfNode first) ∧
    (first.name = "source" → (∀ n ∈ pre, n.name ≠ "source") →
      nc_rpc_get_source (some rpc) = datastoreOfNode first) ∧
    (first.children = [] → datastoreOfNode first = .NC_DATASTORE_NONE) ∧
    (∀ ds rest, first.children = ds :: rest →
      datastoreOfNode first =
        if ds.name = "candidate" then .NC_DATASTORE_CANDIDATE
        else if ds.name = "running" then .NC_DATASTORE_RUNNING
        else if ds.name = "startup" then .NC_DATASTORE_STARTUP
        else .NC_DATASTORE_NONE) := by
  refine ⟨?_, ?_, ?_, ?_⟩
  · intro hfirst hpre
    exact nc_rpc_get_ds_first rpc doc root op first more pre post "target" hdoc hroot hname hop
      hkids hpre hfirst
  · intro hfirst hpre
    exact nc_rpc_get_ds_first rpc doc root op first more pre post "source" hdoc hroot hname hop
      hkids hpre hfirst
  · intro h
    simp [datastoreOfNode, h]
  · intro ds rest h
    simp [datastoreOfNode, h]

/-- Witness of C23: two targets, running before candidate. -/
theorem nc_rpc_get_ds_first_wins_witness :
    nc_rpc_get_target (some (rpcMsg (elem "lock"
      [datastoreElem "target" "running", datastoreElem "target" "candidate"])
      .NC_RPC_DATASTORE_WRITE)) = datastoreOfNode (datastoreElem "target" "running") ∧
    datastoreOfNode (datastoreElem "target" "running") = .NC_DATASTORE_RUNNING :=
  ⟨(nc_rpc_get_ds_first_wins _ (envelope "rpc" (elem "lock"
      [datastoreElem "target" "running", datastoreElem "target" "candidate"]))
      (.mk .XML_ELEMENT_NODE "rpc" none [] [⟨"message-id", ""⟩] [elem "lock"
        [datastoreElem "target" "running", datastoreElem "target" "candidate"]])
      (elem "lock" [datastoreElem "target" "running", datastoreElem "target" "candidate"])
      (datastoreElem "target" "running") [] [] [datastoreElem "target" "candidate"]
      rfl rfl rfl rfl rfl).1 rfl (by simp),
   ((nc_rpc_get_ds_first_wins (rpcMsg (elem "lock"
      [datastoreElem "target" "running", datastoreElem "target" "candidate"])
      .NC_RPC_DATASTORE_WRITE) (envelope "rpc" (elem "lock"
      [datastoreElem "target" "running", datastoreElem "target" "candidate"]))
      (.mk .XML_ELEMENT_NODE "rpc" none [] [⟨"message-id", ""⟩] [elem "lock"
        [datastoreElem "target" "running", datastoreElem "target" "candidate"]])
      (elem "lock" [datastoreElem "target" "running", datastoreElem "target" "candidate"])
      (datastoreElem "target" "running") [] [] [datastoreElem "target" "candidate"]
      rfl rfl rfl rfl rfl).2.2.2 (elem "running" []) [] rfl).trans rfl⟩

theorem nc_reply_build_parsed (E : Env) (text : String) (doc : xmlDoc) (root first : xmlNode)
    (rest : List xmlNode) (hparse : E.xmlReadMemory text buildOptions = some doc)
    (hroot : xmlDocGetRootElement (some doc) = some root)
    (hkids : root.children = first :: rest) :
    nc_reply_build E text =
      .ret (some (parsedMsg E doc (.reply (replyTypeOfName first.name)))) := by
  have hparse' : E.xmlReadMemory text (XML_PARSE_NOBLANKS ||| XML_PARSE_NSCLEAN) = some doc :=
    hparse
  simp only [nc_reply_build, nc_msg_build, hparse', hroot, hkids, deref, Exec.ret_bind,
    List.head?, Exec.pure_eq, xmlStrEqual, beq_iff_eq, parsedMsg, replyTypeOfName]

/-- C24: `nc_reply_build` classifies by the name of the first child of the root
element alone: `ok` gives `NC_REPLY_OK` and `data` gives `NC_REPLY_DATA`; so a
text that parses back to the payload built by `nc_reply_ok()` or by
`nc_reply_data(d)` gets the type the builder assigned. -/
theorem nc_reply_build_ok_data (E : Env) :
    (∀ (text : String) (doc : xmlDoc) (root first : xmlNode) (rest : List xmlNode),
      E.xmlReadMemory text buildOptions = some doc →
      xmlDocGetRootElement (some doc) = some root → root.children = first :: rest →
      (∃ m, nc_reply_build E text = .ret (some m) ∧
        m.type = .reply (replyTypeOfName first.name)) ∧
      (first.name = "ok" →
        ∃ m, nc_reply_build E text = .ret (some m) ∧ m.type = .reply .NC_REPLY_OK) ∧
      (first.name = "data" →
        ∃ m, nc_reply_build E text = .ret (some m) ∧ m.type = .reply .NC_REPLY_DATA)) ∧
    (∀ (text : String) (doc : xmlDoc) (root : xmlNode),
      E.xmlReadMemory text buildOptions = some doc →
      xmlDocGetRootElement (some doc) = some root → root.children = [elem "ok" []] →
      ∃ built parsed, nc_reply_ok = .ret (some built) ∧
        payloadOf (.ret (some built)) = some (elem "ok" []) ∧
        built.type = .reply .NC_REPLY_OK ∧
        nc_reply_build E text = .ret (some parsed) ∧ parsed.type = built.type) ∧
    (∀ (d : Option String) (ddoc : xmlDoc) (node : xmlNode) (text : String) (doc : xmlDoc)
      (root : xmlNode),
      E.xmlReadMemory (dataText d) dataOptions = some ddoc →
      ddoc.children.head? = some node → node.type = .XML_ELEMENT_NODE → node.name = "data" →
      E.xmlReadMemory text buildOptions = some doc →
      xmlDocGetRootElement (some doc) = some root → root.children = [node] →
      ∃ built parsed, nc_reply_data E d = .ret (some built) ∧
        payloadOf (.ret (some built)) = some node ∧
        built.type = .reply .NC_REPLY_DATA ∧
        nc_reply_build E text = .ret (some parsed) ∧ parsed.type = built.type) := by
  refine ⟨?_, ?_, ?_⟩
  · intro text doc root first rest hparse hroot hkids
    have h := nc_reply_build_parsed E text doc root first rest hparse hroot hkids
    refine ⟨⟨_, h, rfl⟩, ?_, ?_⟩
    · intro hname
      rw [hname] at h
      exact ⟨_, h, rfl⟩
    · intro hname
      rw [hname] at h
      exact ⟨_, h, rfl⟩
  · intro text doc root hparse hroot hkids
    have h := nc_reply_build_parsed E text doc root (elem "ok" []) [] hparse hroot hkids
    exact ⟨_, _, rfl, rfl, rfl, h, rfl⟩
  · intro d ddoc node text doc root hdparse hnode hty hname hparse hroot hkids
    have h := nc_reply_build_parsed E text doc root node [] hparse hroot hkids
    rw [hname] at h
    have hcopy : node.type ≠ .XML_DTD_NODE := by rw [hty]; decide
    have hbuilt : nc_reply_data E d = .ret (some (replyMsg node .NC_REPLY_DATA)) := by
      cases d with
      | none =>
        have hdparse' : E.xmlReadMemory "<data/>" (XML_PARSE_NOERROR ||| XML_PARSE_NOWARNING) =
            some ddoc := hdparse
        simp [nc_reply_data, hdparse', hnode, setReplyType, nc_reply_create, nc_msg_create,
          xmlCopyNode, hcopy, xmlAddChild, xmlLinkChild, xmlNewProp, xmlNewNode,
          xmlNode.children, xmlNode.setChildren, deref, envelope, replyMsg]
      | some d =>
        have hdparse' : E.xmlReadMemory ("<data>" ++ d ++ "</data>")
            (XML_PARSE_NOERROR ||| XML_PARSE_NOWARNING) = some ddoc := hdparse
        simp [nc_reply_data, hdparse', hnode, setReplyType, nc_reply_create, nc_msg_create,
          xmlCopyNode, hcopy, xmlAddChild, xmlLinkChild, xmlNewProp, xmlNewNode,
          xmlNode.children, xmlNode.setChildren, deref, envelope, replyMsg]
    exact ⟨_, _, hbuilt, rfl, rfl, h, rfl⟩

/-- Witness of C24: the replies `<ok/>` and `<data><a/><b/><c/></data>`. -/
theorem nc_reply_build_ok_data_witness :
    (∃ m, nc_reply_build sampleEnv "<rpc-reply message-id=\"1\"><ok/></rpc-reply>" =
        .ret (some m) ∧ m.type = .reply .NC_REPLY_OK) ∧
    (∃ built parsed, nc_reply_ok = .ret (some built) ∧
        payloadOf (.ret (some built)) = some (elem "ok" []) ∧
        built.type = .reply .NC_REPLY_OK ∧
        nc_reply_build sampleEnv "<rpc-reply message-id=\"1\"><ok/></rpc-reply>" =
          .ret (some parsed) ∧ parsed.type = built.type) ∧
    (∃ built parsed, nc_reply_data sampleEnv (some "<a/><b/><c/>") = .ret (some built) ∧
        payloadOf (.ret (some built)) =
          some (elem "data" [elem "a" [], elem "b" [], elem "c" []]) ∧
        built.type = .reply .NC_REPLY_DATA ∧
        nc_reply_build sampleEnv
          "<rpc-reply message-id=\"1\"><data><a/><b/><c/></data></rpc-reply>" =
          .ret (some parsed) ∧ parsed.type = built.type) :=
  ⟨((nc_reply_build_ok_data sampleEnv).1 "<rpc-reply message-id=\"1\"><ok/></rpc-reply>"
      (parsedDoc [.mk .XML_ELEMENT_NODE "rpc-reply" none [] [⟨"message-id", "1"⟩]
        [elem "ok" []]])
      (.mk .XML_ELEMENT_NODE "rpc-reply" none [] [⟨"message-id", "1"⟩] [elem "ok" []])
      (elem "ok" []) [] rfl rfl rfl).2.1 rfl,
   (nc_reply_build_ok_data sampleEnv).2.1 "<rpc-reply message-id=\"1\"><ok/></rpc-reply>"
      (parsedDoc [.mk .XML_ELEMENT_NODE "rpc-reply" none [] [⟨"message-id", "1"⟩]
        [elem "ok" []]])
      (.mk .XML_ELEMENT_NODE "rpc-reply" none [] [⟨"message-id", "1"⟩] [elem "ok" []])
      rfl rfl rfl,
   (nc_reply_build_ok_data sampleEnv).2.2 (some "<a/><b/><c/>")
      (parsedDoc [elem "data" [elem "a" [], elem "b" [], elem "c" []]])
      (elem "data" [elem "a" [], elem "b" [], elem "c" []])
      "<rpc-reply message-id=\"1\"><data><a/><b/><c/></data></rpc-reply>"
      (parsedDoc [.mk .XML_ELEMENT_NODE "rpc-reply" none [] [⟨"message-id", "1"⟩]
        [elem "data" [elem "a" [], elem "b" [], elem "c" []]]])
      (.mk .XML_ELEMENT_NODE "rpc-reply" none [] [⟨"message-id", "1"⟩]
        [elem "data" [elem "a" [], elem "b" [], elem "c" []]])
      rfl rfl rfl rfl rfl rfl rfl⟩

/-- C25 (what the code does): a reply whose first child is named `error`, a name
other than ok, rpc-error and data, is classified `NC_REPLY_ERROR`; every first
child with a name other than ok, data and error gives `NC_REPLY_UNKNOWN`. -/
theorem nc_reply_build_other_name (E : Env) (text : String) (doc : xmlDoc)
    (root first : xmlNode) (rest : List xmlNode)
    (hparse : E.xmlReadMemory text buildOptions = some doc)
    (hroot : xmlDocGetRootElement (some doc) = some root)
    (hkids : root.children = first :: rest) :
    (first.name = "error" →
      nc_reply_build E text = .ret (some (parsedMsg E doc (.reply .NC_REPLY_ERROR)))) ∧
    (first.name ≠ "ok" → first.name ≠ "data" → first.name ≠ "error" →
      nc_reply_build E text = .ret (some (parsedMsg E doc (.reply .NC_REPLY_UNKNOWN)))) := by
  have h := nc_reply_build_parsed E text doc root first rest hparse hroot hkids
  constructor
  · intro hname
    rw [hname] at h
    exact h
  · intro h1 h2 h3
    rw [h]
    simp [replyTypeOfName, h1, h2, h3]

/-- Witness of C25: the replies with the first child `error` and `foo`. -/
theorem nc_reply_build_other_name_witness :
    nc_reply_build sampleEnv "<rpc-reply message-id=\"1\"><error/></rpc-reply>" =
      .ret (some (parsedMsg sampleEnv
        (parsedDoc [.mk .XML_ELEMENT_NODE "rpc-reply" none [] [⟨"message-id", "1"⟩]
          [elem "error" []]]) (.reply .NC_REPLY_ERROR))) ∧
    nc_reply_build sampleEnv "<rpc-reply message-id=\"1\"><foo/></rpc-reply>" =
      .ret (some (parsedMsg sampleEnv
        (parsedDoc [.mk .XML_ELEMENT_NODE "rpc-reply" none [] [⟨"message-id", "1"⟩]
          [elem "foo" []]]) (.reply .NC_REPLY_UNKNOWN))) :=
  ⟨(nc_reply_build_other_name sampleEnv "<rpc-reply message-id=\"1\"><error/></rpc-reply>"
      (parsedDoc [.mk .XML_ELEMENT_NODE "rpc-reply" none [] [⟨"message-id", "1"⟩]
        [elem "error" []]])
      (.mk .XML_ELEMENT_NODE "rpc-reply" none [] [⟨"message-id", "1"⟩] [elem "error" []])
      (elem "error" []) [] rfl rfl rfl).1 rfl,
   (nc_reply_build_other_name sampleEnv "<rpc-reply message-id=\"1\"><foo/></rpc-reply>"
      (parsedDoc [.mk .XML_ELEMENT_NODE "rpc-reply" none [] [⟨"message-id", "1"⟩]
        [elem "foo" []]])
      (.mk .XML_ELEMENT_NODE "rpc-reply" none [] [⟨"message-id", "1"⟩] [elem "foo" []])
      (elem "foo" []) [] rfl rfl rfl).2 (by decide) (by decide) (by decide)⟩

/-- C26 (what the code does): for a reply text that parses to a document whose
root element has no child, `nc_reply_build` reads `root->children->name` through
the `NULL` pointer `root->children`: the run ends in a fault, no reply is
returned. -/
theorem nc_reply_build_no_child (E : Env) (text : String) (doc : xmlDoc) (root : xmlNode)
    (hparse : E.xmlReadMemory text buildOptions = some doc)
    (hroot : xmlDocGetRootElement (some doc) = some root) (hkids : root.children = []) :
    nc_reply_build E text = .segv := by
  have hparse' : E.xmlReadMemory text (XML_PARSE_NOBLANKS ||| XML_PARSE_NSCLEAN) = some doc :=
    hparse
  simp [nc_reply_build, nc_msg_build, hparse', hroot, hkids, deref]

/-- Witness of C26: the reply `<rpc-reply message-id="1"/>`. -/
theorem nc_reply_build_no_child_witness :
    nc_reply_build sampleEnv "<rpc-reply message-id=\"1\"/>" = .segv :=
  nc_reply_build_no_child sampleEnv "<rpc-reply message-id=\"1\"/>"
    (parsedDoc [.mk .XML_ELEMENT_NODE "rpc-reply" none [] [⟨"message-id", "1"⟩] []])
    (.mk .XML_ELEMENT_NODE "rpc-reply" none [] [⟨"message-id", "1"⟩] []) rfl rfl rfl

/-- C27 (what the code does): for a text that parses to a document whose first
node is an `rpc` element without a child, `nc_rpc_build` reads
`rpc->doc->children->children->name` through a `NULL` pointer: the run ends in a
fault.  For every other parsed document with a first node it returns a
message. -/
theorem nc_rpc_build_no_child (E : Env) (text : String) (doc : xmlDoc) (root : xmlNode)
    (rest : List xmlNode) (hparse : E.xmlReadMemory text buildOptions = some doc)
    (hdoc : doc.children = root :: rest) :
    (root.name = "rpc" → root.children = [] → nc_rpc_build E text = .segv) ∧
    ((root.name ≠ "rpc" ∨ root.children ≠ []) →
      ∃ m, nc_rpc_build E text = .ret (some m)) := by
  have hparse' : E.xmlReadMemory text (XML_PARSE_NOBLANKS ||| XML_PARSE_NSCLEAN) = some doc :=
    hparse
  constructor
  · intro hname hkids
    simp [nc_rpc_build, nc_msg_build, hparse', nc_rpc_get_op, hdoc, hname, hkids, deref]
  · intro h
    by_cases hname : root.name = "rpc"
    · cases hk : root.children with
      | nil => exact absurd hk (h.resolve_left (fun hn => hn hname))
      | cons op more =>
        have hget := nc_rpc_get_op_parsed E doc .unset root op rest more hdoc hname hk
        unfold parsedMsg at hget
        simp only [nc_rpc_build, nc_msg_build, hparse', hget, Exec.ret_bind, Exec.pure_eq]
        exact ⟨_, rfl⟩
    · have hget : nc_rpc_get_op (some (parsedMsg E doc .unset)) = .ret .NC_OP_UNKNOWN := by
        simp [nc_rpc_get_op, parsedMsg, hdoc, hname, deref]
      unfold parsedMsg at hget
      simp only [nc_rpc_build, nc_msg_build, hparse', hget, Exec.ret_bind, Exec.pure_eq]
      exact ⟨_, rfl⟩

/-- Witness of C27: the text `<rpc message-id="1"/>` faults, the text
`<rpc message-id="1"><foo/></rpc>` gives a message. -/
theorem nc_rpc_build_no_child_witness :
    nc_rpc_build sampleEnv "<rpc message-id=\"1\"/>" = .segv ∧
      ∃ m, nc_rpc_build sampleEnv "<rpc message-id=\"1\"><foo/></rpc>" = .ret (some m) :=
  ⟨(nc_rpc_build_no_child sampleEnv "<rpc message-id=\"1\"/>"
      (parsedDoc [.mk .XML_ELEMENT_NODE "rpc" none [] [⟨"message-id", "1"⟩] []])
      (.mk .XML_ELEMENT_NODE "rpc" none [] [⟨"message-id", "1"⟩] []) [] rfl rfl).1 rfl rfl,
   (nc_rpc_build_no_child sampleEnv "<rpc message-id=\"1\"><foo/></rpc>"
      (parsedDoc [.mk .XML_ELEMENT_NODE "rpc" none [] [⟨"message-id", "1"⟩] [elem "foo" []]])
      (.mk .XML_ELEMENT_NODE "rpc" none [] [⟨"message-id", "1"⟩] [elem "foo" []]) []
      rfl rfl).2 (Or.inr (by simp [xmlNode.children]))⟩

/-! ## The error-info container and the hello messages -/

theorem name_of_mem_errorField (L : LibXml2) (name : String) (v : Option String) (n : xmlNode)
    (h : n ∈ errorField L name v) : n.name = name := by
  cases v with
  | none => simp [errorField] at h
  | some s =>
    simp only [errorField, List.mem_singleton] at h
    rw [h]
    rfl

/-- C28: for every error structure, the `rpc-error` built by `nc_reply_error`
holds an `error-info` container exactly when one of attribute, element,
namespace, session-id is set; there is then one such container, and its
children are the set fields, each once, in the order attribute, element, ns,
session-id. -/
theorem nc_reply_error_info (L : LibXml2) (e : nc_err) :
    ∃ m kids rest, nc_reply_error L (some e) = .ret (some m) ∧
      payloadOf (.ret (some m)) = some (elem "rpc-error"
        ((if e.attr ≠ none ∨ e.element ≠ none ∨ e.ns ≠ none ∨ e.sid ≠ none then
          [elem "error-info" kids] else []) ++ rest)) ∧
      (∀ n ∈ rest, n.name ≠ "error-info") ∧
      kids.map xmlNode.name = present "attribute" e.attr ++ present "element" e.element
        ++ present "ns" e.ns ++ present "session-id" e.sid := by
  refine ⟨_, errorField L "attribute" e.attr ++ errorField L "element" e.element
      ++ errorField L "ns" e.ns ++ errorField L "session-id" e.sid,
    errorField L "error-tag" e.tag ++ errorField L "error-type" e.type
      ++ errorField L "error-severity" e.severity ++ errorField L "error-app-tag" e.apptag
      ++ errorField L "error-path" e.path ++ errorField L "error-message" e.message,
    nc_reply_error_eq L e, ?_, ?_, ?_⟩
  · have hcond : (e.attr ≠ none ∨ e.element ≠ none ∨ e.ns ≠ none ∨ e.sid ≠ none) ↔
        hasErrorInfo e := by
      unfold hasErrorInfo
      tauto
    by_cases h : hasErrorInfo e
    · rw [if_pos (hcond.mpr h)]
      simp [payloadOf, envelope, xmlNode.children, rpcErrorElem, errorInfo, h]
    · rw [if_neg (fun hc => h (hcond.mp hc))]
      simp [payloadOf, envelope, xmlNode.children, rpcErrorElem, errorInfo, h]
  · intro n hn
    simp only [List.mem_append] at hn
    rcases hn with ((((hn | hn) | hn) | hn) | hn) | hn <;>
      rw [name_of_mem_errorField L _ _ n hn] <;> decide
  · simp only [List.map_append, map_name_errorField]

/-- Witness of C28: the sample error, with its session id in `error-info`. -/
theorem nc_reply_error_info_witness :
    ∃ m kids rest, nc_reply_error sampleEnv.toLibXml2 (some sampleErr) = .ret (some m) ∧
      payloadOf (.ret (some m)) = some (elem "rpc-error"
        ((if sampleErr.attr ≠ none ∨ sampleErr.element ≠ none ∨ sampleErr.ns ≠ none ∨
            sampleErr.sid ≠ none then [elem "error-info" kids] else []) ++ rest)) ∧
      (∀ n ∈ rest, n.name ≠ "error-info") ∧
      kids.map xmlNode.name = present "attribute" sampleErr.attr
        ++ present "element" sampleErr.element ++ present "ns" sampleErr.ns
        ++ present "session-id" sampleErr.sid :=
  nc_reply_error_info sampleEnv.toLibXml2 sampleErr

theorem foldl_capability (L : LibXml2) (cs : List String) (acc more : List xmlNode)
    (ns : List xmlNs) :
    cs.foldl (fun root c => (xmlNewChild L root [0] "capability" (some c)).1)
        (.mk .XML_ELEMENT_NODE NC_HELLO_MSG none ns [] (elem "capabilities" acc :: more)) =
      .mk .XML_ELEMENT_NODE NC_HELLO_MSG none ns []
        (elem "capabilities"
          (acc ++ cs.map fun c => elem "capability" (xmlStringGetNodeList L c)) :: more) := by
  induction cs generalizing acc with
  | nil => simp
  | cons c cs ih =>
    have hstep : (xmlNewChild L
        (.mk .XML_ELEMENT_NODE NC_HELLO_MSG none ns [] (elem "capabilities" acc :: more))
        [0] "capability" (some c)).1 =
        .mk .XML_ELEMENT_NODE NC_HELLO_MSG none ns []
          (elem "capabilities" (acc ++ [elem "capability" (xmlStringGetNodeList L c)])
            :: more) := rfl
    rw [List.foldl_cons, hstep, ih]
    simp

theorem nc_msg_client_hello_eq (L : LibXml2) (c : String) (cs : List String) :
    nc_msg_client_hello L (some (c :: cs)) = some (helloMsg (helloElem L (c :: cs) [])) := by
  have h := foldl_capability L (c :: cs) [] [] [⟨NC_NS_BASE10, none⟩]
  simp only [List.nil_append] at h
  simp only [nc_msg_client_hello, helloMsg, helloElem]
  have hnew : xmlNewChild L (xmlNewNs (xmlNewNode NC_HELLO_MSG) NC_NS_BASE10 none) []
      "capabilities" none =
      (.mk .XML_ELEMENT_NODE NC_HELLO_MSG none [⟨NC_NS_BASE10, none⟩] []
        [elem "capabilities" []], [0]) := rfl
  rw [hnew]
  simp only [h]

theorem nc_msg_server_hello_eq (L : LibXml2) (c : String) (cs : List String)
    (session_id : Option String) :
    nc_msg_server_hello L (some (c :: cs)) session_id =
      .ret (match session_id with
        | none => none
        | some sid =>
          if sid.length = 0 then none
          else some (helloMsg (helloElem L (c :: cs)
            [elem "session-id" (xmlStringGetNodeList L sid)]))) := by
  unfold nc_msg_server_hello
  rw [nc_msg_client_hello_eq]
  cases session_id with
  | none => rfl
  | some sid =>
    by_cases h : sid.length = 0
    · simp [h]
    · simp only [h, if_false]
      rfl

/-- C29 (amended): for every non-empty capability list, `nc_msg_server_hello`
returns no message when the session id is `NULL` or the empty string; otherwise
it returns the document of `nc_msg_client_hello` for the same list, whose root
has the one child `capabilities`, with a `session-id` element appended behind
it; when the session id holds no `&` the content of that element is the text of
the session id. -/
theorem nc_msg_server_hello_content (L : LibXml2) (cpblts : List String) (hne : cpblts ≠ []) :
    nc_msg_server_hello L (some cpblts) none = .ret none ∧
    nc_msg_server_hello L (some cpblts) (some "") = .ret none ∧
    ∀ sid : String, sid.length ≠ 0 →
      ∃ root caps kids, nc_msg_client_hello L (some cpblts) = some (helloMsg root) ∧
        root.children = [caps] ∧ caps.name = "capabilities" ∧
        nc_msg_server_hello L (some cpblts) (some sid) =
          .ret (some (helloMsg (root.setChildren [caps, elem "session-id" kids]))) ∧
        (sid.toList.contains '&' = false → kids = [xmlNewText sid]) := by
  cases cpblts with
  | nil => exact absurd rfl hne
  | cons c cs =>
    refine ⟨?_, ?_, ?_⟩
    · rw [nc_msg_server_hello_eq]
    · rw [nc_msg_server_hello_eq]
      rfl
    · intro sid hlen
      refine ⟨helloElem L (c :: cs) [], _, xmlStringGetNodeList L sid,
        nc_msg_client_hello_eq L c cs, rfl, rfl, ?_, xmlStringGetNodeList_plain L sid⟩
      rw [nc_msg_server_hello_eq]
      simp only [hlen, if_false]
      rfl

/-- Witness of C29 (amended): a server hello with the base capability and the
session id `4`. -/
theorem nc_msg_server_hello_content_witness :
    ∃ root caps kids,
      nc_msg_client_hello sampleEnv.toLibXml2 (some ["urn:ietf:params:netconf:base:1.0"]) =
        some (helloMsg root) ∧
      root.children = [caps] ∧ caps.name = "capabilities" ∧
      nc_msg_server_hello sampleEnv.toLibXml2 (some ["urn:ietf:params:netconf:base:1.0"])
          (some "4") =
        .ret (some (helloMsg (root.setChildren [caps, elem "session-id" kids]))) ∧
      ("4".toList.contains '&' = false → kids = [xmlNewText "4"]) :=
  (nc_msg_server_hello_content sampleEnv.toLibXml2 ["urn:ietf:params:netconf:base:1.0"]
    (by decide)).2.2 "4" (by decide)

/-- C29 fails as stated: for the session id `1&amp;2`, in which libxml2 reads an
entity reference, the text of the `session-id` element of the server hello is
`1&2`, not the session id. -/
theorem nc_msg_server_hello_content_counterexample :
    sessionIdContents (nc_msg_server_hello sampleEnv.toLibXml2
        (some ["urn:ietf:params:netconf:base:1.0"]) (some "1&amp;2")) = [some "1&2"] ∧
      sessionIdContents (nc_msg_server_hello sampleEnv.toLibXml2
        (some ["urn:ietf:params:netconf:base:1.0"]) (some "1&amp;2")) ≠ [some "1&amp;2"] := by
  have h : sessionIdContents (nc_msg_server_hello sampleEnv.toLibXml2
      (some ["urn:ietf:params:netconf:base:1.0"]) (some "1&amp;2")) = [some "1&2"] := rfl
  refine ⟨h, ?_⟩
  rw [h]
  decide

/-- C30 (amended): for every non-empty list of capability strings,
`nc_msg_client_hello` returns a document whose root `hello` has the single child
`capabilities`, whose children are one `capability` element for each string, in
the given order; the content of each is what libxml2 makes of the string, the
text of the string itself when it holds no `&`. -/
theorem nc_msg_client_hello_content (L : LibXml2) (cpblts : List String) (hne : cpblts ≠ []) :
    nc_msg_client_hello L (some cpblts) =
      some (helloMsg (.mk .XML_ELEMENT_NODE "hello" none [⟨NC_NS_BASE10, none⟩] []
        [elem "capabilities"
          (cpblts.map fun c => elem "capability" (xmlStringGetNodeList L c))])) ∧
    (∀ c ∈ cpblts, c.toList.contains '&' = false →
      xmlStringGetNodeList L c = [xmlNewText c]) := by
  cases cpblts with
  | nil => exact absurd rfl hne
  | cons c cs =>
    exact ⟨nc_msg_client_hello_eq L c cs, fun c _ h => xmlStringGetNodeList_plain L c h⟩

/-- Witness of C30 (amended): a hello with two capabilities. -/
theorem nc_msg_client_hello_content_witness :
    nc_msg_client_hello sampleEnv.toLibXml2
        (some ["urn:ietf:params:netconf:base:1.0", "urn:ietf:params:netconf:base:1.0"]) =
      some (helloMsg (.mk .XML_ELEMENT_NODE "hello" none [⟨NC_NS_BASE10, none⟩] []
        [elem "capabilities"
          (["urn:ietf:params:netconf:base:1.0", "urn:ietf:params:netconf:base:1.0"].map
            fun c => elem "capability" (xmlStringGetNodeList sampleEnv.toLibXml2 c))])) ∧
    (∀ c ∈ ["urn:ietf:params:netconf:base:1.0", "urn:ietf:params:netconf:base:1.0"],
      c.toList.contains '&' = false →
      xmlStringGetNodeList sampleEnv.toLibXml2 c = [xmlNewText c]) :=
  nc_msg_client_hello_content sampleEnv.toLibXml2
    ["urn:ietf:params:netconf:base:1.0", "urn:ietf:params:netconf:base:1.0"] (by decide)

/-- C30 fails as stated: for the capability string `1&amp;2`, in which libxml2
reads an entity reference, the text of the `capability` element is `1&2`, not
the string. -/
theorem nc_msg_client_hello_content_counterexample :
    capabilityContents (.ret (nc_msg_client_hello sampleEnv.toLibXml2
        (some ["urn:ietf:params:netconf:base:1.0", "1&amp;2"]))) =
        [[some "urn:ietf:params:netconf:base:1.0"], [some "1&2"]] ∧
      capabilityContents (.ret (nc_msg_client_hello sampleEnv.toLibXml2
        (some ["urn:ietf:params:netconf:base:1.0", "1&amp;2"]))) ≠
        [[some "urn:ietf:params:netconf:base:1.0"], [some "1&amp;2"]] := by
  have h : capabilityContents (.ret (nc_msg_client_hello sampleEnv.toLibXml2
      (some ["urn:ietf:params:netconf:base:1.0", "1&amp;2"]))) =
      [[some "urn:ietf:params:netconf:base:1.0"], [some "1&2"]] := rfl
  refine ⟨h, ?_⟩
  rw [h]
  decide

/-! ## Envelopes, classes of built requests, options and data replies -/

theorem nc_msg_create_eq (content : xmlNode) (msgtype : String)
    (hcontent : content.type ≠ .XML_DTD_NODE) :
    nc_msg_create (some content) msgtype =
      some { doc := some (envelope msgtype content), msgid := none, type := .unset,
             error := none } := by
  simp [nc_msg_create, xmlCopyNode, hcontent, xmlAddChild, xmlLinkChild, xmlNewProp, xmlNewNode,
    xmlNode.children, xmlNode.setChildren, envelope]

/-- C31: for every content node, that is every node of which `xmlCopyNode` makes
a copy (all kinds but a document type declaration), `nc_rpc_create` and
`nc_reply_create` return a document with one top-level node, the root element
`rpc` (`rpc-reply`); it carries the attribute `message-id` and has one child, equal
to the content node in every field; it is the copy that is linked, the node of
the caller stays what it was. -/
theorem nc_msg_create_envelope (content : xmlNode) (hcontent : content.type ≠ .XML_DTD_NODE) :
    (∃ m doc root, nc_rpc_create (some content) = some m ∧ m.doc = some doc ∧
      doc.children = [root] ∧ xmlDocGetRootElement (some doc) = some root ∧
      root.name = "rpc" ∧ root.properties = [⟨"message-id", ""⟩] ∧
      root.children = [content]) ∧
    (∃ m doc root, nc_reply_create (some content) = some m ∧ m.doc = some doc ∧
      doc.children = [root] ∧ xmlDocGetRootElement (some doc) = some root ∧
      root.name = "rpc-reply" ∧ root.properties = [⟨"message-id", ""⟩] ∧
      root.children = [content]) ∧
    xmlCopyNode (some content) = some content := by
  refine ⟨⟨_, _, _, nc_msg_create_eq content "rpc" hcontent, rfl, rfl, rfl, rfl, rfl, rfl⟩,
    ⟨_, _, _, nc_msg_create_eq content "rpc-reply" hcontent, rfl, rfl, rfl, rfl, rfl, rfl⟩, ?_⟩
  simp [xmlCopyNode, hcontent]

/-- Witness of C31: the envelopes around the element `ok`. -/
theorem nc_msg_create_envelope_witness :
    (∃ m doc root, nc_rpc_create (some (elem "ok" [])) = some m ∧ m.doc = some doc ∧
      doc.children = [root] ∧ xmlDocGetRootElement (some doc) = some root ∧
      root.name = "rpc" ∧ root.properties = [⟨"message-id", ""⟩] ∧
      root.children = [elem "ok" []]) ∧
    (∃ m doc root, nc_reply_create (some (elem "ok" [])) = some m ∧ m.doc = some doc ∧
      doc.children = [root] ∧ xmlDocGetRootElement (some doc) = some root ∧
      root.name = "rpc-reply" ∧ root.properties = [⟨"message-id", ""⟩] ∧
      root.children = [elem "ok" []]) ∧
    xmlCopyNode (some (elem "ok" [])) = some (elem "ok" []) :=
  nc_msg_create_envelope (elem "ok" []) (by decide)

theorem nc_rpc_build_parsed (E : Env) (text : String) (doc : xmlDoc) (root op : xmlNode)
    (rest more : List xmlNode) (hparse : E.xmlReadMemory text buildOptions = some doc)
    (hdoc : doc.children = root :: rest) (hname : root.name = "rpc")
    (hop : root.children = op :: more) :
    nc_rpc_build E text =
      .ret (some (parsedMsg E doc (.rpc (rpcTypeOfOp (opOfName op.name))))) := by
  have hparse' : E.xmlReadMemory text (XML_PARSE_NOBLANKS ||| XML_PARSE_NSCLEAN) = some doc :=
    hparse
  have hget := nc_rpc_get_op_parsed E doc .unset root op rest more hdoc hname hop
  unfold parsedMsg at hget
  simp only [nc_rpc_build, nc_msg_build, hparse', hget, Exec.ret_bind, Exec.pure_eq]
  generalize opOfName op.name = o
  cases o <;> rfl

theorem nc_rpc_build_rpcMsg (E : Env) (text : String) (content : xmlNode) (t : NC_RPC_TYPE)
    (hparse : E.xmlReadMemory text buildOptions = (rpcMsg content t).doc) :
    ∃ p, nc_rpc_build E text = .ret (some p) ∧
      p.type = .rpc (rpcTypeOfOp (opOfName content.name)) :=
  ⟨_, nc_rpc_build_parsed E text (envelope "rpc" content) _ content [] [] hparse rfl rfl rfl, rfl⟩

/-- C35: for each of the nine request builders and every argument tuple on
which it returns a message, `nc_rpc_build` on a text that parses to the document
of that message returns a message of the same rpc type as the builder stored:
`NC_RPC_DATASTORE_READ` for get and get-config, `NC_RPC_DATASTORE_WRITE` for
edit-config, copy-config, delete-config, lock and unlock, `NC_RPC_SESSION` for
kill-session and close-session. -/
theorem nc_rpc_build_type_of_built (E : Env) (m : nc_msg) (text : String)
    (hparse : E.xmlReadMemory text buildOptions = m.doc) :
    (∀ filter, nc_rpc_get E.toLibXml2 filter = .ret (some m) →
      ∃ p, nc_rpc_build E text = .ret (some p) ∧ p.type = m.type ∧
        m.type = .rpc .NC_RPC_DATASTORE_READ) ∧
    (∀ source filter, nc_rpc_getconfig E.toLibXml2 source filter = .ret (some m) →
      ∃ p, nc_rpc_build E text = .ret (some p) ∧ p.type = m.type ∧
        m.type = .rpc .NC_RPC_DATASTORE_READ) ∧
    (∀ target d e data, nc_rpc_editconfig E.toLibXml2 target d e data = .ret (some m) →
      ∃ p, nc_rpc_build E text = .ret (some p) ∧ p.type = m.type ∧
        m.type = .rpc .NC_RPC_DATASTORE_WRITE) ∧
    (∀ source target data, nc_rpc_copyconfig E.toLibXml2 source target data = .ret (some m) →
      ∃ p, nc_rpc_build E text = .ret (some p) ∧ p.type = m.type ∧
        m.type = .rpc .NC_RPC_DATASTORE_WRITE) ∧
    (∀ target, nc_rpc_deleteconfig E.toLibXml2 target = .ret (some m) →
      ∃ p, nc_rpc_build E text = .ret (some p) ∧ p.type = m.type ∧
        m.type = .rpc .NC_RPC_DATASTORE_WRITE) ∧
    (∀ target, nc_rpc_lock E.toLibXml2 target = .ret (some m) →
      ∃ p, nc_rpc_build E text = .ret (some p) ∧ p.type = m.type ∧
        m.type = .rpc .NC_RPC_DATASTORE_WRITE) ∧
    (∀ target, nc_rpc_unlock E.toLibXml2 target = .ret (some m) →
      ∃ p, nc_rpc_build E text = .ret (some p) ∧ p.type = m.type ∧
        m.type = .rpc .NC_RPC_DATASTORE_WRITE) ∧
    (∀ kill_sid, nc_rpc_killsession E.toLibXml2 kill_sid = .ret (some m) →
      ∃ p, nc_rpc_build E text = .ret (some p) ∧ p.type = m.type ∧
        m.type = .rpc .NC_RPC_SESSION) ∧
    (nc_rpc_closesession = .ret (some m) →
      ∃ p, nc_rpc_build E text = .ret (some p) ∧ p.type = m.type ∧
        m.type = .rpc .NC_RPC_SESSION) := by
  refine ⟨?_, ?_, ?_, ?_, ?_, ?_, ?_, ?_, ?_⟩
  · intro filter h
    rw [nc_rpc_get_eq] at h
    simp only [Exec.ret.injEq, Option.map_eq_some'] at h
    obtain ⟨kids, -, rfl⟩ := h
    obtain ⟨p, hp, ht⟩ := nc_rpc_build_rpcMsg E text _ _ hparse
    exact ⟨p, hp, ht, rfl⟩
  · intro source filter h
    rw [nc_rpc_getconfig_eq] at h
    simp only [Exec.ret.injEq, Option.bind_eq_some, Option.map_eq_some'] at h
    obtain ⟨ds, -, kids, -, rfl⟩ := h
    obtain ⟨p, hp, ht⟩ := nc_rpc_build_rpcMsg E text _ _ hparse
    exact ⟨p, hp, ht, rfl⟩
  · intro target d e data h
    obtain ⟨dtext, ds, cur, -, -, -, -, -, -, rfl⟩ :=
      nc_rpc_editconfig_inv E.toLibXml2 target d e data m h
    obtain ⟨p, hp, ht⟩ := nc_rpc_build_rpcMsg E text _ _ hparse
    exact ⟨p, hp, ht, rfl⟩
  · intro source target data h
    cases hs : datastoreName source with
    | none =>
      have : source = .NC_DATASTORE_NONE := by cases source <;> simp_all [datastoreName]
      subst this
      rw [nc_rpc_copyconfig_inline] at h
      simp only [Exec.ret.injEq, Option.bind_eq_some, Option.map_eq_some'] at h
      obtain ⟨dt, -, dtext, -, cur, -, rfl⟩ := h
      obtain ⟨p, hp, ht⟩ := nc_rpc_build_rpcMsg E text _ _ hparse
      exact ⟨p, hp, ht, rfl⟩
    | some ds =>
      rw [nc_rpc_copyconfig_named E.toLibXml2 source target data ds hs] at h
      simp only [Exec.ret.injEq] at h
      split_ifs at h
      simp only [Option.map_eq_some'] at h
      obtain ⟨dt, -, rfl⟩ := h
      obtain ⟨p, hp, ht⟩ := nc_rpc_build_rpcMsg E text _ _ hparse
      exact ⟨p, hp, ht, rfl⟩
  · intro target h
    rw [nc_rpc_deleteconfig_eq] at h
    simp only [Exec.ret.injEq] at h
    split_ifs at h
    simp only [Option.map_eq_some'] at h
    obtain ⟨dt, -, rfl⟩ := h
    obtain ⟨p, hp, ht⟩ := nc_rpc_build_rpcMsg E text _ _ hparse
    exact ⟨p, hp, ht, rfl⟩
  · intro target h
    rw [nc_rpc_lock_eq] at h
    simp only [Exec.ret.injEq, Option.map_eq_some'] at h
    obtain ⟨dt, -, rfl⟩ := h
    obtain ⟨p, hp, ht⟩ := nc_rpc_build_rpcMsg E text _ _ hparse
    exact ⟨p, hp, ht, rfl⟩
  · intro target h
    rw [nc_rpc_unlock_eq] at h
    simp only [Exec.ret.injEq, Option.map_eq_some'] at h
    obtain ⟨dt, -, rfl⟩ := h
    obtain ⟨p, hp, ht⟩ := nc_rpc_build_rpcMsg E text _ _ hparse
    exact ⟨p, hp, ht, rfl⟩
  · intro kill_sid h
    rw [nc_rpc_killsession_eq] at h
    cases kill_sid with
    | none => simp at h
    | some sid =>
      simp only [Exec.ret.injEq] at h
      split_ifs at h
      cases h
      obtain ⟨p, hp, ht⟩ := nc_rpc_build_rpcMsg E text _ _ hparse
      exact ⟨p, hp, ht, rfl⟩
  · intro h
    rw [nc_rpc_closesession_eq] at h
    cases h
    obtain ⟨p, hp, ht⟩ := nc_rpc_build_rpcMsg E text _ _ hparse
    exact ⟨p, hp, ht, rfl⟩

/-- Witness of C35: the request built by `nc_rpc_get` without a filter, and its
text with the XML declaration. -/
theorem nc_rpc_build_type_of_built_witness :
    ∃ p, nc_rpc_build sampleEnv
        "<?xml version=\"1.0\" encoding=\"UTF-8\"?><rpc message-id=\"\"><get/></rpc>" =
        .ret (some p) ∧
      p.type = (rpcMsg (elem "get" []) .NC_RPC_DATASTORE_READ).type ∧
      (rpcMsg (elem "get" []) .NC_RPC_DATASTORE_READ).type = .rpc .NC_RPC_DATASTORE_READ :=
  (nc_rpc_build_type_of_built sampleEnv (rpcMsg (elem "get" []) .NC_RPC_DATASTORE_READ)
    "<?xml version=\"1.0\" encoding=\"UTF-8\"?><rpc message-id=\"\"><get/></rpc>" rfl).1
    none rfl

/-- C37: for a named source, a named target other than the source and any two
data arguments, `nc_rpc_copyconfig` returns a message, the same for both. -/
theorem nc_rpc_copyconfig_data_unused (L : LibXml2) (s t : NC_DATASTORE)
    (d1 d2 : Option String) (hs : s ≠ .NC_DATASTORE_NONE) (ht : t ≠ .NC_DATASTORE_NONE)
    (hst : t ≠ s) :
    nc_rpc_copyconfig L s t d1 = nc_rpc_copyconfig L s t d2 ∧
      ∃ m, nc_rpc_copyconfig L s t d1 = .ret (some m) ∧
        nc_rpc_copyconfig L s t d2 = .ret (some m) := by
  cases hds : datastoreName s with
  | none => cases s <;> simp_all [datastoreName]
  | some ds =>
    cases hdt : datastoreName t with
    | none => cases t <;> simp_all [datastoreName]
    | some dt =>
      rw [nc_rpc_copyconfig_named L s t d1 ds hds, nc_rpc_copyconfig_named L s t d2 ds hds,
        hdt]
      simp [hst]

/-- Witness of C37: running to candidate, once with a malformed text and once
without data. -/
theorem nc_rpc_copyconfig_data_unused_witness :
    nc_rpc_copyconfig sampleEnv.toLibXml2 .NC_DATASTORE_RUNNING .NC_DATASTORE_CANDIDATE
        (some "<a>") =
      nc_rpc_copyconfig sampleEnv.toLibXml2 .NC_DATASTORE_RUNNING .NC_DATASTORE_CANDIDATE none ∧
    ∃ m, nc_rpc_copyconfig sampleEnv.toLibXml2 .NC_DATASTORE_RUNNING .NC_DATASTORE_CANDIDATE
        (some "<a>") = .ret (some m) ∧
      nc_rpc_copyconfig sampleEnv.toLibXml2 .NC_DATASTORE_RUNNING .NC_DATASTORE_CANDIDATE none =
        .ret (some m) :=
  nc_rpc_copyconfig_data_unused sampleEnv.toLibXml2 .NC_DATASTORE_RUNNING
    .NC_DATASTORE_CANDIDATE (some "<a>") none (by decide) (by decide) (by decide)

/-- C38: when `<data>text</data>` does not parse, `nc_reply_data(text)` returns a
reply of type `NC_REPLY_ERROR`, with an `rpc-error` payload, that holds the error
made by `nc_err_new(NC_ERR_OP_FAILED)` with the message "Configuration data seems
to be corrupted."; when it parses, to a document that starts with the element
`data`, the reply has the type `NC_REPLY_DATA` and that element as the one child
of `rpc-reply`. -/
theorem nc_reply_data_corrupted (E : Env) (text : String) :
    (E.xmlReadMemory ("<data>" ++ text ++ "</data>") dataOptions = none →
      ∃ m, nc_reply_data E (some text) = .ret (some m) ∧
        m.type = .reply .NC_REPLY_ERROR ∧
        m.error = some (E.nc_err_set (E.nc_err_new .NC_ERR_OP_FAILED) .NC_ERR_PARAM_MSG
          "Configuration data seems to be corrupted.") ∧
        (payloadOf (.ret (some m))).map xmlNode.name = some "rpc-error") ∧
    (∀ (doc : xmlDoc) (node : xmlNode) (rest : List xmlNode),
      E.xmlReadMemory ("<data>" ++ text ++ "</data>") dataOptions = some doc →
      doc.children = node :: rest → node.type = .XML_ELEMENT_NODE → node.name = "data" →
      ∃ m root, nc_reply_data E (some text) = .ret (some m) ∧
        m.type = .reply .NC_REPLY_DATA ∧ rootOf (.ret (some m)) = some root ∧
        root.name = "rpc-reply" ∧ root.children = [node]) := by
  constructor
  · intro hparse
    have hparse' : E.xmlReadMemory ("<data>" ++ text ++ "</data>")
        (XML_PARSE_NOERROR ||| XML_PARSE_NOWARNING) = none := hparse
    refine ⟨⟨some (envelope "rpc-reply" (rpcErrorElem E.toLibXml2
      (E.nc_err_set (E.nc_err_new .NC_ERR_OP_FAILED) .NC_ERR_PARAM_MSG
        "Configuration data seems to be corrupted."))), none, .reply .NC_REPLY_ERROR,
      some (E.nc_err_set (E.nc_err_new .NC_ERR_OP_FAILED) .NC_ERR_PARAM_MSG
        "Configuration data seems to be corrupted.")⟩, ?_, rfl, rfl, rfl⟩
    simp only [nc_reply_data, hparse']
    exact nc_reply_error_eq _ _
  · intro doc node rest hparse hdoc hty hname
    have hparse' : E.xmlReadMemory ("<data>" ++ text ++ "</data>")
        (XML_PARSE_NOERROR ||| XML_PARSE_NOWARNING) = some doc := hparse
    have hcopy : node.type ≠ .XML_DTD_NODE := by rw [hty]; decide
    refine ⟨replyMsg node .NC_REPLY_DATA, _, ?_, rfl, rfl, rfl, rfl⟩
    simp only [nc_reply_data, hparse', hdoc, List.head?, nc_reply_create,
      nc_msg_create_eq node "rpc-reply" hcopy, setReplyType, deref, Exec.ret_bind, Exec.pure_eq]
    rfl

/-- Witness of C38: the text `<a>`, which does not parse inside `data`, and the
text `<a/><b/><c/>`, which does. -/
theorem nc_reply_data_corrupted_witness :
    (∃ m, nc_reply_data sampleEnv (some "<a>") = .ret (some m) ∧
        m.type = .reply .NC_REPLY_ERROR ∧
        m.error = some (sampleEnv.nc_err_set (sampleEnv.nc_err_new .NC_ERR_OP_FAILED)
          .NC_ERR_PARAM_MSG "Configuration data seems to be corrupted.") ∧
        (payloadOf (.ret (some m))).map xmlNode.name = some "rpc-error") ∧
    ∃ m root, nc_reply_data sampleEnv (some "<a/><b/><c/>") = .ret (some m) ∧
      m.type = .reply .NC_REPLY_DATA ∧ rootOf (.ret (some m)) = some root ∧
      root.name = "rpc-reply" ∧
      root.children = [elem "data" [elem "a" [], elem "b" [], elem "c" []]] :=
  ⟨(nc_reply_data_corrupted sampleEnv "<a>").1 rfl,
   (nc_reply_data_corrupted sampleEnv "<a/><b/><c/>").2
     (parsedDoc [elem "data" [elem "a" [], elem "b" [], elem "c" []]])
     (elem "data" [elem "a" [], elem "b" [], elem "c" []]) [] rfl rfl rfl rfl⟩

/-- C36 (what the code does): for an edit-config rpc whose `default-operation`
(`error-option`) element is present and has no child, `nc_rpc_get_defop`
(`nc_rpc_get_erropt`) reads `defop->children->content` through the `NULL` pointer
`defop->children`: the run ends in a fault.  When the element has a first child
whose content is none of the three known texts, the result is merge
(stop-on-error). -/
theorem nc_rpc_get_option_empty (rpc : nc_msg) (doc : xmlDoc) (root op : xmlNode)
    (rest more : List xmlNode) (hdoc : rpc.doc = some doc) (htop : doc.children = root :: rest)
    (hty : root.type = .XML_ELEMENT_NODE) (hname : root.name = "rpc")
    (hop : root.children = op :: more) (hopname : op.name = "edit-config") :
    (∀ defop, findByName op.children "default-operation" = some defop → defop.children = [] →
      nc_rpc_get_defop (some rpc) = .segv) ∧
    (∀ erropt, findByName op.children "error-option" = some erropt → erropt.children = [] →
      nc_rpc_get_erropt (some rpc) = .segv) ∧
    (∀ defop first others, findByName op.children "default-operation" = some defop →
      defop.children = first :: others → first.content ≠ some "merge" →
      first.content ≠ some "replace" → first.content ≠ some "none" →
      nc_rpc_get_defop (some rpc) = .ret .NC_EDIT_DEFOP_MERGE) ∧
    (∀ erropt first others, findByName op.children "error-option" = some erropt →
      erropt.children = first :: others → first.content ≠ some "stop-on-error" →
      first.content ≠ some "continue-on-error" → first.content ≠ some "rollback-on-error" →
      nc_rpc_get_erropt (some rpc) = .ret .NC_EDIT_ERROPT_STOP) := by
  have hstr : ∀ (c : Option String) (s : String), c ≠ some s → xmlStrEqual c (some s) = false := by
    intro c s h
    cases c with
    | none => rfl
    | some v =>
      have : v ≠ s := fun e => h (by rw [e])
      simpa [xmlStrEqual] using this
  have hrpc : xmlStrEqual (some "rpc") (some "rpc") = true := rfl
  refine ⟨?_, ?_, ?_, ?_⟩
  · intro defop hfind hkids
    simp [nc_rpc_get_defop, nc_rpc_get_op, hdoc, htop, deref, hname, hop, hopname,
      xmlDocGetRootElement, hty, xmlStrEqual, hfind, hkids]
  · intro erropt hfind hkids
    simp [nc_rpc_get_erropt, nc_rpc_get_op, hdoc, htop, deref, hname, hop, hopname,
      xmlDocGetRootElement, hty, xmlStrEqual, hfind, hkids]
  · intro defop first others hfind hkids h1 h2 h3
    have e1 := hstr _ _ h1
    have e2 := hstr _ _ h2
    have e3 := hstr _ _ h3
    simp [nc_rpc_get_defop, nc_rpc_get_op, hdoc, htop, deref, hname, hop, hopname,
      xmlDocGetRootElement, hty, hfind, hkids, e1, e2, e3, hrpc]
  · intro erropt first others hfind hkids h1 h2 h3
    have e1 := hstr _ _ h1
    have e2 := hstr _ _ h2
    have e3 := hstr _ _ h3
    simp [nc_rpc_get_erropt, nc_rpc_get_op, hdoc, htop, deref, hname, hop, hopname,
      xmlDocGetRootElement, hty, hfind, hkids, e1, e2, e3, hrpc]

/-- Witness of C36: an edit-config with an empty `default-operation` and an empty
`error-option`, and one with the texts `append` and `abort`. -/
theorem nc_rpc_get_option_empty_witness :
    nc_rpc_get_defop (some (rpcMsg (elem "edit-config" [datastoreElem "target" "running",
        elem "default-operation" [], elem "error-option" [], elem "config" [elem "a" []]])
        .NC_RPC_DATASTORE_WRITE)) = .segv ∧
    nc_rpc_get_erropt (some (rpcMsg (elem "edit-config" [datastoreElem "target" "running",
        elem "default-operation" [], elem "error-option" [], elem "config" [elem "a" []]])
        .NC_RPC_DATASTORE_WRITE)) = .segv ∧
    nc_rpc_get_defop (some (rpcMsg (elem "edit-config" [datastoreElem "target" "running",
        elem "default-operation" [xmlNewText "append"], elem "error-option" [xmlNewText "abort"],
        elem "config" [elem "a" []]]) .NC_RPC_DATASTORE_WRITE)) = .ret .NC_EDIT_DEFOP_MERGE ∧
    nc_rpc_get_erropt (some (rpcMsg (elem "edit-config" [datastoreElem "target" "running",
        elem "default-operation" [xmlNewText "append"], elem "error-option" [xmlNewText "abort"],
        elem "config" [elem "a" []]]) .NC_RPC_DATASTORE_WRITE)) = .ret .NC_EDIT_ERROPT_STOP :=
  ⟨(nc_rpc_get_option_empty _ _
      (.mk .XML_ELEMENT_NODE "rpc" none [] [⟨"message-id", ""⟩]
        [elem "edit-config" [datastoreElem "target" "running",
          elem "default-operation" [], elem "error-option" [], elem "config" [elem "a" []]]])
      (elem "edit-config" [datastoreElem "target" "running",
        elem "default-operation" [], elem "error-option" [], elem "config" [elem "a" []]])
      [] [] rfl rfl rfl rfl rfl rfl).1 (elem "default-operation" []) rfl rfl,
   (nc_rpc_get_option_empty _ _
      (.mk .XML_ELEMENT_NODE "rpc" none [] [⟨"message-id", ""⟩]
        [elem "edit-config" [datastoreElem "target" "running",
          elem "default-operation" [], elem "error-option" [], elem "config" [elem "a" []]]])
      (elem "edit-config" [datastoreElem "target" "running",
        elem "default-operation" [], elem "error-option" [], elem "config" [elem "a" []]])
      [] [] rfl rfl rfl rfl rfl rfl).2.1 (elem "error-option" []) rfl rfl,
   (nc_rpc_get_option_empty _ _
      (.mk .XML_ELEMENT_NODE "rpc" none [] [⟨"message-id", ""⟩]
        [elem "edit-config" [datastoreElem "target" "running",
          elem "default-operation" [xmlNewText "append"],
          elem "error-option" [xmlNewText "abort"], elem "config" [elem "a" []]]])
      (elem "edit-config" [datastoreElem "target" "running",
        elem "default-operation" [xmlNewText "append"],
        elem "error-option" [xmlNewText "abort"], elem "config" [elem "a" []]])
      [] [] rfl rfl rfl rfl rfl rfl).2.2.1 (elem "default-operation" [xmlNewText "append"])
      (xmlNewText "append") [] rfl rfl (by decide) (by decide) (by decide),
   (nc_rpc_get_option_empty _ _
      (.mk .XML_ELEMENT_NODE "rpc" none [] [⟨"message-id", ""⟩]
        [elem "edit-config" [datastoreElem "target" "running",
          elem "default-operation" [xmlNewText "append"],
          elem "error-option" [xmlNewText "abort"], elem "config" [elem "a" []]]])
      (elem "edit-config" [datastoreElem "target" "running",
        elem "default-operation" [xmlNewText "append"],
        elem "error-option" [xmlNewText "abort"], elem "config" [elem "a" []]])
      [] [] rfl rfl rfl rfl rfl rfl).2.2.2 (elem "error-option" [xmlNewText "abort"])
      (xmlNewText "abort") [] rfl rfl (by decide) (by decide) (by decide)⟩

/-! ## The arglist of the client -/

theorem realloc_grow (list : List arg_slot) (n : Nat) :
    realloc list (list.length + n) = list ++ List.replicate n .uninit := by
  unfold realloc
  rw [List.take_of_length_le (Nat.le_add_right _ _), Nat.add_sub_cancel_left]

theorem store_words (ws : List String) (v old : arg_slot) (tail : List arg_slot) :
    store (ws.map .word ++ old :: tail) ws.length v = .ret (ws.map .word ++ v :: tail) := by
  unfold store
  have hlen : ws.length < (ws.map arg_slot.word ++ old :: tail).length := by simp
  rw [if_pos hlen]
  have h : (List.map arg_slot.word ws).length ≤ ws.length := by simp
  rw [List.set_append_right _ _ h]
  simp

theorem addargs_write (ws : List String) (aux : String) (t : arg_slot) (rest : List arg_slot)
    (size : Nat) (hsize : size = ws.length + 1 + (rest.length + 1)) :
    (do
      let list ← deref (some (ws.map arg_slot.word ++ arg_slot.null :: t :: rest))
      let list ← store list ws.length (arg_slot.word aux)
      let list ← store list (ws.length + 1) arg_slot.null
      pure ({ list := some list, count := ws.length + 1, size := size } : arglist)) =
    Exec.ret { list := some ((ws ++ [aux]).map arg_slot.word ++ arg_slot.null :: rest),
               count := (ws ++ [aux]).length,
               size := (ws ++ [aux]).length + 1 + rest.length } := by
  have h1 := store_words ws (.word aux) .null (t :: rest)
  have h2 := store_words (ws ++ [aux]) .null t rest
  simp only [List.map_append, List.map_cons, List.map_nil, List.append_assoc,
    List.singleton_append, List.length_append, List.length_singleton] at h2
  simp only [deref, Exec.ret_bind, h1, h2, Exec.pure_eq, List.map_append, List.map_cons,
    List.map_nil, List.append_assoc, List.singleton_append, List.length_append,
    List.length_singleton, hsize]
  refine congrArg Exec.ret ?_
  simp only [arglist.mk.injEq, true_and]
  omega

theorem addargs_word_stored (args : arglist) (ws : List String) (aux : String)
    (h : stored args ws) :
    ∃ next, addargs_word args aux = .ret next ∧ stored next (ws ++ [aux]) := by
  rcases h with ⟨rfl, rfl⟩ | ⟨hne, tail, htail, rfl⟩
  · refine ⟨{ list := some (.word aux :: .null :: List.replicate 6 .uninit), count := 1,
              size := 8 }, rfl, Or.inr ⟨by simp, List.replicate 6 .uninit, by simp, rfl⟩⟩
  · cases tail with
    | nil => exact absurd rfl htail
    | cons t rest =>
      by_cases hgrow : ws.length + 2 ≥ ws.length + 1 + (t :: rest).length
      · have hrealloc : realloc (ws.map arg_slot.word ++ arg_slot.null :: t :: rest)
            (ws.length + 1 + (t :: rest).length + 8) =
            ws.map arg_slot.word ++ arg_slot.null :: t :: (rest ++ List.replicate 8 .uninit) := by
          have := realloc_grow (ws.map arg_slot.word ++ arg_slot.null :: t :: rest) 8
          simp only [List.length_append, List.length_map, List.length_cons] at this
          have e : ws.length + 1 + (t :: rest).length + 8 =
              ws.length + (rest.length + 1 + 1) + 8 := by
            simp only [List.length_cons]
            omega
          rw [e, this]
          simp
        refine ⟨_, ?_, Or.inr ⟨by simp, rest ++ List.replicate 8 .uninit, by simp, rfl⟩⟩
        unfold addargs_word addargs_room
        simp only [hgrow, if_true, hrealloc]
        apply addargs_write
        simp only [List.length_cons, List.length_append, List.length_replicate]
        omega
      · have hrest : rest ≠ [] := by
          intro hr
          subst hr
          simp at hgrow
        refine ⟨_, ?_, Or.inr ⟨by simp, rest, hrest, rfl⟩⟩
        unfold addargs_word addargs_room
        simp only [hgrow, if_false]
        apply addargs_write
        simp only [List.length_cons]

theorem splitOnP_blank_out (l : List Char) :
    (blank_out l).splitOnP (fun c => c = ' ') = l.splitOnP is_blank := by
  induction l with
  | nil => rfl
  | cons x xs ih =>
    unfold blank_out at ih ⊢
    rw [List.map_cons, List.splitOnP_cons, List.splitOnP_cons, ih]
    by_cases hx : x = '\n' ∨ x = '\t'
    · have hb : is_blank x = true := by
        unfold is_blank
        rcases hx with h | h <;> simp [h]
      simp [hx, hb]
    · have hb : is_blank x = decide (x = ' ') := by
        unfold is_blank
        push_neg at hx
        simp [hx.1, hx.2]
      simp only [hx, if_false, hb]

theorem tokens_of_dropWhile (text : List Char) :
    tokens_of (text.dropWhile fun c => c = ' ') = tokens_of text := by
  induction text with
  | nil => rfl
  | cons x xs ih =>
    by_cases hx : x = ' '
    · rw [List.dropWhile_cons_of_pos (by simpa using hx), ih]
      unfold tokens_of
      rw [List.splitOnP_cons]
      simp [hx]
    · rw [List.dropWhile_cons_of_neg (by simpa using hx)]

theorem splitOnP_takeWhile (text : List Char) :
    text.splitOnP (fun c => c = ' ') =
      text.takeWhile (fun c => c ≠ ' ') ::
        (match text.dropWhile (fun c => c ≠ ' ') with
          | [] => []
          | _ :: rest => rest.splitOnP (fun c => c = ' ')) := by
  induction text with
  | nil => rfl
  | cons x xs ih =>
    rw [List.splitOnP_cons]
    by_cases hx : x = ' '
    · simp [hx]
    · rw [ih]
      simp [hx]

theorem strtok_none (text : List Char) (h : strtok text = none) : tokens_of text = [] := by
  unfold strtok at h
  rw [← tokens_of_dropWhile]
  cases hd : text.dropWhile (fun c => c = ' ') with
  | nil => rfl
  | cons c cs =>
    rw [hd] at h
    simp at h

theorem strtok_some (text aux rest : List Char) (h : strtok text = some (aux, rest)) :
    aux ≠ [] ∧ rest.length < text.length ∧ tokens_of text = String.mk aux :: tokens_of rest := by
  unfold strtok at h
  cases hd : text.dropWhile (fun c => c = ' ') with
  | nil =>
    rw [hd] at h
    simp at h
  | cons c cs =>
    rw [hd] at h
    simp only [Option.some.injEq, Prod.mk.injEq] at h
    obtain ⟨haux, hrest⟩ := h
    have hc : ¬ (c = ' ') := by
      have := List.head_dropWhile_not (fun c => decide (c = ' ')) text (by rw [hd]; simp)
      simpa [hd] using this
    have htake : List.takeWhile (fun c => decide (c ≠ ' ')) (c :: cs) =
        c :: List.takeWhile (fun c => decide (c ≠ ' ')) cs := by
      rw [List.takeWhile_cons]
      simp [hc]
    have hdrop : List.dropWhile (fun c => decide (c ≠ ' ')) (c :: cs) =
        List.dropWhile (fun c => decide (c ≠ ' ')) cs :=
      List.dropWhile_cons_of_pos (by simpa using hc)
    have hlen : (c :: cs).length ≤ text.length := by
      rw [← hd]
      exact (List.dropWhile_sublist _).length_le
    have hlen2 : (List.dropWhile (fun c => decide (c ≠ ' ')) cs).length ≤ cs.length :=
      (List.dropWhile_sublist _).length_le
    have hne : aux ≠ [] := by
      rw [← haux, htake]
      simp
    refine ⟨hne, ?_, ?_⟩
    · rw [← hrest, hdrop, List.length_tail]
      simp only [List.length_cons] at hlen
      omega
    · rw [← tokens_of_dropWhile, hd]
      unfold tokens_of
      rw [splitOnP_takeWhile (c :: cs), haux, List.filter_cons_of_pos (by simpa using hne),
        List.map_cons]
      congr 2
      rw [← hrest]
      cases List.dropWhile (fun c => decide (c ≠ ' ')) (c :: cs) with
      | nil => rfl
      | cons d r => rfl

theorem addargs_loop_stored (fuel : Nat) (args : arglist) (text : List Char) (ws : List String)
    (hfuel : text.length < fuel) (h : stored args ws) :
    ∃ next, addargs_loop fuel args text = .ret next ∧ stored next (ws ++ tokens_of text) := by
  induction fuel generalizing args text ws with
  | zero => exact absurd hfuel (Nat.not_lt_zero _)
  | succ fuel ih =>
    unfold addargs_loop
    cases hs : strtok text with
    | none =>
      rw [strtok_none text hs, List.append_nil]
      exact ⟨args, rfl, h⟩
    | some tok =>
      obtain ⟨aux, rest⟩ := tok
      obtain ⟨hne, hlen, htok⟩ := strtok_some text aux rest hs
      obtain ⟨mid, hmid, hstored⟩ := addargs_word_stored args ws (String.mk aux) h
      obtain ⟨next, hnext, hfinal⟩ := ih mid rest (ws ++ [String.mk aux]) (by omega) hstored
      refine ⟨next, ?_, ?_⟩
      · simp only [hne, if_false, hmid, Exec.ret_bind]
        exact hnext
      · rw [htok]
        simpa using hfinal

theorem tokens_of_blank_out (s : String) : tokens_of (blank_out s.toList) = words_of s := by
  unfold tokens_of words_of
  rw [splitOnP_blank_out]

theorem addargs_stored (args : arglist) (ws : List String) (s : String) (h : stored args ws) :
    ∃ next, addargs (some args) s = .ret (some next) ∧ stored next (ws ++ words_of s) := by
  obtain ⟨next, hnext, hfinal⟩ :=
    addargs_loop_stored ((blank_out s.toList).length + 1) args (blank_out s.toList) ws
      (Nat.lt_succ_self _) h
  rw [tokens_of_blank_out] at hfinal
  refine ⟨next, ?_, hfinal⟩
  simp only [addargs, hnext, Exec.ret_bind, Exec.pure_eq]

theorem addargs_calls_stored (texts : List String) (args : arglist) (ws : List String)
    (h : stored args ws) :
    ∃ next, addargs_calls (some args) texts = .ret (some next) ∧
      stored next (ws ++ (texts.map words_of).flatten) := by
  induction texts generalizing args ws with
  | nil => exact ⟨args, rfl, by simpa using h⟩
  | cons s rest ih =>
    obtain ⟨mid, hmid, hstored⟩ := addargs_stored args ws s h
    obtain ⟨next, hnext, hfinal⟩ := ih mid (ws ++ words_of s) hstored
    refine ⟨next, ?_, by simpa using hfinal⟩
    simp only [addargs_calls, hmid, Exec.ret_bind]
    exact hnext

theorem get_words (ws : List String) (v : arg_slot) (tail : List arg_slot) :
    (ws.map arg_slot.word ++ v :: tail).get? ws.length = some v := by
  induction ws with
  | nil => rfl
  | cons w ws ih => simpa using ih

theorem take_words (ws : List String) (rest : List arg_slot) :
    (ws.map arg_slot.word ++ rest).take ws.length = ws.map arg_slot.word := by
  simp

/-- C34: for every text, `addargs` on an empty arglist returns; `count` is the
number of words of the text, its maximal non-empty runs of characters other
than space, tab and newline; without a word the arglist stays empty (no list,
count 0); otherwise the array holds the words in their order at the indices
below `count` and `NULL` at the index `count`. -/
theorem addargs_words (s : String) (args : arglist) :
    ∃ next, addargs (init_arglist (some args)) s = .ret (some next) ∧
      next.count = (words_of s).length ∧
      (words_of s = [] → next = { list := none, count := 0, size := 0 }) ∧
      (words_of s ≠ [] → ∃ list, next.list = some list ∧
        list.take next.count = (words_of s).map arg_slot.word ∧
        list.get? next.count = some arg_slot.null) := by
  obtain ⟨next, hnext, hstored⟩ :=
    addargs_stored { list := none, count := 0, size := 0 } [] s (Or.inl ⟨rfl, rfl⟩)
  rw [List.nil_append] at hstored
  refine ⟨next, hnext, ?_, ?_, ?_⟩
  · rcases hstored with ⟨hw, rfl⟩ | ⟨-, tail, -, rfl⟩
    · rw [hw]
      rfl
    · rfl
  · intro hw
    rcases hstored with ⟨-, rfl⟩ | ⟨hne, -⟩
    · rfl
    · exact absurd hw hne
  · intro hw
    rcases hstored with ⟨he, -⟩ | ⟨-, tail, -, rfl⟩
    · exact absurd he hw
    · exact ⟨_, rfl, take_words _ _, get_words _ _ _⟩

/-- C39: after every sequence of calls of `addargs` on an initialised arglist
the run has returned, and when the list is allocated its array has `size` slots
and `count + 1 <= size`; in the next round of the loop, after the allocation
step, both indices that are written, `count` and `count + 1`, are below the
number of allocated slots, and the round returns. -/
theorem addargs_capacity (texts : List String) (args : arglist) :
    ∃ next, addargs_calls (init_arglist (some args)) texts = .ret (some next) ∧
      (∀ list, next.list = some list → list.length = next.size ∧ next.count + 1 ≤ next.size) ∧
      (∃ list, (addargs_room next).list = some list ∧
        list.length = (addargs_room next).size ∧
        (addargs_room next).count + 1 < list.length) ∧
      (∀ aux, ∃ after, addargs_word next aux = .ret after) := by
  obtain ⟨next, hnext, hstored⟩ :=
    addargs_calls_stored texts { list := none, count := 0, size := 0 } [] (Or.inl ⟨rfl, rfl⟩)
  generalize [] ++ (texts.map words_of).flatten = ws at hstored
  refine ⟨next, hnext, ?_, ?_, ?_⟩
  · intro list hlist
    rcases hstored with ⟨-, rfl⟩ | ⟨-, tail, htail, rfl⟩
    · simp at hlist
    · simp only [Option.some.injEq] at hlist
      subst hlist
      simp only [List.length_append, List.length_map, List.length_cons]
      omega
  · rcases hstored with ⟨-, rfl⟩ | ⟨-, tail, htail, rfl⟩
    · exact ⟨_, rfl, rfl, by decide⟩
    · cases tail with
      | nil => exact absurd rfl htail
      | cons t rest =>
        unfold addargs_room
        simp only
        split_ifs with hg
        · refine ⟨_, rfl, ?_, ?_⟩
          · simp [realloc]
            omega
          · simp [realloc]
            omega
        · refine ⟨_, rfl, ?_, ?_⟩
          · simp only [List.length_append, List.length_map, List.length_cons]
            omega
          · simp only [List.length_append, List.length_map, List.length_cons] at hg ⊢
            omega
  · intro aux
    obtain ⟨after, hafter, -⟩ := addargs_word_stored next _ aux hstored
    exact ⟨after, hafter⟩

/-! ## The command `get-config` of the client -/

theorem argv_stored (cmd : arglist) (ws : List String) (h : stored cmd ws) :
    argv cmd = ws ∧ cmd.count = ws.length := by
  rcases h with ⟨rfl, rfl⟩ | ⟨-, tail, -, rfl⟩
  · exact ⟨rfl, rfl⟩
  · refine ⟨?_, rfl⟩
    simp only [argv, Option.getD_some, take_words]
    induction ws with
    | nil => rfl
    | cons w ws ih => simpa using ih

theorem validate_argument_eq (session : nc_session) (datastore : String) :
    validate_argument session datastore =
      if datastore = "running" then some .NC_DATASTORE_RUNNING
      else if datastore = "startup" ∧ nc_cpblts_enabled session NC_CAP_STARTUP_ID = true then
        some .NC_DATASTORE_STARTUP
      else if datastore = "candidate" ∧ nc_cpblts_enabled session NC_CAP_CANDIDATE_ID = true then
        some .NC_DATASTORE_CANDIDATE
      else none := by
  unfold validate_argument
  by_cases h1 : datastore = "running"
  · subst h1
    simp
  · by_cases h2 : datastore = "startup"
    · subst h2
      by_cases hs : nc_cpblts_enabled session NC_CAP_STARTUP_ID = true <;> simp [hs]
    · by_cases h3 : datastore = "candidate"
      · subst h3
        by_cases hc : nc_cpblts_enabled session NC_CAP_CANDIDATE_ID = true <;> simp [hc]
      · simp [h1, h2, h3]

theorem validate_argument_offered (session : nc_session) (datastore : String)
    (target : NC_DATASTORE) (h : validate_argument session datastore = some target) :
    target = .NC_DATASTORE_RUNNING ∨
    (target = .NC_DATASTORE_STARTUP ∧ nc_cpblts_enabled session NC_CAP_STARTUP_ID = true) ∨
    (target = .NC_DATASTORE_CANDIDATE ∧
      nc_cpblts_enabled session NC_CAP_CANDIDATE_ID = true) := by
  rw [validate_argument_eq] at h
  split_ifs at h with h1 h2 h3
  · exact Or.inl (Option.some.inj h).symm
  · exact Or.inr (Or.inl ⟨(Option.some.inj h).symm, h2.2⟩)
  · exact Or.inr (Or.inr ⟨(Option.some.inj h).symm, h3.2⟩)

theorem userinput_run_offered (session : nc_session) (input : List String)
    (filter filter' : Option nc_filter) (target : NC_DATASTORE)
    (h : userinput_run session input filter = .request target filter') :
    target = .NC_DATASTORE_RUNNING ∨
    (target = .NC_DATASTORE_STARTUP ∧ nc_cpblts_enabled session NC_CAP_STARTUP_ID = true) ∨
    (target = .NC_DATASTORE_CANDIDATE ∧
      nc_cpblts_enabled session NC_CAP_CANDIDATE_ID = true) := by
  unfold userinput_run at h
  induction input with
  | nil => simp [userinput] at h
  | cons datastore input ih =>
    unfold userinput at h
    cases hv : validate_argument session datastore with
    | none =>
      rw [hv] at h
      exact ih h
    | some t =>
      rw [hv] at h
      simp only [getconfig_run.request.injEq] at h
      rw [← h.1]
      exact validate_argument_offered session datastore t hv

theorem cmd_getconfig_eq (T : Terminal) (session : nc_session) (arg : String)
    (input : List String) :
    cmd_getconfig T (some session) arg input =
      match T.scan_options (words_of arg) with
      | .filter_failed => .ret .failure
      | .help => .ret .success
      | .unknown => .ret .failure
      | .done filter list optind =>
        if optind = (words_of arg).length then .ret (userinput_run session input filter)
        else if optind + 1 = (words_of arg).length then
          match list.get? optind with
          | none => .segv
          | some datastore =>
            match validate_argument session datastore with
            | some target => .ret (.request target filter)
            | none => .ret (userinput_run session input filter)
        else .ret .failure := by
  obtain ⟨cmd, hcmd, hstored⟩ :=
    addargs_stored { list := none, count := 0, size := 0 } [] arg (Or.inl ⟨rfl, rfl⟩)
  rw [List.nil_append] at hstored
  obtain ⟨hargv, hcount⟩ := argv_stored cmd _ hstored
  have hinit : init_arglist (some { list := none, count := 0, size := 0 }) =
      some { list := none, count := 0, size := 0 } := rfl
  simp only [cmd_getconfig, hinit, hcmd, Exec.ret_bind, deref, hargv, hcount]
  cases T.scan_options (words_of arg) with
  | filter_failed => rfl
  | help => rfl
  | unknown => rfl
  | done filter list optind =>
    simp only
    split_ifs
    · rfl
    · cases list.get? optind with
      | none => rfl
      | some datastore =>
        simp only [deref, Exec.ret_bind]
        cases validate_argument session datastore <;> rfl
    · rfl

/-- C33: when `cmd_getconfig` finds one argument behind the options, the name of
a datastore, it calls `nc_rpc_getconfig` for it in these cases: `running` always
(target Running), `startup` when the session has the startup capability (target
Startup), `candidate` when it has the candidate capability (target Candidate);
for every other name, and for startup and candidate without the capability, the
run goes on as without an argument, asking the user.  Whatever the command line
and the input are, the target of a call is Running, or Startup with the startup
capability, or Candidate with the candidate capability. -/
theorem cmd_getconfig_datastore (T : Terminal) (session : nc_session) (arg : String)
    (input : List String) (filter : Option nc_filter) (list : List String) (optind : Nat)
    (name : String) (hscan : T.scan_options (words_of arg) = .done filter list optind)
    (hone : optind + 1 = (words_of arg).length) (hname : list.get? optind = some name) :
    (name = "running" →
      cmd_getconfig T (some session) arg input =
        .ret (.request .NC_DATASTORE_RUNNING filter)) ∧
    (name = "startup" → nc_cpblts_enabled session NC_CAP_STARTUP_ID = true →
      cmd_getconfig T (some session) arg input =
        .ret (.request .NC_DATASTORE_STARTUP filter)) ∧
    (name = "candidate" → nc_cpblts_enabled session NC_CAP_CANDIDATE_ID = true →
      cmd_getconfig T (some session) arg input =
        .ret (.request .NC_DATASTORE_CANDIDATE filter)) ∧
    (name ≠ "running" →
      ¬ (name = "startup" ∧ nc_cpblts_enabled session NC_CAP_STARTUP_ID = true) →
      ¬ (name = "candidate" ∧ nc_cpblts_enabled session NC_CAP_CANDIDATE_ID = true) →
      cmd_getconfig T (some session) arg input = .ret (userinput_run session input filter)) ∧
    (∀ (T' : Terminal) (arg' : String) (input' : List String) (target : NC_DATASTORE)
      (filter' : Option nc_filter),
      cmd_getconfig T' (some session) arg' input' = .ret (.request target filter') →
      target = .NC_DATASTORE_RUNNING ∨
      (target = .NC_DATASTORE_STARTUP ∧ nc_cpblts_enabled session NC_CAP_STARTUP_ID = true) ∨
      (target = .NC_DATASTORE_CANDIDATE ∧
        nc_cpblts_enabled session NC_CAP_CANDIDATE_ID = true)) := by
  have hne : optind ≠ (words_of arg).length := by omega
  have hrun : cmd_getconfig T (some session) arg input =
      match validate_argument session name with
      | some target => .ret (.request target filter)
      | none => .ret (userinput_run session input filter) := by
    rw [cmd_getconfig_eq, hscan]
    simp only [hne, if_false, hone, if_true, hname]
  rw [validate_argument_eq] at hrun
  refine ⟨?_, ?_, ?_, ?_, ?_⟩
  · intro h
    rw [hrun, if_pos h]
  · intro h hcap
    subst h
    rw [hrun]
    simp [hcap]
  · intro h hcap
    subst h
    rw [hrun]
    simp [hcap]
  · intro h1 h2 h3
    rw [hrun, if_neg h1, if_neg h2, if_neg h3]
  · intro T' arg' input' target filter' h
    rw [cmd_getconfig_eq] at h
    cases hs : T'.scan_options (words_of arg') with
    | filter_failed => rw [hs] at h; simp at h
    | help => rw [hs] at h; simp at h
    | unknown => rw [hs] at h; simp at h
    | done f l o =>
      rw [hs] at h
      simp only at h
      split_ifs at h
      · simp only [Exec.ret.injEq] at h
        exact userinput_run_offered session input' f filter' target h
      · cases hg : l.get? o with
        | none => rw [hg] at h; simp at h
        | some datastore =>
          rw [hg] at h
          simp only at h
          cases hv : validate_argument session datastore with
          | none =>
            rw [hv] at h
            simp only [Exec.ret.injEq] at h
            exact userinput_run_offered session input' f filter' target h
          | some t =>
            rw [hv] at h
            simp only [Exec.ret.injEq, getconfig_run.request.injEq] at h
            rw [← h.1]
            exact validate_argument_offered session datastore t hv
      · simp at h

/-- Witness of C33: `get-config startup` in a session with the startup capability
only; the user would answer `candidate`, then `running`. -/
theorem cmd_getconfig_datastore_witness :
    cmd_getconfig sampleTerminal (some (sampleSession "1" [NC_CAP_STARTUP_ID]))
        "get-config startup" ["candidate", "running"] =
      .ret (.request .NC_DATASTORE_STARTUP none) ∧
    cmd_getconfig sampleTerminal (some (sampleSession "1" [NC_CAP_STARTUP_ID]))
        "get-config candidate" ["candidate", "running"] =
      .ret (userinput_run (sampleSession "1" [NC_CAP_STARTUP_ID]) ["candidate", "running"]
        none) ∧
    userinput_run (sampleSession "1" [NC_CAP_STARTUP_ID]) ["candidate", "running"] none =
      .request .NC_DATASTORE_RUNNING none :=
  ⟨(cmd_getconfig_datastore sampleTerminal (sampleSession "1" [NC_CAP_STARTUP_ID])
      "get-config startup" ["candidate", "running"] none ["get-config", "startup"] 1 "startup"
      rfl rfl rfl).2.1 rfl rfl,
   (cmd_getconfig_datastore sampleTerminal (sampleSession "1" [NC_CAP_STARTUP_ID])
      "get-config candidate" ["candidate", "running"] none ["get-config", "candidate"] 1
      "candidate" rfl rfl rfl).2.2.2.1 (by decide) (by decide) (by decide),
   rfl⟩

/-! ## The lock gateway -/

theorem lock_holder_append_free (table : List lock_record) (r : lock_record)
    (h : lock_holder table r.backend_id r.target = none) :
    lock_holder (table ++ [r]) r.backend_id r.target = some r.holder := by
  unfold lock_holder at h ⊢
  simp only [Option.map_eq_none'] at h
  rw [List.find?_append, h]
  simp

theorem lock_holder_released (table : List lock_record) (backend_id : ncds_id)
    (target : NC_DATASTORE) :
    lock_holder (table.filter fun r => ¬ (r.backend_id = backend_id ∧ r.target = target))
      backend_id target = none := by
  unfold lock_holder
  simp only [Option.map_eq_none', List.find?_eq_none]
  intro r hr
  have := (List.mem_filter.mp hr).2
  simp only [decide_not, Bool.not_eq_true', decide_eq_false_iff_not] at this
  simpa using this

theorem lock_records_free (table : List lock_record) (backend_id : ncds_id)
    (target : NC_DATASTORE) (h : lock_holder table backend_id target = none) :
    lock_records table backend_id target = [] := by
  unfold lock_holder at h
  simp only [Option.map_eq_none', List.find?_eq_none] at h
  unfold lock_records
  rw [List.filter_eq_nil_iff]
  exact h

theorem lock_records_filter_le (table : List lock_record) (q : lock_record → Bool)
    (backend_id : ncds_id) (target : NC_DATASTORE) :
    (lock_records (table.filter q) backend_id target).length ≤
      (lock_records table backend_id target).length := by
  unfold lock_records
  rw [List.filter_comm]
  exact List.length_filter_le _ _

theorem gateway_lock_table (table : List lock_record) (ds : ncds_ds) (session : nc_session)
    (target : NC_DATASTORE) :
    (gateway_lock table ds session target).2 = table ∨
    (lock_holder table ds.id target = none ∧
      (gateway_lock table ds session target).2 =
        table ++ [{ backend_id := ds.id, target := target, holder := session.session_id }]) := by
  unfold gateway_lock
  cases hh : lock_holder table ds.id target with
  | some holder =>
    left
    simp only
    split_ifs <;> rfl
  | none =>
    simp only
    cases ds.func.lock session target with
    | error e => exact Or.inl rfl
    | ok u => exact Or.inr ⟨trivial, rfl⟩

theorem gateway_unlock_table (table : List lock_record) (ds : ncds_ds) (session : nc_session)
    (target : NC_DATASTORE) :
    (gateway_unlock table ds session target).2 = table ∨
    (gateway_unlock table ds session target).2 =
      table.filter fun r => ¬ (r.backend_id = ds.id ∧ r.target = target) := by
  unfold gateway_unlock
  cases lock_holder table ds.id target with
  | none => exact Or.inl rfl
  | some holder =>
    simp only
    split_ifs
    · exact Or.inl rfl
    · cases ds.func.unlock session target with
      | error e => exact Or.inl rfl
      | ok u => exact Or.inr rfl

theorem gateway_step_records (table : List lock_record) (call : gateway_call)
    (h : ∀ backend_id target, (lock_records table backend_id target).length ≤ 1) :
    ∀ backend_id target, (lock_records (gateway_step table call) backend_id target).length ≤ 1 := by
  intro backend_id target
  cases call with
  | lock ds session t =>
    simp only [gateway_step]
    rcases gateway_lock_table table ds session t with heq | ⟨hfree, heq⟩
    · rw [heq]
      exact h backend_id target
    · rw [heq]
      unfold lock_records
      rw [List.filter_append]
      by_cases hk : ds.id = backend_id ∧ t = target
      · obtain ⟨rfl, rfl⟩ := hk
        have := lock_records_free table ds.id t hfree
        unfold lock_records at this
        rw [this]
        simp
      · have := h backend_id target
        unfold lock_records at this
        simpa [hk] using this
  | unlock ds session t =>
    simp only [gateway_step]
    rcases gateway_unlock_table table ds session t with heq | heq
    · rw [heq]
      exact h backend_id target
    · rw [heq]
      exact (lock_records_filter_le table _ backend_id target).trans (h _ _)
  | session_end session =>
    exact (lock_records_filter_le table _ backend_id target).trans (h _ _)

theorem gateway_run_records (calls : List gateway_call) (table : List lock_record)
    (h : ∀ backend_id target, (lock_records table backend_id target).length ≤ 1) :
    ∀ backend_id target,
      (lock_records (calls.foldl gateway_step table) backend_id target).length ≤ 1 := by
  induction calls generalizing table with
  | nil => exact h
  | cons call calls ih => exact ih _ (gateway_step_records table call h)

theorem gateway_lock_holder (table locked : List lock_record) (ds : ncds_ds)
    (session : nc_session) (target : NC_DATASTORE)
    (h : gateway_lock table ds session target = (.ok (), locked)) :
    lock_holder locked ds.id target = some session.session_id := by
  unfold gateway_lock at h
  cases hh : lock_holder table ds.id target with
  | some holder =>
    rw [hh] at h
    simp only at h
    split_ifs at h with hne
    · simp at h
    · simp only [Prod.mk.injEq, true_and] at h
      rw [← h, hh]
      push_neg at hne
      rw [hne]
  | none =>
    rw [hh] at h
    simp only at h
    cases hb : ds.func.lock session target with
    | error e => rw [hb] at h; simp at h
    | ok u =>
      rw [hb] at h
      simp only [Prod.mk.injEq, true_and] at h
      rw [← h]
      exact lock_holder_append_free table
        { backend_id := ds.id, target := target, holder := session.session_id } hh

/-- C32: for two distinct sessions A and B, a backend D and a target (Candidate
among them), after a successful lock by A a lock attempt by B fails with the
error that carries the identity of A and leaves the table as it is, a repeated
lock by A succeeds and leaves the table as it is, and after a successful unlock
by A a lock attempt by B that the backend grants succeeds and records B; in
every table reached from the empty one there is at most one record for each
pair of backend id and target. -/
theorem gateway_lock_exclusive (D : ncds_ds) (A B : nc_session) (target : NC_DATASTORE)
    (table locked : List lock_record) (hAB : A.session_id ≠ B.session_id)
    (hlock : gateway_lock table D A target = (.ok (), locked)) :
    gateway_lock locked D B target = (.error (.AlreadyLocked A.session_id), locked) ∧
    gateway_lock locked D A target = (.ok (), locked) ∧
    (∀ unlocked, gateway_unlock locked D A target = (.ok (), unlocked) →
      D.func.lock B target = .ok () →
      ∃ relocked, gateway_lock unlocked D B target = (.ok (), relocked) ∧
        lock_holder relocked D.id target = some B.session_id) ∧
    (∀ calls backend_id target',
      (lock_records (gateway_run calls) backend_id target').length ≤ 1) := by
  have hh := gateway_lock_holder table locked D A target hlock
  refine ⟨?_, ?_, ?_, ?_⟩
  · simp [gateway_lock, hh, hAB]
  · simp [gateway_lock, hh]
  · intro unlocked hunlock hgrant
    have hfree : lock_holder unlocked D.id target = none := by
      unfold gateway_unlock at hunlock
      rw [hh] at hunlock
      simp only [ne_eq, not_true_eq_false, if_false] at hunlock
      cases hb : D.func.unlock A target with
      | error e => rw [hb] at hunlock; simp at hunlock
      | ok u =>
        rw [hb] at hunlock
        simp only [Prod.mk.injEq, true_and] at hunlock
        rw [← hunlock]
        exact lock_holder_released locked D.id target
    have hrelock : gateway_lock unlocked D B target =
        (.ok (), unlocked ++ [{ backend_id := D.id, target := target,
                                holder := B.session_id }]) := by
      simp [gateway_lock, hfree, hgrant]
    exact ⟨_, hrelock, gateway_lock_holder unlocked _ D B target hrelock⟩
  · intro calls backend_id target'
    exact gateway_run_records calls [] (fun _ _ => Nat.zero_le _) backend_id target'

/-- Witness of C32: the sessions A and B at the sample backend, target
Candidate, from the empty table. -/
theorem gateway_lock_exclusive_witness :
    gateway_lock [⟨1, .NC_DATASTORE_CANDIDATE, "A"⟩] sampleDatastore (sampleSession "B" [])
        .NC_DATASTORE_CANDIDATE =
      (.error (.AlreadyLocked "A"), [⟨1, .NC_DATASTORE_CANDIDATE, "A"⟩]) ∧
    gateway_lock [⟨1, .NC_DATASTORE_CANDIDATE, "A"⟩] sampleDatastore (sampleSession "A" [])
        .NC_DATASTORE_CANDIDATE = (.ok (), [⟨1, .NC_DATASTORE_CANDIDATE, "A"⟩]) ∧
    (∃ relocked, gateway_lock [] sampleDatastore (sampleSession "B" [])
        .NC_DATASTORE_CANDIDATE = (.ok (), relocked) ∧
      lock_holder relocked sampleDatastore.id .NC_DATASTORE_CANDIDATE = some "B") :=
  ⟨(gateway_lock_exclusive sampleDatastore (sampleSession "A" []) (sampleSession "B" [])
      .NC_DATASTORE_CANDIDATE [] [⟨1, .NC_DATASTORE_CANDIDATE, "A"⟩] (by decide) rfl).1,
   (gateway_lock_exclusive sampleDatastore (sampleSession "A" []) (sampleSession "B" [])
      .NC_DATASTORE_CANDIDATE [] [⟨1, .NC_DATASTORE_CANDIDATE, "A"⟩] (by decide) rfl).2.1,
   (gateway_lock_exclusive sampleDatastore (sampleSession "A" []) (sampleSession "B" [])
      .NC_DATASTORE_CANDIDATE [] [⟨1, .NC_DATASTORE_CANDIDATE, "A"⟩] (by decide) rfl).2.2.1
      [] rfl rfl⟩

end Netconf
